import Mathlib

/-!
# Dwarf Therapist: the process-introspection core (`src/dfinstance.cpp`)

A shallow embedding of `DFInstance`.  Mutable members become fields of the
record `DFInstance`; every member function becomes a function that takes the
record and returns its result together with the updated record.  Side effects
that leave the object (log lines, raw reads through the platform backend,
attach/detach, Qt signals) are appended to the field `trace`, in program order.

Machine integers are `Nat`/`Int` with explicit wrap-around: `VIRTADDR` and
`USIZE` are unsigned 32-bit, `qint16`/`qint32` are two's complement.
-/

namespace DwarfTherapist

/-! ## Machine words -/

/-- Number of values of a 32-bit word (`VIRTADDR`, `USIZE`, `quint32`, `uint`). -/
def WORD32 : Nat := 4294967296

/-- Value of `sizeof(VIRTADDR)`: the target is a 32-bit process, the second word of a
vector descriptor is read at `addr + 4`. -/
def SIZEOF_VIRTADDR : Nat := 4

/-- Value of `sizeof(qint16)`. -/
def SIZEOF_SHORT : Nat := 2

/-- Unsigned 32-bit addition `a + b`. -/
def add32 (a b : Nat) : Nat := (a + b) % WORD32

/-- Unsigned 32-bit subtraction `a - b`, as in `end - start`. -/
def sub32 (a b : Nat) : Nat := (a % WORD32 + WORD32 - b % WORD32) % WORD32

/-- Address plus a signed offset (`addr + offset` with an `int` offset), wrapped to 32 bits. -/
def addr_off (a : Nat) (off : Int) : Nat := (((a : Int) + off) % (WORD32 : Int)).toNat

/-- Little-endian value of a byte string. -/
def le_decode : List Nat → Nat
  | [] => 0
  | b :: bs => b % 256 + 256 * le_decode bs

/-- Two's-complement reading of an unsigned value of `bits` bits. -/
def to_signed (bits : Nat) (v : Nat) : Int :=
  if v % 2 ^ bits < 2 ^ (bits - 1) then ((v % 2 ^ bits : Nat) : Int)
  else ((v % 2 ^ bits : Nat) : Int) - ((2 ^ bits : Nat) : Int)

/-- Conversion of a signed value to `uint` (`uint word_id = read_int(addr)`). -/
def to_uint32 (v : Int) : Nat := (v % (WORD32 : Int)).toNat

/-! ## Observable effects -/

/-- Severity of a log line (the `TRACE`, `LOGD`, `LOGI`, `LOGW`, `LOGE` streams). -/
inductive LogLevel where
  | LL_TRACE | LL_DEBUG | LL_INFO | LL_WARN | LL_ERROR
  deriving DecidableEq, Repr

/-- One effect of the core on its environment. -/
inductive Event where
  /-- a log line: stream, the literal text, the numbers streamed into it -/
  | log (level : LogLevel) (text : String) (args : List Int)
  /-- a call `read_raw(addr, bytes, buffer)`; `capacity` is the size in bytes of `buffer` -/
  | read_raw (addr bytes capacity : Nat)
  /-- a call of the backend's `attach()` -/
  | attach
  /-- a call of the backend's `detach()` -/
  | detach
  /-- an emitted Qt signal, by name -/
  | emit_signal (name : String)
  /-- a call into a collaborator whose own state is outside this model, by name and
  with the address of the object it is called on (0 for static calls) -/
  | call (name : String) (target : Nat)
  deriving DecidableEq, Repr

/-- The `read_raw` calls of a trace, as `(addr, bytes)`, in order. -/
def raw_reads : List Event → List (Nat × Nat)
  | [] => []
  | Event.read_raw a b _ :: es => (a, b) :: raw_reads es
  | _ :: es => raw_reads es

/-- The `LOGW` lines of a trace, by text, in order. -/
def warnings : List Event → List String
  | [] => []
  | Event.log LogLevel.LL_WARN t _ :: es => t :: warnings es
  | _ :: es => warnings es

/-- The `LOGE` lines of a trace, by text, in order. -/
def errors : List Event → List String
  | [] => []
  | Event.log LogLevel.LL_ERROR t _ :: es => t :: errors es
  | _ :: es => errors es

/-- The emitted signals of a trace, by name, in order. -/
def signals : List Event → List String
  | [] => []
  | Event.emit_signal n :: es => n :: signals es
  | _ :: es => signals es

/-! ## Connection status and memory layouts -/

/-- The enumeration `DFInstance::DFStatus`, in declaration order. -/
inductive DFStatus where
  | DFS_DISCONNECTED | DFS_CONNECTED | DFS_LAYOUT_OK | DFS_GAME_LOADED
  deriving DecidableEq, Repr

/-- Integer value of a status, for the comparison `m_status < DFS_LAYOUT_OK`. -/
def DFStatus.toNat : DFStatus → Nat
  | DFS_DISCONNECTED => 0
  | DFS_CONNECTED => 1
  | DFS_LAYOUT_OK => 2
  | DFS_GAME_LOADED => 3

/-- Modelled from the spec: the class `MemoryLayout` (memorylayout.h) is not part of the
source at hand.  A layout maps symbolic names to addresses and offsets, per namespace, and
carries a checksum, a build label, a revision tag, its file path and the validity and
completeness flags.  `address key is_global` is `address(key, is_global)`, whose second
parameter defaults to `true`. -/
structure MemoryLayout where
  address : String → Bool → Nat
  dwarf_offset : String → Int
  squad_offset : String → Int
  hist_figure_offset : String → Int
  hist_event_offset : String → Int
  item_offset : String → Int
  is_valid : Bool
  is_complete : Bool
  checksum : String
  game_version : String
  git_sha : String
  filepath : String
  /-- the method `is_valid_address(addr)` -/
  is_valid_address : Nat → Bool := fun a => decide (a ≠ 0)

/-! ## Domain objects

The classes below live in other translation units (word.h, material.h, races.h, plant.h,
dwarf.h, preference.h).  Each is a record of the accessors the core calls; the core never
looks behind them. -/

/-- Modelled from the spec: the class `Word` (word.h), the forms of one dictionary word. -/
structure Word where
  base : String
  noun : String
  plural_noun : String
  adjective : String
  verb : String
  present_participle_verb : String
  deriving DecidableEq, Repr

/-- Modelled from the spec: the class `Material` (material.h).  `address`, `index` and
`is_inorganic` are the arguments of `Material::get_material`; `state_name s` is
`get_material_name(s)` for the state with code `s`; `has_flag f` is `flags().has_flag(f)`. -/
structure Material where
  address : Nat
  index : Int
  is_inorganic : Bool
  state_name : Int → String
  has_flag : Int → Bool

/-- Modelled from the spec: the class `Race` (races.h): its name and the creature-material
lookup by local index (`get_creature_material`), null when there is none. -/
structure Race where
  address : Nat
  name : String
  get_creature_material : Int → Option Material

/-- Modelled from the spec: the class `Plant` (plant.h): names, flags, the number of
materials and the material lookup by local index (`get_plant_material`). -/
structure Plant where
  address : Nat
  name : String
  name_plural : String
  seed_plural : String
  has_flag : Int → Bool
  material_count : Int
  get_plant_material : Int → Option Material

/-- Modelled from the spec: `UnitEmotion`, of which the core reads the thought id. -/
structure UnitEmotion where
  thought_id : Int
  deriving DecidableEq, Repr

/-- Modelled from the spec: `EquipWarn::warn_info`, of which the core reads the item type. -/
structure warn_info where
  iType : Int
  deriving DecidableEq, Repr

/-- Modelled from the spec: the class `Dwarf` (dwarf.h), one unit, as the accessors the
core queries after construction.  `grouped_preferences` is the hash returned by
`get_grouped_preferences()` (category name to list of preference names), `labors` the keys
of `get_labors()`, `total_kills` is `hist_figure()->total_kills()`. -/
structure Dwarf where
  address : Nat
  is_valid : Bool
  is_animal : Bool
  is_baby : Bool
  is_child : Bool
  is_adult : Bool
  nice_name : String
  grouped_preferences : List (String × List String)
  labors : List Int
  labor_enabled : Int → Bool
  total_kills : Int
  emotions : List UnitEmotion
  equip_warnings : List warn_info

/-- Modelled from the spec: the class `ItemWeaponSubtype` (itemweaponsubtype.h), of which the
core reads the plural name and the group name. -/
structure ItemWeaponSubtype where
  address : Nat
  name_plural : String
  group_name : String
  deriving DecidableEq, Repr

/-- Modelled from the spec: the class `Reaction` (reaction.h), of which the core reads the
tag. -/
structure Reaction where
  address : Nat
  tag : String
  deriving DecidableEq, Repr

/-- Modelled from the spec: the class `Squad` (squad.h): id, display name and number of
assigned members. -/
structure Squad where
  address : Nat
  id : Int
  name : String
  assigned_count : Int
  deriving DecidableEq, Repr

/-- Modelled from the spec: the class `FortressEntity` (fortressentity.h), of which the core
asks whether a squad id is active. -/
structure FortressEntity where
  address : Nat
  squad_is_active : Int → Bool

/-- Modelled from the spec: the class `Activity` (activity.h): the number of its entries
(`activity_count`) and its lookup `find_activity(histfig_id)`, which returns the job kind and
the detail text of a historical figure. -/
structure Activity where
  address : Nat
  activity_count : Int
  find_activity : Int → Int × String

/-- Modelled from the spec: the enumerators of global_enums.h and the flag headers that the
core names, by integer value (material states, item types, material and plant flags), and
the predicate `Item::is_armor_type` of item.h.  `LIQUID_MISC` and `POWDER_MISC` are one
enumerator each, compared with an item type and passed to `has_flag` alike. -/
structure Enumerators where
  SOLID : Int
  LIQUID : Int
  POWDER : Int
  GENERIC : Int
  NONE : Int
  DRINK : Int
  LIQUID_MISC : Int
  CHEESE : Int
  POWDER_MISC : Int
  SEEDS : Int
  PLANT : Int
  LEAVES_FRUIT : Int
  LEAF_MAT : Int
  EDIBLE_RAW : Int
  IS_WOOD : Int
  SEED_MAT : Int
  ALCOHOL : Int
  ALCOHOL_PLANT : Int
  LIQUID_MISC_PLANT : Int
  POWDER_MISC_PLANT : Int
  P_TREE : Int
  is_armor_type : Int → Bool

/-- The struct `pref_stat` of dfinstance.h: who likes and who dislikes one preference. -/
structure pref_stat where
  names_likes : List String
  names_dislikes : List String
  pref_category : String
  deriving DecidableEq, Repr

/-- The value of `new pref_stat()`. -/
def pref_stat.fresh : pref_stat := { names_likes := [], names_dislikes := [], pref_category := "" }

/-- Modelled from the spec: what the core requires from its surroundings.  The host
application singleton `DT` (dwarftherapist.h) gives the three configuration flags and the
shared word cache `get_word` (null for an unknown id).  `capitalize` is the helper of
utils.h, `trimmed` is `QString::trimmed`, `pref_desc_like_creature` and
`pref_desc_hate_creature` are `Preference::get_pref_desc(LIKE_CREATURE)` and
`Preference::get_pref_desc(HATE_CREATURE)`, and `new_Dwarf addr` is the unit the constructor
`new Dwarf(this, addr, this)` builds from the record at `addr`.  Of Qt: `tr` is the
translation lookup, `toLower` is `QString::toLower`, `ci_equals a b` is
`QString::compare(a, b, Qt::CaseInsensitive) == 0`, `ci_contains a b` is
`a.contains(b, Qt::CaseInsensitive)`, `qSort_layouts` is `qSort` on a list of layout
pointers.  `read_string mem addr` is the string the backend's `read_string(addr)` decodes
from target memory, `new_Reaction addr` is `Reaction::get_reaction(this, addr)` and
`new_Squad id addr` is `new Squad(id, this, addr)`.  `JOB_UNKNOWN` is the enumerator
`DwarfJob::JOB_UNKNOWN` of dwarfjob.h, `new_Activity addr` is `new Activity(this, addr, this)`,
`hexify` is the helper of utils.h that renders a number as a hexadecimal address.
`LAYOUT_SUBDIR` is the macro of that name, set per operating system,
`absoluteFilePath dir name` is `QFileInfo(QDir(dir), name).absoluteFilePath()` and
`new_MemoryLayout path content` is the layout that `new MemoryLayout(this, file_info)` parses
from the file at `path` holding `content`. -/
structure Host where
  arena_mode : Bool
  labor_cheats_allowed : Bool
  hide_non_adults : Bool
  get_word : Nat → Option Word
  capitalize : String → String
  trimmed : String → String
  pref_desc_like_creature : String
  pref_desc_hate_creature : String
  new_Dwarf : Nat → Dwarf
  tr : String → String
  toLower : String → String
  ci_equals : String → String → Bool
  ci_contains : String → String → Bool
  qSort_layouts : List MemoryLayout → List MemoryLayout
  enums : Enumerators
  read_string : (Nat → Nat) → Nat → String
  new_Reaction : Nat → Reaction
  new_Squad : Int → Nat → Squad
  JOB_UNKNOWN : Int
  new_Activity : Nat → Activity
  hexify : Nat → String
  LAYOUT_SUBDIR : String
  absoluteFilePath : String → String → String
  new_MemoryLayout : String → String → MemoryLayout

/-! ## Hash and map containers

`QHash` and `QMap` with `insert` hold one value per key.  They are association lists in
which `insert` first erases the key. -/

/-- Lookup `value(key)`, `none` when the key is absent. -/
def assoc_value {κ ν : Type} [DecidableEq κ] : List (κ × ν) → κ → Option ν
  | [], _ => none
  | (k, v) :: rest, key => if k = key then some v else assoc_value rest key

/-- Removal of every entry of a key. -/
def assoc_erase {κ ν : Type} [DecidableEq κ] : List (κ × ν) → κ → List (κ × ν)
  | [], _ => []
  | (k, v) :: rest, key => if k = key then assoc_erase rest key else (k, v) :: assoc_erase rest key

/-- Replacement `insert(key, value)`. -/
def assoc_insert {κ ν : Type} [DecidableEq κ] (m : List (κ × ν)) (key : κ) (v : ν) : List (κ × ν) :=
  (key, v) :: assoc_erase m key

/-- Membership `contains(key)`. -/
def assoc_contains {κ ν : Type} [DecidableEq κ] (m : List (κ × ν)) (key : κ) : Bool :=
  (assoc_value m key).isSome

/-- The keys `uniqueKeys()`, each once. -/
def assoc_uniqueKeys {κ ν : Type} [DecidableEq κ] (m : List (κ × ν)) : List κ :=
  (m.map Prod.fst).dedup

/-! ## The instance -/

/-- The members of `DFInstance` the modelled functions read or write, the target process
as the platform backend presents it (`mem`: the byte at each address; `df_running`), the
host singleton, and the trace of effects. -/
structure DFInstance where
  /-- target memory: the byte stored at an address -/
  mem : Nat → Nat := fun _ => 0
  /-- result of the backend's `df_running()` -/
  df_running : Bool := false
  /-- the host singleton `DT` -/
  host : Host
  m_status : DFStatus := DFStatus.DFS_DISCONNECTED
  m_layout : Option MemoryLayout := none
  m_memory_layouts : List (String × MemoryLayout) := []
  m_df_checksum : String := ""
  m_heartbeat_timer_active : Bool := false
  m_dwarf_race_id : Int := 0
  m_dwarf_civ_id : Int := 0
  m_actual_dwarves : List Dwarf := []
  m_labor_capable_dwarves : List Dwarf := []
  m_enabled_labor_count : List (Int × Int) := []
  m_pref_counts : List ((String × String) × pref_stat) := []
  m_emotion_counts : List (Int × List (Nat × UnitEmotion)) := []
  m_equip_warning_counts : List (Int × List (Nat × warn_info)) := []
  m_hist_figures : List (Int × Nat) := []
  /-- the static `DwarfStats` maximum of unit kills, set by `set_max_unit_kills` -/
  max_unit_kills : Int := 0
  m_races : List Race := []
  m_plants_vector : List Plant := []
  m_base_materials : List Material := []
  m_inorganics_vector : List Material := []
  /-- the list `m_item_subtypes.value(WEAPON)` -/
  m_weapon_subtypes : List ItemWeaponSubtype := []
  m_reactions : List (String × Reaction) := []
  m_squads : List Squad := []
  m_squad_vector : Nat := 0
  m_fortress : Option FortressEntity := none
  m_current_year : Nat := 0
  m_cur_year_tick : Int := 0
  m_cur_time : Nat := 0
  m_occupations : List (Int × Nat) := []
  /-- the map `m_activities`, in ascending key order -/
  m_activities : List (Int × Activity) := []
  trace : List Event := []

/-- Append effects to the trace. -/
def DFInstance.emit (df : DFInstance) (es : List Event) : DFInstance :=
  { df with trace := df.trace ++ es }

/-- Assignment `m_status = s`. -/
def DFInstance.with_status (df : DFInstance) (s : DFStatus) : DFInstance :=
  { df with m_status := s }

/-- Append one effect to the trace. -/
def DFInstance.record (df : DFInstance) (e : Event) : DFInstance :=
  df.emit [e]

/-- Append a log line to the trace. -/
def DFInstance.logline (df : DFInstance) (level : LogLevel) (text : String) (args : List Int) :
    DFInstance :=
  df.record (Event.log level text args)

/-! ## Raw access primitives -/

/-- The `bytes` bytes of target memory from `addr` on (addresses wrap at 32 bits). -/
def peek (mem : Nat → Nat) (addr bytes : Nat) : List Nat :=
  (List.range bytes).map (fun i => mem (add32 addr i) % 256)

/-- Modelled from the spec: `read_raw(addr, bytes, buffer)` is pure virtual in `DFInstance`
and implemented by the platform backend: it copies `bytes` bytes of target memory starting
at `addr`.  The result is the copied bytes; `capacity` is the size of the destination. -/
def read_raw (df : DFInstance) (addr bytes capacity : Nat) : List Nat × DFInstance :=
  (peek df.mem addr bytes, df.record (Event.read_raw addr bytes capacity))

/-- The function `DFInstance::read_addr`. -/
def read_addr (df : DFInstance) (addr : Nat) : Nat × DFInstance :=
  let r := read_raw df addr SIZEOF_VIRTADDR SIZEOF_VIRTADDR
  (le_decode r.1, r.2)

/-- The function `DFInstance::read_word` (unsigned 16 bits). -/
def read_word (df : DFInstance) (addr : Nat) : Nat × DFInstance :=
  let r := read_raw df addr 2 2
  (le_decode r.1, r.2)

/-- The function `DFInstance::read_short` (signed 16 bits). -/
def read_short (df : DFInstance) (addr : Nat) : Int × DFInstance :=
  let r := read_raw df addr 2 2
  (to_signed 16 (le_decode r.1), r.2)

/-- The function `DFInstance::read_int` (signed 32 bits). -/
def read_int (df : DFInstance) (addr : Nat) : Int × DFInstance :=
  let r := read_raw df addr 4 4
  (to_signed 32 (le_decode r.1), r.2)

/-! ## Bulk vector enumeration -/

/-- The function `DFInstance::check_vector`. -/
def check_vector (df : DFInstance) (start end_ addr : Nat) : Bool × DFInstance :=
  let df := df.logline LogLevel.LL_TRACE "beginning vector enumeration at" [addr]
  let df := df.logline LogLevel.LL_TRACE "start of vector" [start]
  let df := df.logline LogLevel.LL_TRACE "end of vector" [end_]
  let entries : Nat := sub32 end_ start / SIZEOF_VIRTADDR
  let df := df.logline LogLevel.LL_TRACE "there appears to be entries in this vector" [entries]
  let r : Bool × DFInstance :=
    if entries > 1000000 then
      (false, df.logline LogLevel.LL_WARN "has over 1.000.000 entries!" [addr, entries])
    else if entries > 250000 then
      (true, df.logline LogLevel.LL_WARN "has over 250.000 entries!" [addr, entries])
    else if entries > 50000 then
      (true, df.logline LogLevel.LL_WARN "has over 50.000 entries!" [addr, entries])
    else if entries > 10000 then
      (true, df.logline LogLevel.LL_WARN "has over 10.000 entries!" [addr, entries])
    else (true, df)
  if !r.1 then
    (r.1, r.2.logline LogLevel.LL_ERROR "was not read due to an unacceptable size!" [addr, entries])
  else r

/-- The elements of a buffer of `n` elements of `size` bytes each. -/
def decode_elems {α : Type} (size : Nat) (decode : List Nat → α) (n : Nat) (buf : List Nat) :
    List α :=
  (List.range n).map (fun i => decode ((buf.drop (i * size)).take size))

/-- The template `DFInstance::enum_vec<T>`, with `sizeof(T)` and the decoding of one `T`
as parameters.  The output is resized to `bytes / sizeof(T)` elements and `read_raw` is
asked for `bytes` bytes into it.  When `bytes` is not a multiple of `sizeof(T)` the read asks
for more bytes than the output holds, which the event records as `capacity < bytes`; the
behaviour of the C++ code is then undefined, and the list given here is only what the bytes
that fit decode to. -/
def enum_vec {α : Type} (sizeofT : Nat) (decode : List Nat → α) (df : DFInstance) (addr : Nat) :
    List α × DFInstance :=
  let s := read_addr df addr
  let e := read_addr s.2 (add32 addr 4)
  let start := s.1
  let end_ := e.1
  let bytes := sub32 end_ start
  let c := check_vector e.2 start end_ addr
  if c.1 then
    let n := bytes / sizeofT
    let r := read_raw c.2 start bytes (n * sizeofT)
    let bytes_read := r.1.length
    (decode_elems sizeofT decode n r.1,
     r.2.logline LogLevel.LL_TRACE "FOUND addresses in vector at" [bytes_read / SIZEOF_VIRTADDR, addr])
  else ([], c.2)

/-- The function `DFInstance::enumerate_vector`, `enum_vec<VIRTADDR>`. -/
def enumerate_vector (df : DFInstance) (addr : Nat) : List Nat × DFInstance :=
  enum_vec SIZEOF_VIRTADDR le_decode df addr

/-- The function `DFInstance::enumerate_vector_short`, `enum_vec<qint16>`. -/
def enumerate_vector_short (df : DFInstance) (addr : Nat) : List Int × DFInstance :=
  enum_vec SIZEOF_SHORT (fun bs => to_signed 16 (le_decode bs)) df addr

/-! ## Material resolution -/

/-- The call `QVector::value(i)` on a vector of pointers: the element at `i`, null when `i`
is out of bounds. -/
def vector_value {α : Type} (v : List α) (i : Int) : Option α :=
  if 0 ≤ i then v.get? i.toNat else none

/-- Modelled from the spec: `get_race` is declared inline in dfinstance.h; it resolves the Race
identified by the index in `m_races` (filled in index order by `load_races_castes`). -/
def get_race (df : DFInstance) (idx : Int) : Option Race := vector_value df.m_races idx

/-- Modelled from the spec: `get_plant` is declared inline in dfinstance.h; it resolves the
Plant by index in `m_plants_vector` (filled in index order by `load_main_vectors`). -/
def get_plant (df : DFInstance) (idx : Int) : Option Plant := vector_value df.m_plants_vector idx

/-- Modelled from the spec: `get_raw_material` is declared inline in dfinstance.h; it looks a
raw/base material up by type code in `m_base_materials`. -/
def get_raw_material (df : DFInstance) (idx : Int) : Option Material :=
  vector_value df.m_base_materials idx

/-- Modelled from the spec: `get_inorganic_material` is declared inline in dfinstance.h; it
looks an inorganic material up by index in `m_inorganics_vector`. -/
def get_inorganic_material (df : DFInstance) (idx : Int) : Option Material :=
  vector_value df.m_inorganics_vector idx

/-- The loop body of `load_hist_figures`: index one figure by the id read from it. -/
def load_hist_figures_step (L : MemoryLayout) (df : DFInstance) (fig : Nat) : DFInstance :=
  let r := read_int df (addr_off fig (L.hist_figure_offset "id"))
  { r.2 with m_hist_figures := assoc_insert r.2.m_hist_figures r.1 fig }

/-- The function `DFInstance::load_hist_figures`; `none` when `m_layout` is null. -/
def load_hist_figures (df : DFInstance) : Option DFInstance :=
  match df.m_layout with
  | none => none
  | some L =>
    let v := enumerate_vector df (L.address "historical_figures_vector" true)
    some (v.1.foldl (load_hist_figures_step L) v.2)

/-- The function `DFInstance::find_historical_figure`: lazy load, then `value(hist_id, 0)`. -/
def find_historical_figure (df : DFInstance) (hist_id : Int) : Option (Nat × DFInstance) :=
  if df.m_hist_figures.length ≤ 0 then
    match load_hist_figures df with
    | none => none
    | some df1 => some ((assoc_value df1.m_hist_figures hist_id).getD 0, df1)
  else some ((assoc_value df.m_hist_figures hist_id).getD 0, df)

/-- The function `DFInstance::find_material`.  The result is the material pointer (`none`
for `NULL`) and the instance after the call; the whole is `none` when a null `m_layout` is
dereferenced. -/
def find_material (df : DFInstance) (mat_index mat_type : Int) :
    Option (Option Material × DFInstance) :=
  if mat_index < 0 then some (get_raw_material df mat_type, df)
  else if mat_type = 0 then some (get_inorganic_material df mat_index, df)
  else if mat_type < 19 then some (get_raw_material df mat_type, df)
  else if mat_type < 219 then
    match get_race df mat_index with
    | some r => some (r.get_creature_material (mat_type - 19), df)
    | none => some (none, df)
  else if mat_type < 419 then
    match find_historical_figure df mat_index with
    | none => none
    | some (hist_figure, df1) =>
      if hist_figure ≠ 0 then
        match df1.m_layout with
        | none => none
        | some L =>
          let r := read_short df1 (addr_off hist_figure (L.hist_figure_offset "hist_race"))
          match get_race r.2 r.1 with
          | some race => some (race.get_creature_material (mat_type - 219), r.2)
          | none => some (none, r.2)
      else some (none, df1)
  else if mat_type < 619 then
    match get_plant df mat_index with
    | some p =>
      if mat_type - 419 < p.material_count then some (p.get_plant_material (mat_type - 419), df)
      else some (none, df)
    | none => some (none, df)
  else some (none, df)

/-! ## Connection lifecycle -/

/-- The function `DFInstance::send_connection_interrupted`. -/
def send_connection_interrupted (df : DFInstance) : DFInstance :=
  let df1 : DFInstance :=
    if df.df_running then df.with_status DFStatus.DFS_LAYOUT_OK
    else df.with_status DFStatus.DFS_DISCONNECTED
  df1.record (Event.emit_signal "connection_interrupted")

/-- The `foreach` of `get_creatures` over the active units: read the civilization id of each
entry until one equals `m_dwarf_civ_id` (`break`). -/
def scan_active_units (report_progress : Bool) (civ_offset : Int) :
    List Nat → DFInstance → DFInstance
  | [], df => df
  | entry :: rest, df =>
    let r := read_word df (addr_off entry civ_offset)
    if (r.1 : Int) = r.2.m_dwarf_civ_id then
      if report_progress then r.2.logline LogLevel.LL_INFO "using active units" [] else r.2
    else scan_active_units report_progress civ_offset rest r.2

/-- The function `DFInstance::get_creatures`; `none` when `m_layout` is null. -/
def get_creatures (df : DFInstance) (report_progress : Bool) : Option (List Nat × DFInstance) :=
  match df.m_layout with
  | none => none
  | some L =>
    let active_units := L.address "active_creature_vector" true
    let all_units := L.address "creature_vector" true
    let first := enumerate_vector df active_units
    let r : List Nat × DFInstance :=
      if first.1.isEmpty then
        let df1 :=
          if report_progress then
            first.2.logline LogLevel.LL_INFO "no active units (embark) using full unit list" []
          else first.2
        enumerate_vector df1 all_units
      else
        let civ_offset := L.dwarf_offset "civ"
        let df1 := scan_active_units report_progress civ_offset first.1 first.2
        let df2 :=
          if report_progress then
            df1.logline LogLevel.LL_INFO
              "no active units with our civ (reclaim), using full unit list" []
          else df1
        enumerate_vector df2 all_units
    if r.1.length > 0 ∧ r.2.m_status = DFStatus.DFS_LAYOUT_OK then
      some (r.1, r.2.with_status DFStatus.DFS_GAME_LOADED)
    else some r

/-- The function `DFInstance::heartbeat`; `get_creatures` is only called when the status is
not `DFS_DISCONNECTED`. -/
def heartbeat (df : DFInstance) : Option DFInstance :=
  if df.m_status ≠ DFStatus.DFS_DISCONNECTED then
    match get_creatures df false with
    | none => none
    | some (entries, df1) =>
      if entries.length < 1 then some (send_connection_interrupted df1) else some df1
  else some df

/-! ## Unit loading -/

/-- The body of the `foreach` of `load_dwarves` over the creature addresses: construct the
unit, keep it if valid (the pointer returned by `new` is never null), and place it in
`m_actual_dwarves` and `m_labor_capable_dwarves`.  The accumulator carries the local vector
`dwarves`. -/
def load_dwarves_step (acc : List Dwarf × DFInstance) (creature_addr : Nat) :
    List Dwarf × DFInstance :=
  let df := acc.2
  let d := df.host.new_Dwarf creature_addr
  let r : List Dwarf × DFInstance :=
    if d.is_valid then
      let df1 : DFInstance :=
        if !d.is_animal then
          let df2 : DFInstance := { df with m_actual_dwarves := df.m_actual_dwarves ++ [d] }
          if !d.is_baby && (!d.is_child || df.host.labor_cheats_allowed) then
            { df2 with m_labor_capable_dwarves := df2.m_labor_capable_dwarves ++ [d] }
          else df2
        else df
      (acc.1 ++ [d], df1)
    else acc
  (r.1, r.2.record (Event.emit_signal "progress_value"))

/-- The `foreach` of `load_dwarves` over the creature addresses, from an empty `dwarves`. -/
def load_dwarves_units (df : DFInstance) (creatures_addrs : List Nat) : List Dwarf × DFInstance :=
  creatures_addrs.foldl load_dwarves_step ([], df)

/-- The function `DFInstance::load_role_ratings`.  The ratings are floating-point statistics
kept in `DwarfStats` and in the units, outside this model; the calls are recorded in order. -/
def load_role_ratings (df : DFInstance) : DFInstance :=
  if df.m_labor_capable_dwarves.length ≤ 0 then df
  else
    let df := df.emit [Event.call "DwarfStats::init_traits" 0, Event.call "DwarfStats::init_skills" 0,
      Event.call "DwarfStats::init_attributes" 0, Event.call "DwarfStats::init_prefs" 0]
    let df := df.emit (df.m_labor_capable_dwarves.map
      (fun d => Event.call "Dwarf::calc_role_ratings" d.address))
    let df := df.record (Event.call "DwarfStats::init_roles" 0)
    df.emit (df.m_labor_capable_dwarves.map
      (fun d => Event.call "Dwarf::refresh_role_display_ratings" d.address))

/-- The labor tally of `load_population_data` for one labor of one unit. -/
def count_labor (d : Dwarf) (counts : List (Int × Int)) (key : Int) : List (Int × Int) :=
  if d.labor_enabled key then
    let labor_count : Int :=
      if assoc_contains counts key then (assoc_value counts key).getD 0 + 1 else 1
    assoc_insert counts key labor_count
  else counts

/-- The preference tally of `load_population_data` for one preference `pref` of the unit `d`
in the category `category_name`: hated creatures go to the liked-creature key as dislikes;
the entry is taken out of the hash (or created), extended and inserted again. -/
def tally_preference (host : Host) (d : Dwarf) (category_name : String)
    (counts : List ((String × String) × pref_stat)) (pref : String) :
    List ((String × String) × pref_stat) :=
  let is_dislike : Bool := decide (category_name = host.pref_desc_hate_creature)
  let cat_name := if is_dislike then host.pref_desc_like_creature else category_name
  let key_pair : String × String := (cat_name, pref)
  let taken : pref_stat × List ((String × String) × pref_stat) :=
    if assoc_contains counts key_pair then
      ((assoc_value counts key_pair).getD pref_stat.fresh, assoc_erase counts key_pair)
    else (pref_stat.fresh, counts)
  let p := taken.1
  let p : pref_stat :=
    if is_dislike then { p with names_dislikes := p.names_dislikes ++ [d.nice_name] }
    else { p with names_likes := p.names_likes ++ [d.nice_name] }
  let p : pref_stat := { p with pref_category := cat_name }
  assoc_insert taken.2 key_pair p

/-- The two nested preference loops of `load_population_data` for one unit: every category
of `get_grouped_preferences().uniqueKeys()`, every preference of the category. -/
def tally_preferences (host : Host) (d : Dwarf) (counts : List ((String × String) × pref_stat)) :
    List ((String × String) × pref_stat) :=
  (assoc_uniqueKeys d.grouped_preferences).foldl
    (fun m category_name =>
      ((assoc_value d.grouped_preferences category_name).getD []).foldl
        (tally_preference host d category_name) m)
    counts

/-- The emotion tally of `load_population_data` for one emotion: the group of the thought is
created on first encounter, then `add_detail(d, ue)`. -/
def tally_emotion (d : Dwarf) (groups : List (Int × List (Nat × UnitEmotion))) (ue : UnitEmotion) :
    List (Int × List (Nat × UnitEmotion)) :=
  let groups := if !assoc_contains groups ue.thought_id then assoc_insert groups ue.thought_id []
    else groups
  assoc_insert groups ue.thought_id
    ((assoc_value groups ue.thought_id).getD [] ++ [(d.address, ue)])

/-- The equipment-warning tally of `load_population_data` for one warning. -/
def tally_equip_warning (d : Dwarf) (groups : List (Int × List (Nat × warn_info))) (wi : warn_info) :
    List (Int × List (Nat × warn_info)) :=
  let groups := if !assoc_contains groups wi.iType then assoc_insert groups wi.iType [] else groups
  assoc_insert groups wi.iType ((assoc_value groups wi.iType).getD [] ++ [(d.address, wi)])

/-- The visibility test of `load_population_data`:
`d->is_adult() || (!d->is_adult() && !DT->hide_non_adults())`. -/
def passes_visibility_filter (host : Host) (d : Dwarf) : Bool :=
  d.is_adult || (!d.is_adult && !host.hide_non_adults)

/-- The body of the `foreach` of `load_population_data` over `m_actual_dwarves`; the
accumulator carries the local `max_kills`.  Membership of a unit in
`m_labor_capable_dwarves` is by the unit's address. -/
def load_population_step (acc : Int × DFInstance) (d : Dwarf) : Int × DFInstance :=
  let df := acc.2
  let df : DFInstance :=
    { df with m_enabled_labor_count := d.labors.dedup.foldl (count_labor d) df.m_enabled_labor_count }
  let unit_kills := d.total_kills
  let max_kills := if unit_kills > acc.1 then unit_kills else acc.1
  let df : DFInstance :=
    if !(df.m_labor_capable_dwarves.any (fun x => x.address == d.address)) then
      df.record (Event.call "Dwarf::calc_attribute_ratings" d.address)
    else df
  let df : DFInstance :=
    if passes_visibility_filter df.host d then
      { df with
        m_pref_counts := tally_preferences df.host d df.m_pref_counts,
        m_emotion_counts := d.emotions.foldl (tally_emotion d) df.m_emotion_counts,
        m_equip_warning_counts :=
          d.equip_warnings.foldl (tally_equip_warning d) df.m_equip_warning_counts }
    else df
  (max_kills, df)

/-- The function `DFInstance::load_population_data`. -/
def load_population_data (df : DFInstance) : DFInstance :=
  let r := df.m_actual_dwarves.foldl load_population_step (0, df)
  { r.2 with max_unit_kills := r.1 }

/-- The function `DFInstance::load_dwarves`; `none` when a null `m_layout` is dereferenced. -/
def load_dwarves (df : DFInstance) : Option (List Dwarf × DFInstance) :=
  if df.m_status.toNat < DFStatus.DFS_LAYOUT_OK.toNat then
    some ([], (df.logline LogLevel.LL_ERROR
      "Could not load units: disconnected or invalid memory layout" []).record Event.detach)
  else
    match df.m_layout with
    | none => none
    | some L =>
      let creature_vector := L.address "creature_vector" true
      if !df.host.arena_mode && decide (df.m_dwarf_race_id < 0) then some ([], df)
      else
        let dwarf_civ_idx_addr := L.address "dwarf_civ_index" true
        let df := df.logline LogLevel.LL_DEBUG "loading creatures from" [creature_vector]
        let df := df.record (Event.emit_signal "progress_message")
        let df := df.record Event.attach
        let r := read_int df dwarf_civ_idx_addr
        let df : DFInstance := { r.2 with m_dwarf_civ_id := r.1 }
        let df := df.logline LogLevel.LL_DEBUG "civilization id:" [r.1]
        match get_creatures df true with
        | none => none
        | some (creatures_addrs, df) =>
          let df := df.record (Event.emit_signal "progress_range")
          let df := df.logline LogLevel.LL_TRACE "FOUND creatures" [creatures_addrs.length]
          let r : List Dwarf × DFInstance :=
            if !creatures_addrs.isEmpty then
              let l := load_dwarves_units df creatures_addrs
              let df := l.2.logline LogLevel.LL_INFO "read units" [l.1.length]
              let df : DFInstance :=
                { df with m_enabled_labor_count := [], m_pref_counts := [],
                          m_emotion_counts := [], m_equip_warning_counts := [] }
              let df := load_role_ratings df
              let df := df.logline LogLevel.LL_INFO "calculated roles" []
              let df := load_population_data df
              let df := df.logline LogLevel.LL_INFO "loaded population data" []
              let df : DFInstance := { df with m_actual_dwarves := [], m_labor_capable_dwarves := [] }
              (l.1, df.record (Event.call "DT::emit_labor_counts_updated" 0))
            else ([], send_connection_interrupted df)
          let df := r.2.record Event.detach
          some (r.1, df.logline LogLevel.LL_INFO "found units out of creatures"
            [r.1.length, creatures_addrs.length])

/-! ## Name decoding -/

/-- The function `DFInstance::read_dwarf_word`. -/
def read_dwarf_word (df : DFInstance) (addr : Nat) : Option Word × DFInstance :=
  let r := read_int df addr
  let word_id := to_uint32 r.1
  if word_id ≠ 0xFFFFFFFF then (df.host.get_word word_id, r.2) else (none, r.2)

/-- The first part of `DFInstance::read_dwarf_name`: the literal "The" and the fragments of
the slots at offsets 0x00, 0x04, 0x08, 0x0C and 0x10. -/
def read_dwarf_name_head (df : DFInstance) (addr : Nat) : String × DFInstance :=
  let cap := df.host.capitalize
  let result := "The"
  let w := read_dwarf_word df addr
  let result := match w.1 with
    | some word => result ++ (" " ++ cap word.base)
    | none => result
  let w := read_dwarf_word w.2 (add32 addr 0x04)
  let result := match w.1 with
    | some word => result ++ (" " ++ cap word.base)
    | none => result
  let w := read_dwarf_word w.2 (add32 addr 0x08)
  let result := match w.1 with
    | some word => result ++ (" " ++ cap word.adjective)
    | none => result
  let w := read_dwarf_word w.2 (add32 addr 0x0C)
  let result := match w.1 with
    | some word => result ++ (" " ++ cap word.base)
    | none => result
  let w := read_dwarf_word w.2 (add32 addr 0x10)
  let result := match w.1 with
    | some word => result ++ (" " ++ cap word.base)
    | none => result
  (result, w.2)

/-- The function `DFInstance::read_dwarf_name`: after the first five slots, the noun slot at
offset 0x14 and the "of" slot at offset 0x18, then `trimmed()`. -/
def read_dwarf_name (df : DFInstance) (addr : Nat) : String × DFInstance :=
  let cap := df.host.capitalize
  let h := read_dwarf_name_head df addr
  let result := h.1
  let w := read_dwarf_word h.2 (add32 addr 0x14)
  let noun : String × Bool := match w.1 with
    | some word =>
      if word.plural_noun = "" then (result ++ (" " ++ cap word.noun), true)
      else (result ++ (" " ++ cap word.plural_noun), false)
    | none => (result, false)
  let result := noun.1
  let singular := noun.2
  let w := read_dwarf_word w.2 (add32 addr 0x18)
  let result := match w.1 with
    | some word =>
      if ¬ word.verb = "" then
        if singular then result ++ (" of " ++ cap word.verb)
        else result ++ (" of " ++ cap word.present_participle_verb)
      else
        if singular then result ++ (" of " ++ cap word.noun)
        else result ++ (" of " ++ cap word.plural_noun)
    | none => result
  (df.host.trimmed result, w.2)

/-! ## Per-refresh clock -/

/-- The static `DFInstance::ticks_per_day` (`quint32`). -/
def ticks_per_day : Nat := 1200

/-- The static `DFInstance::ticks_per_month`, `28 * ticks_per_day` in `quint32`. -/
def ticks_per_month : Nat := (28 * ticks_per_day) % WORD32

/-- The static `DFInstance::ticks_per_season`, `3 * ticks_per_month` in `quint32`. -/
def ticks_per_season : Nat := (3 * ticks_per_month) % WORD32

/-- The static `DFInstance::ticks_per_year`, `12 * ticks_per_month` in `quint32`. -/
def ticks_per_year : Nat := (12 * ticks_per_month) % WORD32

/-- The expression `(int)m_current_year * ticks_per_year + m_cur_year_tick` of
`refresh_data`: the `int` operands are converted to the unsigned type of `ticks_per_year`
and the product and the sum wrap at 32 bits. -/
def cur_time (current_year : Nat) (cur_year_tick : Int) : Nat :=
  ((to_uint32 (current_year : Int) * ticks_per_year) % WORD32 + to_uint32 cur_year_tick) % WORD32

/-- The first statements of `DFInstance::refresh_data`, up to the assignment of `m_cur_time`
(the loaders it calls next are not part of this definition); `none` when `m_layout` is
null. -/
def refresh_data_clock (df : DFInstance) : Option DFInstance :=
  match df.m_layout with
  | none => none
  | some L =>
    let current_year := L.address "current_year" true
    let df := df.logline LogLevel.LL_DEBUG "loading current year from" [current_year]
    let current_year_tick := L.address "cur_year_tick" true
    let t := read_int df current_year_tick
    let df : DFInstance := { t.2 with m_cur_year_tick := t.1 }
    let y := read_word df current_year
    let df : DFInstance := { y.2 with m_current_year := y.1 }
    let df := df.logline LogLevel.LL_INFO "current year:" [df.m_current_year]
    some { df with m_cur_time := cur_time df.m_current_year df.m_cur_year_tick }

/-! ## Layout selection and status reporting -/

/-- The function `DFInstance::get_memory_layout`: the registry entry of the checksum (null
when absent), returned also when it is invalid. -/
def get_memory_layout (df : DFInstance) (checksum : String) : Option MemoryLayout × DFInstance :=
  match assoc_value df.m_memory_layouts checksum with
  | none => (none, df.logline LogLevel.LL_INFO "Could not find layout for checksum" [])
  | some ret_val =>
    if !ret_val.is_valid then
      (some ret_val, df.logline LogLevel.LL_INFO "Invalid layout for checksum" [])
    else (some ret_val, df)

/-- The function `DFInstance::set_memory_layout`.  A non-empty checksum is stored lowercased
in `m_df_checksum` and looked up as given; an empty one stands for the stored checksum.
`none` when the probe dereferences a null `m_layout`, which the guard excludes. -/
def set_memory_layout (df : DFInstance) (checksum : String) : Option DFInstance :=
  let df1 : DFInstance :=
    if ¬ checksum = "" then { df with m_df_checksum := df.host.toLower checksum } else df
  let checksum := if ¬ checksum = "" then checksum else df.m_df_checksum
  let df2 := df1.logline LogLevel.LL_INFO "Setting memory layout for DF checksum" []
  let g := get_memory_layout df2 checksum
  let df3 : DFInstance := { g.2 with m_layout := g.1 }
  match g.1 with
  | none => some df3
  | some l =>
    if l.is_valid && l.is_complete then
      let df4 := df3.with_status DFStatus.DFS_LAYOUT_OK
      let df5 := df4.logline LogLevel.LL_INFO "Detected Dwarf Fortress version" []
      match heartbeat df5 with
      | none => none
      | some df6 =>
        if !df6.m_heartbeat_timer_active then
          some ({ df6 with m_heartbeat_timer_active := true }.record
            (Event.call "QTimer::start" 1000))
        else some df6
    else some df3

/-- The function `DFInstance::status_err_msg`: title, text, informative text and detailed
text for a message box, by status (the `default` label of the switch is beyond the four
enumerators). -/
def status_err_msg (df : DFInstance) : List String :=
  match df.m_status with
  | DFStatus.DFS_DISCONNECTED =>
    [df.host.tr "Not Running",
     df.host.tr "Unable to locate a running copy of Dwarf Fortress, are you sure it's running?",
     "", ""]
  | DFStatus.DFS_CONNECTED =>
    let layouts := df.host.qSort_layouts (df.m_memory_layouts.map Prod.snd)
    let supported_vers := layouts.foldl
      (fun acc l => acc ++ (l.game_version ++ " (" ++ l.checksum ++ ")\n")) ""
    [df.host.tr "Unidentified Game Version",
     df.host.tr "I'm sorry but I don't know how to talk to this version of Dwarf Fortress!",
     df.host.tr "Checksum: " ++ df.m_df_checksum,
     df.host.tr "Supported Versions:\n" ++ supported_vers]
  | DFStatus.DFS_LAYOUT_OK =>
    [df.host.tr "No Game Loaded", df.host.tr "A fort has not been loaded.", "", ""]
  | DFStatus.DFS_GAME_LOADED => []

/-! ## Construction -/

/-- The code units of a file name, by which names are ordered. -/
def name_key (s : String) : List Nat := s.data.map Char.toNat

/-- The order `QDir::Name | QDir::Reversed` on directory entries: descending by file name. -/
def by_name_reversed (a b : String × MemoryLayout) : Prop := name_key b.1 ≤ name_key a.1

instance by_name_reversed_decidable : DecidableRel by_name_reversed :=
  fun a b => inferInstanceAs (Decidable (name_key b.1 ≤ name_key a.1))

/-- Modelled from the spec: `QDir::entryInfoList` with the sorting `QDir::Name |
QDir::Reversed`.  A directory is the list of its layout files, each with its name and the
layout that `new MemoryLayout(this, info)` parses from it; the listing is sorted by file name
in descending order. -/
def entryInfoList (dir : List (String × MemoryLayout)) : List (String × MemoryLayout) :=
  dir.insertionSort by_name_reversed

/-- The body of the `foreach` of the constructor: a valid layout is inserted under its
lowercased checksum, an invalid one is dropped. -/
def register_layout (host : Host) (df : DFInstance) (info : String × MemoryLayout) : DFInstance :=
  let temp := info.2
  if temp.is_valid then
    let df := df.logline LogLevel.LL_INFO "adding valid layout" []
    { df with m_memory_layouts := assoc_insert df.m_memory_layouts (host.toLower temp.checksum) temp }
  else df.logline LogLevel.LL_INFO "ignoring invalid layout" []

/-- The constructor `DFInstance::DFInstance`, given the host, the layout directory and
whether the codec "IBM437" is already registered.  The members start from their
initializers; with no valid layout the application is told to exit. -/
def DFInstance.construct (host : Host) (dir : List (String × MemoryLayout))
    (codec_registered : Bool) : DFInstance :=
  let df0 : DFInstance := { host := host }
  let df1 := (entryInfoList dir).foldl (register_layout host) df0
  let df2 :=
    if df1.m_memory_layouts.length < 1 then
      (df1.logline LogLevel.LL_ERROR
        "No valid memory layouts found in the following directories..." []).record
        (Event.call "qApp->exit(ERROR_NO_VALID_LAYOUTS)" 0)
    else df1
  if !codec_registered then df2.record (Event.call "new CP437Codec" 0) else df2

/-! ## Item catalog helpers -/

/-- The test of `find_weapon_subtype` on one subtype: plural name equal to the query, or
group name equal to it, or group name containing it, each ignoring case. -/
def weapon_subtype_matches (host : Host) (name : String) (w : ItemWeaponSubtype) : Bool :=
  host.ci_equals w.name_plural name || host.ci_equals w.group_name name ||
    host.ci_contains w.group_name name

/-- The `foreach` of `find_weapon_subtype`: the first subtype that passes the test is
returned, null when the list is exhausted. -/
def find_weapon_subtype_in (host : Host) (name : String) :
    List ItemWeaponSubtype → Option ItemWeaponSubtype
  | [] => none
  | w :: rest =>
    if weapon_subtype_matches host name w then some w
    else find_weapon_subtype_in host name rest

/-- The function `DFInstance::find_weapon_subtype`, over `m_item_subtypes.value(WEAPON)`. -/
def find_weapon_subtype (df : DFInstance) (name : String) : Option ItemWeaponSubtype :=
  find_weapon_subtype_in df.host name df.m_weapon_subtypes

/-! ## Material names -/

/-- The flag fallback of `find_material_name` for a plant material whose name is still
empty. -/
def plant_flag_fallback (E : Enumerators) (p : Plant) (m : Material) : String :=
  if m.has_flag E.LEAF_MAT && m.has_flag E.EDIBLE_RAW then
    p.name ++ " " ++ m.state_name E.GENERIC
  else if m.has_flag E.IS_WOOD && p.has_flag E.P_TREE then
    p.name ++ " " ++ m.state_name E.GENERIC
  else if m.has_flag E.SEED_MAT then p.seed_plural
  else if m.has_flag E.ALCOHOL || m.has_flag E.ALCOHOL_PLANT || m.has_flag E.LIQUID_MISC
      || m.has_flag E.LIQUID_MISC_PLANT then
    m.state_name E.LIQUID
  else if m.has_flag E.POWDER_MISC_PLANT || m.has_flag E.POWDER_MISC then m.state_name E.POWDER
  else m.state_name E.SOLID ++ " " ++ m.state_name E.GENERIC

/-- The branch `mat_type < 619` of `find_material_name` once the plant `p` is resolved: the
name before lowercasing and trimming, for the non-null material `m`. -/
def plant_material_name (E : Enumerators) (p : Plant) (m : Material) (itype mat_state : Int) :
    String :=
  if itype = E.SEEDS then p.seed_plural
  else if itype = E.PLANT then p.name_plural
  else
    let name : String :=
      if mat_state ≠ E.SOLID then m.state_name mat_state
      else if itype ≠ E.NONE then
        if itype = E.DRINK ∨ itype = E.LIQUID_MISC then m.state_name E.LIQUID
        else if itype = E.POWDER_MISC ∨ itype = E.CHEESE then m.state_name E.POWDER
        else if E.is_armor_type itype then m.state_name E.SOLID
        else if itype = E.LEAVES_FRUIT then p.name ++ " " ++ m.state_name E.GENERIC
        else ""
      else ""
    if name = "" then plant_flag_fallback E p m else name

/-- The function `DFInstance::find_material_name`.  `tr("%1's %2").arg(a).arg(b)` is the text
`a`, "'s " and `b`; `read_string` is recorded as a call.  `none` when a null `m_layout` is
dereferenced. -/
def find_material_name (df : DFInstance) (mat_index mat_type itype mat_state : Int) :
    Option (String × DFInstance) :=
  let E := df.host.enums
  match find_material df mat_index mat_type with
  | none => none
  | some (none, df1) => some ("", df1)
  | some (some m, df1) =>
    let r : Option (String × DFInstance) :=
      if mat_index < 0 ∨ mat_type < 19 then some (m.state_name mat_state, df1)
      else if mat_type < 219 then
        if itype = E.DRINK ∨ itype = E.LIQUID_MISC then some (m.state_name E.LIQUID, df1)
        else if itype = E.CHEESE then some (m.state_name mat_state, df1)
        else
          let name : String :=
            match get_race df1 mat_index with
            | some r => df.host.toLower r.name ++ " "
            | none => ""
          some (name ++ m.state_name mat_state, df1)
      else if mat_type < 419 then
        match find_historical_figure df1 mat_index with
        | none => none
        | some (hist_figure, df2) =>
          if hist_figure ≠ 0 then
            match df2.m_layout with
            | none => none
            | some L =>
              let rs := read_short df2 (addr_off hist_figure (L.hist_figure_offset "hist_race"))
              match get_race rs.2 rs.1 with
              | some _ =>
                let a := addr_off hist_figure (L.hist_figure_offset "hist_name")
                some (df.host.read_string rs.2.mem a ++ "'s " ++ m.state_name mat_state,
                      rs.2.record (Event.call "read_string" a))
              | none => some ("", rs.2)
          else some ("", df2)
      else if mat_type < 619 then
        match get_plant df1 mat_index with
        | some p => some (plant_material_name E p m itype mat_state, df1)
        | none => some ("", df1)
      else some ("", df1)
    match r with
    | none => none
    | some (name, df3) =>
      let df4 := if name = "" then df3.logline LogLevel.LL_WARN "material name not found!" []
        else df3
      some (df.host.trimmed (df.host.toLower name), df4)

/-! ## Reactions and squads -/

/-- The body of the `foreach` of `load_reactions`: build the reaction and insert it under its
tag. -/
def load_reactions_step (host : Host) (df : DFInstance) (reaction_addr : Nat) : DFInstance :=
  let r := host.new_Reaction reaction_addr
  { df with m_reactions := assoc_insert df.m_reactions r.tag r }

/-- The function `DFInstance::load_reactions`; `none` when `m_layout` is null. -/
def load_reactions (df : DFInstance) : Option DFInstance :=
  let df1 := df.record Event.attach
  match df1.m_layout with
  | none => none
  | some L =>
    let reactions_vector := L.address "reactions_vector" true
    let df2 : DFInstance :=
      if L.is_valid_address reactions_vector then
        let v := enumerate_vector df1 reactions_vector
        if !v.1.isEmpty then v.1.foldl (load_reactions_step df.host) v.2 else v.2
      else df1
    some (df2.record Event.detach)

/-- The `foreach` of `load_squads` over the squad addresses: the id is read first, an active
squad is built and pushed to the front of `m_squads` if its own id is active too.  `none`
when a null `m_layout` or a null `m_fortress` is dereferenced. -/
def load_squads_loop (show_progress : Bool) : List Nat → DFInstance → Option DFInstance
  | [], df => some df
  | squad_addr :: rest, df =>
    match df.m_layout, df.m_fortress with
    | some L, some fortress =>
      let r := read_int df (addr_off squad_addr (L.squad_offset "id"))
      let id := r.1
      let df1 : DFInstance :=
        if fortress.squad_is_active id then
          let sq := df.host.new_Squad id squad_addr
          let df2 := r.2.logline LogLevel.LL_INFO "FOUND ACTIVE SQUAD" [squad_addr, sq.assigned_count, sq.id]
          if fortress.squad_is_active sq.id then { df2 with m_squads := sq :: df2.m_squads }
          else df2
        else r.2
      let df3 := if show_progress then df1.record (Event.emit_signal "progress_value") else df1
      load_squads_loop show_progress rest df3
    | _, _ => none

/-- The part of `load_squads` from `attach()` to the end. -/
def load_squads_attached (df : DFInstance) (show_progress : Bool) :
    Option (List Squad × DFInstance) :=
  let df1 := df.record Event.attach
  let v := enumerate_vector df1 df1.m_squad_vector
  let df2 := v.2.logline LogLevel.LL_INFO "FOUND squads" [v.1.length]
  let df3 : DFInstance := { df2 with m_squads := [] }
  let r : Option DFInstance :=
    if !v.1.isEmpty then
      let df4 := if show_progress then df3.record (Event.emit_signal "progress_range") else df3
      load_squads_loop show_progress v.1 df4
    else some df3
  match r with
  | none => none
  | some df5 =>
    let df6 := df5.record Event.detach
    some (df6.m_squads, df6)

/-- The function `DFInstance::load_squads`; `none` when a null pointer is dereferenced. -/
def load_squads (df : DFInstance) (show_progress : Bool) : Option (List Squad × DFInstance) :=
  let df1 := df.logline LogLevel.LL_DEBUG "loading squads" []
  if df1.m_status ≠ DFStatus.DFS_GAME_LOADED then
    some ([], (df1.logline LogLevel.LL_WARN "not connected" []).record Event.detach)
  else if show_progress then
    match df1.m_layout with
    | none => none
    | some L =>
      let df2 : DFInstance := { df1 with m_squad_vector := L.address "squad_vector" true }
      if df2.m_squad_vector = 0xFFFFFFFF then
        some ([], df2.logline LogLevel.LL_INFO
          "Squads not supported for this version of Dwarf Fortress" [])
      else
        let df3 := df2.logline LogLevel.LL_DEBUG "loading squads from" [df2.m_squad_vector]
        load_squads_attached (df3.record (Event.emit_signal "progress_message")) show_progress
  else load_squads_attached df1 show_progress

/-! ## Occupations and activities -/

/-- The function `DFInstance::find_occupation`: `m_occupations.value(hist_id, 0)`. -/
def find_occupation (df : DFInstance) (hist_id : Int) : Nat :=
  (assoc_value df.m_occupations hist_id).getD 0

/-- The loop body of `load_occupations`: index one occupation by the value read at
`addr + 0x8`. -/
def load_occupations_step (df : DFInstance) (addr : Nat) : DFInstance :=
  let r := read_int df (add32 addr 0x8)
  { r.2 with m_occupations := assoc_insert r.2.m_occupations r.1 addr }

/-- The function `DFInstance::load_occupations`; `none` when `m_layout` is null. -/
def load_occupations (df : DFInstance) : Option DFInstance :=
  match df.m_layout with
  | none => none
  | some L =>
    let oc_addrs := enumerate_vector df (L.address "occupations_vector" true)
    some (oc_addrs.1.foldl load_occupations_step oc_addrs.2)

/-- The operation `QMap::insert(key, value)`: the entries are kept in ascending key order,
one value per key. -/
def qmap_insert {ν : Type} : List (Int × ν) → Int → ν → List (Int × ν)
  | [], key, v => [(key, v)]
  | (k, w) :: rest, key, v =>
    if key < k then (key, v) :: (k, w) :: rest
    else if key = k then (key, v) :: rest
    else (k, w) :: qmap_insert rest key v

/-- The loop of `find_activity` over the activities in the order of the iteration: the
first answer whose job kind is not `JOB_UNKNOWN`, else `(JOB_UNKNOWN, "")`. -/
def find_activity_scan (JOB_UNKNOWN : Int) (histfig_id : Int) : List Activity → Int × String
  | [] => (JOB_UNKNOWN, "")
  | act :: rest =>
    let ret := act.find_activity histfig_id
    if ret.1 ≠ JOB_UNKNOWN then ret else find_activity_scan JOB_UNKNOWN histfig_id rest

/-- The function `DFInstance::find_activity`: the iterator starts at the back of the map and
steps with `previous()`. -/
def find_activity (df : DFInstance) (histfig_id : Int) : Int × String :=
  find_activity_scan df.host.JOB_UNKNOWN histfig_id (df.m_activities.reverse.map Prod.snd)

/-- The body of the `foreach` of `load_activities`: the address goes into the local map
`sorted_activities` under the number read at it. -/
def sort_activity (acc : List (Int × Nat) × DFInstance) (addr : Nat) :
    List (Int × Nat) × DFInstance :=
  let r := read_int acc.2 addr
  (qmap_insert acc.1 r.1 addr, r.2)

/-- The body of the `while` of `load_activities`: the activity is built and, when it has
entries, inserted under its key. -/
def load_activities_step (df : DFInstance) (entry : Int × Nat) : DFInstance :=
  let act := df.host.new_Activity entry.2
  let df := df.record (Event.call "Activity::Activity" entry.2)
  if act.activity_count > 0 then { df with m_activities := qmap_insert df.m_activities entry.1 act }
  else df

/-- The function `DFInstance::load_activities`; the second loop walks `sorted_activities`
from the back.  `none` when `m_layout` is null. -/
def load_activities (df : DFInstance) : Option DFInstance :=
  let df : DFInstance := { df with m_activities := [] }
  let df := df.logline LogLevel.LL_DEBUG "loading activities" []
  match df.m_layout with
  | none => none
  | some L =>
    let activity_addrs := enumerate_vector df (L.address "activities_vector" true)
    let sorted := activity_addrs.1.foldl sort_activity ([], activity_addrs.2)
    some (sorted.1.reverse.foldl load_activities_step sorted.2)

/-! ## Hex dump -/

/-- The hexadecimal digit of a value below 16, in lower case. -/
def hex_digit (n : Nat) : Char :=
  if n < 10 then Char.ofNat (48 + n) else Char.ofNat (87 + n)

/-- The operation `QByteArray::toHex()`: two hexadecimal digits per byte. -/
def toHex (ba : List Nat) : String :=
  ⟨ba.flatMap (fun b => [hex_digit (b % 256 / 16), hex_digit (b % 16)])⟩

/-- The operation `QByteArray::mid(pos, len)`: at most `len` bytes from `pos` on, none when
`pos` is past the end. -/
def mid (ba : List Nat) (pos len : Nat) : List Nat := (ba.drop pos).take len

/-- The first inner loop of `pprint`: the hexadecimal column of row `i`. -/
def pprint_hex (ba : List Nat) (i : Nat) (out : String) : String :=
  (List.range 16).foldl (fun out c => (out ++ toHex (mid ba (i * 16 + c) 1)) ++ " ") out

/-- The body of the second inner loop of `pprint`, one cell of the text column.  `tmp.at(0)`
requires a non-empty `tmp`: the result is `none` when the slice is empty.  The comparisons
with 0, 32 and 126 come out the same for a signed and an unsigned `char`. -/
def pprint_text_cell (ba : List Nat) (i : Nat) (out : String) (c : Nat) : Option String :=
  let tmp := mid ba (i * 16 + c) 1
  match tmp.head? with
  | none => none
  | some b =>
    let ch := b % 256
    if ch = 0 then some (out ++ ".")
    else if ch ≤ 126 ∧ ch ≥ 32 then some (out ++ String.singleton (Char.ofNat ch))
    else some (out ++ toHex tmp)

/-- The second inner loop of `pprint`: the text column of row `i`. -/
def pprint_text (ba : List Nat) (i : Nat) : List Nat → String → Option String
  | [], out => some out
  | c :: rest, out =>
    match pprint_text_cell ba i out c with
    | none => none
    | some out1 => pprint_text ba i rest out1

/-- The body of the outer loop of `pprint`: row `i`. -/
def pprint_row (host : Host) (ba : List Nat) (out : String) (i : Nat) : Option String :=
  let offset := (i * 16) % WORD32
  let out := out ++ host.hexify offset
  let out := out ++ " | "
  let out := pprint_hex ba i out
  let out := out ++ "| "
  match pprint_text ba i (List.range 16) out with
  | none => none
  | some out => some (out ++ "\n")

/-- The outer loop of `pprint` over the rows. -/
def pprint_rows (host : Host) (ba : List Nat) : List Nat → String → Option String
  | [], out => some out
  | i :: rest, out =>
    match pprint_row host ba out i with
    | none => none
    | some out1 => pprint_rows host ba rest out1

/-- The two header lines of `pprint`. -/
def pprint_header : String :=
  "    ADDR   | 00 01 02 03 04 05 06 07 08 09 0A 0B 0C 0D 0E 0F | TEXT\n" ++
  "------------------------------------------------------------------------\n"

/-- The function `DFInstance::pprint`; `none` when `at(0)` is applied to an empty slice. -/
def pprint (host : Host) (ba : List Nat) : Option String :=
  let out := pprint_header
  let lines := ba.length / 16
  let lines := if ba.length % 16 ≠ 0 then lines + 1 else lines
  let lines := if lines < 1 then 0 else lines
  pprint_rows host ba (List.range lines) out

/-! ## Adding a layout file -/

/-- The replacement of the place marker `%1` in the characters of a text. -/
def arg_chars (a : List Char) : List Char → List Char
  | [] => []
  | [c] => [c]
  | c :: d :: rest =>
    if c = '%' ∧ d = '1' then a ++ arg_chars a rest else c :: arg_chars a (d :: rest)

/-- The operation `QString::arg(a)` on a text whose place markers are all `%1`: every `%1`
is replaced by `a`. -/
def qarg (s a : String) : String := ⟨arg_chars a.data s.data⟩

/-- Modelled from the spec: the file system as `QFile` presents it: the files that exist,
each with its content, and whether a file that does not exist yet can be opened for
writing. -/
structure FileSystem where
  files : List (String × String)
  can_create : String → Bool

/-- The function `DFInstance::add_new_layout`.  The result is the returned flag, the text
left in the reference parameter `result_msg` and the file system after the call. -/
def add_new_layout (df : DFInstance) (fs : FileSystem) (filename data result_msg : String) :
    (Bool × String × FileSystem) × DFInstance :=
  let file_path := df.host.absoluteFilePath
    (qarg "share/memory_layouts/%1" df.host.LAYOUT_SUBDIR) filename
  let r : (Bool × String × FileSystem) × DFInstance :=
    if assoc_contains fs.files file_path then
      ((false, qarg (df.host.tr "Layout file %1 already exist!") file_path, fs), df)
    else
      let df := df.logline LogLevel.LL_INFO "Creating new layout file:" []
      if !fs.can_create file_path then
        ((false, qarg (df.host.tr "Failed to create layout file %1") file_path, fs), df)
      else
        ((true, result_msg, { fs with files := assoc_insert fs.files file_path data }), df)
  if r.1.1 then
    let temp := df.host.new_MemoryLayout file_path data
    if temp.is_valid then
      let df := r.2.logline LogLevel.LL_INFO "adding valid layout" []
      (r.1, { df with
        m_memory_layouts := assoc_insert df.m_memory_layouts (df.host.toLower temp.checksum) temp })
    else (r.1, r.2.logline LogLevel.LL_INFO "ignoring invalid layout from file:" [])
  else r

/-! ## Vocabulary of the properties -/

/-- First word of the vector descriptor at `addr`: the address of the first element. -/
def descriptor_start (df : DFInstance) (addr : Nat) : Nat :=
  le_decode (peek df.mem addr SIZEOF_VIRTADDR)

/-- Second word of the vector descriptor at `addr`: the address past the last element. -/
def descriptor_end (df : DFInstance) (addr : Nat) : Nat :=
  le_decode (peek df.mem (add32 addr 4) SIZEOF_VIRTADDR)

/-- Size in bytes of the vector described at `addr`, `end - start` in `USIZE`. -/
def descriptor_bytes (df : DFInstance) (addr : Nat) : Nat :=
  sub32 (descriptor_end df addr) (descriptor_start df addr)

/-- The two reads of the descriptor words that open every enumeration. -/
def descriptor_reads (addr : Nat) : List Event :=
  [Event.read_raw addr SIZEOF_VIRTADDR SIZEOF_VIRTADDR,
   Event.read_raw (add32 addr 4) SIZEOF_VIRTADDR SIZEOF_VIRTADDR]

/-- The size warning `check_vector` logs for a count of `entries`, if any. -/
def size_warning (addr entries : Nat) : List Event :=
  if entries > 1000000 then [Event.log LogLevel.LL_WARN "has over 1.000.000 entries!" [addr, entries]]
  else if entries > 250000 then [Event.log LogLevel.LL_WARN "has over 250.000 entries!" [addr, entries]]
  else if entries > 50000 then [Event.log LogLevel.LL_WARN "has over 50.000 entries!" [addr, entries]]
  else if entries > 10000 then [Event.log LogLevel.LL_WARN "has over 10.000 entries!" [addr, entries]]
  else []

/-- Everything `check_vector` logs, in order. -/
def check_vector_events (start end_ addr : Nat) : List Event :=
  [Event.log LogLevel.LL_TRACE "beginning vector enumeration at" [addr],
   Event.log LogLevel.LL_TRACE "start of vector" [start],
   Event.log LogLevel.LL_TRACE "end of vector" [end_],
   Event.log LogLevel.LL_TRACE "there appears to be entries in this vector"
     [((sub32 end_ start / SIZEOF_VIRTADDR : Nat) : Int)]]
  ++ size_warning addr (sub32 end_ start / SIZEOF_VIRTADDR)
  ++ (if sub32 end_ start / SIZEOF_VIRTADDR > 1000000 then
        [Event.log LogLevel.LL_ERROR "was not read due to an unacceptable size!"
          [addr, ((sub32 end_ start / SIZEOF_VIRTADDR : Nat) : Int)]]
      else [])

/-- The text of the size warning for the highest of the thresholds 250,000 / 50,000 /
10,000 that `n` strictly exceeds. -/
def highest_exceeded_warning (n : Nat) : String :=
  if n > 250000 then "has over 250.000 entries!"
  else if n > 50000 then "has over 50.000 entries!"
  else "has over 10.000 entries!"

/-- Effects that only observe: log lines and raw reads. -/
def Event.is_passive : Event → Bool
  | Event.log _ _ _ => true
  | Event.read_raw _ _ _ => true
  | _ => false

/-- The status `get_creatures` leaves behind, given the prior status and the returned list. -/
def status_after_get_creatures (s : DFStatus) (entries : List Nat) : DFStatus :=
  if s = DFStatus.DFS_LAYOUT_OK ∧ entries ≠ [] then DFStatus.DFS_GAME_LOADED else s

/-- The word held by the name slot at byte offset `off` of the block at `addr`, if any. -/
def slot_word (df : DFInstance) (addr off : Nat) : Option Word :=
  (read_dwarf_word df (add32 addr off)).1

/-- The tally `counts` lists `name` among the likes of the entry `key`. -/
def records_like (counts : List ((String × String) × pref_stat)) (key : String × String)
    (name : String) : Prop :=
  ∃ p, assoc_value counts key = some p ∧ name ∈ p.names_likes

/-- The tally `counts` lists `name` among the dislikes of the entry `key`. -/
def records_dislike (counts : List ((String × String) × pref_stat)) (key : String × String)
    (name : String) : Prop :=
  ∃ p, assoc_value counts key = some p ∧ name ∈ p.names_dislikes

/-- The preference tally after the population loop, as a function of the tally before it. -/
def population_prefs (host : Host) (ds : List Dwarf)
    (counts : List ((String × String) × pref_stat)) : List ((String × String) × pref_stat) :=
  ds.foldl (fun m d => if passes_visibility_filter host d then tally_preferences host d m else m)
    counts

/-- Number of `attach()` calls in a trace. -/
def attach_calls : List Event → Nat
  | [] => 0
  | Event.attach :: es => attach_calls es + 1
  | _ :: es => attach_calls es

/-- Number of `detach()` calls in a trace. -/
def detach_calls : List Event → Nat
  | [] => 0
  | Event.detach :: es => detach_calls es + 1
  | _ :: es => detach_calls es

/-- The instance `after` has the trace of `before` extended by effects among which there is
neither an `attach()` nor a `detach()`. -/
def extends_quietly (before after : DFInstance) : Prop :=
  ∃ es, after.trace = before.trace ++ es ∧ attach_calls es = 0 ∧ detach_calls es = 0

/-! ## Concrete inputs -/

/-- Memory holding the given 32-bit words, little-endian, at the given addresses, and
zero everywhere else. -/
def mem_of_words : List (Nat × Nat) → Nat → Nat
  | [], _ => 0
  | (base, v) :: rest, a =>
    if base ≤ a ∧ a < base + 4 then (v / 256 ^ (a - base)) % 256 else mem_of_words rest a

/-- A unit with every flag off and nothing recorded. -/
def blank_dwarf (addr : Nat) : Dwarf :=
  { address := addr, is_valid := false, is_animal := false, is_baby := false, is_child := false,
    is_adult := false, nice_name := "", grouped_preferences := [], labors := [],
    labor_enabled := fun _ => false, total_kills := 0, emotions := [], equip_warnings := [] }

/-- Lowercasing of the ASCII letters of a text. -/
def ascii_lower (s : String) : String := ⟨s.data.map Char.toLower⟩

/-- Whether the text `a` contains the text `b`. -/
def text_contains (a b : String) : Bool := a.data.tails.any (fun t => b.data.isPrefixOf t)

/-- Enumerator values for the concrete inputs: the item types and material states by their
codes in the game, the flags by distinct codes, armor being ARMOR, SHOES, HELM, GLOVES and
PANTS (25, 26, 28, 29, 59). -/
def sample_enums : Enumerators :=
  { SOLID := 0, LIQUID := 1, POWDER := 3, GENERIC := 6,
    NONE := -1, DRINK := 68, LIQUID_MISC := 72, CHEESE := 70, POWDER_MISC := 69,
    SEEDS := 52, PLANT := 53, LEAVES_FRUIT := 55,
    LEAF_MAT := 101, EDIBLE_RAW := 3, IS_WOOD := 23, SEED_MAT := 102, ALCOHOL := 5,
    ALCOHOL_PLANT := 13, LIQUID_MISC_PLANT := 20, POWDER_MISC_PLANT := 17, P_TREE := 103,
    is_armor_type := fun i => decide (i = 25 ∨ i = 26 ∨ i = 28 ∨ i = 29 ∨ i = 59) }

/-- The text "0x" followed by the eight hexadecimal digits of a 32-bit number. -/
def hexify8 (n : Nat) : String :=
  "0x" ++ toHex [n / 16777216, n / 65536, n / 256, n]

/-- A layout file parses to a layout with no addresses whose checksum is the whole content
of the file; an empty file is an invalid layout. -/
def layout_of_content (path content : String) : MemoryLayout :=
  { address := fun _ _ => 0, dwarf_offset := fun _ => 0, squad_offset := fun _ => 0,
    hist_figure_offset := fun _ => 0, hist_event_offset := fun _ => 0, item_offset := fun _ => 0,
    is_valid := decide (content ≠ ""), is_complete := true, checksum := content,
    game_version := "", git_sha := "", filepath := path }

/-- A host with every flag off and an empty word cache; texts are compared after ASCII
lowercasing and nothing is translated.  Every activity is empty, the working directory is
"/opt/dt" and the platform is Linux. -/
def plain_host : Host :=
  { arena_mode := false, labor_cheats_allowed := false, hide_non_adults := false,
    get_word := fun _ => none, capitalize := fun w => w, trimmed := fun w => w,
    pref_desc_like_creature := "Likes", pref_desc_hate_creature := "Hates",
    new_Dwarf := blank_dwarf,
    tr := fun t => t, toLower := ascii_lower,
    ci_equals := fun a b => decide (ascii_lower a = ascii_lower b),
    ci_contains := fun a b => text_contains (ascii_lower a) (ascii_lower b),
    qSort_layouts := fun l => l, enums := sample_enums,
    read_string := fun _ _ => "",
    new_Reaction := fun a => { address := a, tag := "" },
    new_Squad := fun i a => { address := a, id := i, name := "", assigned_count := 0 },
    JOB_UNKNOWN := -1,
    new_Activity := fun a => { address := a, activity_count := 0, find_activity := fun _ => (-1, "") },
    hexify := hexify8, LAYOUT_SUBDIR := "linux",
    absoluteFilePath := fun d n => "/opt/dt/" ++ d ++ "/" ++ n,
    new_MemoryLayout := layout_of_content }

/-- An instance whose target memory holds one vector descriptor at address 16, with the
elements starting at 4096 and taking `bytes` bytes. -/
def instance_with_vector (bytes : Nat) : DFInstance :=
  { host := plain_host, mem := mem_of_words [(16, 4096), (20, 4096 + bytes)] }

/-- The address of the material a `find_material` call resolved, when it returned. -/
def resolved_address (r : Option (Option Material × DFInstance)) : Option (Option Nat) :=
  r.map (fun x => x.1.map Material.address)

/-- A material with the given address, index and kind, nameless and flagless. -/
def sample_material (addr : Nat) (idx : Int) (inorganic : Bool) : Material :=
  { address := addr, index := idx, is_inorganic := inorganic,
    state_name := fun _ => "", has_flag := fun _ => false }

/-- A layout with every address and offset zero but the race field of a historical figure,
at offset 2. -/
def sample_layout : MemoryLayout :=
  { address := fun _ _ => 0, dwarf_offset := fun _ => 0, squad_offset := fun _ => 0,
    hist_figure_offset := fun k => if k = "hist_race" then 2 else 0,
    hist_event_offset := fun _ => 0, item_offset := fun _ => 0,
    is_valid := true, is_complete := true, checksum := "abc", game_version := "v",
    git_sha := "", filepath := "" }

/-- An instance with one race (creature material `i` at address `1000 + i`), one plant with
200 materials (plant material `i` at address `2000 + i`), one base material at address 10,
one inorganic material at address 20, and the historical figure with id 0 indexed at address
5000, whose race field holds 0. -/
def instance_with_catalogs : DFInstance :=
  { host := plain_host, m_layout := some sample_layout,
    m_races := [{ address := 100, name := "DWARF",
                  get_creature_material := fun i => some (sample_material (1000 + i.toNat) i false) }],
    m_plants_vector := [{ address := 200, name := "plump helmet", name_plural := "plump helmets",
                          seed_plural := "plump helmet spawn", has_flag := fun _ => false,
                          material_count := 200,
                          get_plant_material := fun i => some (sample_material (2000 + i.toNat) i false) }],
    m_base_materials := [sample_material 10 0 false],
    m_inorganics_vector := [sample_material 20 0 true],
    m_hist_figures := [(0, 5000)] }

/-- A layout with the creature vector at address 16, the active-units vector at address 32
and every other address and offset zero. -/
def unit_layout : MemoryLayout :=
  { address := fun k _ =>
      if k = "creature_vector" then 16 else if k = "active_creature_vector" then 32 else 0,
    dwarf_offset := fun _ => 0, squad_offset := fun _ => 0, hist_figure_offset := fun _ => 0,
    hist_event_offset := fun _ => 0, item_offset := fun _ => 0,
    is_valid := true, is_complete := true, checksum := "abc", game_version := "v",
    git_sha := "", filepath := "" }

/-- An instance in the given status with `unit_layout` selected, whose creature vector holds
`count` units starting at address 4096 and whose active-units vector is empty; `alive` is
what the backend reports for the process. -/
def instance_with_units (status : DFStatus) (count : Nat) (alive : Bool) : DFInstance :=
  { host := plain_host, m_layout := some unit_layout, m_status := status, df_running := alive,
    mem := mem_of_words [(16, 4096), (20, 4096 + 4 * count)] }

/-- A small dictionary: word 1 has no plural noun, word 2 has a verb, word 3 has a plural
noun, word 4 has no verb. -/
def sample_words (id : Nat) : Option Word :=
  if id = 1 then
    some { base := "hammer", noun := "hammer", plural_noun := "", adjective := "hammered",
           verb := "hammer", present_participle_verb := "hammering" }
  else if id = 2 then
    some { base := "strike", noun := "blow", plural_noun := "blows", adjective := "striking",
           verb := "strike", present_participle_verb := "striking" }
  else if id = 3 then
    some { base := "hammer", noun := "hammer", plural_noun := "hammers", adjective := "hammered",
           verb := "hammer", present_participle_verb := "hammering" }
  else if id = 4 then
    some { base := "blow", noun := "blow", plural_noun := "blows", adjective := "",
           verb := "", present_participle_verb := "" }
  else none

/-- An instance with the dictionary `sample_words` and two name blocks whose first five
slots are absent: at address 64 the slots 6 and 7 hold the words 1 and 2, at address 128 the
words 3 and 4. -/
def instance_with_names : DFInstance :=
  { host := { plain_host with get_word := sample_words },
    mem := mem_of_words
      [(64, 4294967295), (68, 4294967295), (72, 4294967295), (76, 4294967295), (80, 4294967295),
       (84, 1), (88, 2),
       (128, 4294967295), (132, 4294967295), (136, 4294967295), (140, 4294967295),
       (144, 4294967295), (148, 3), (152, 4)] }

/-- The units of the nursery: address 1 an adult, 2 a baby, 3 a child, 4 an animal, all
valid; every other address an invalid record. -/
def nursery_unit (addr : Nat) : Dwarf :=
  { blank_dwarf addr with
    is_valid := decide (1 ≤ addr ∧ addr ≤ 4), is_adult := decide (addr = 1),
    is_baby := decide (addr = 2), is_child := decide (addr = 3), is_animal := decide (addr = 4) }

/-- An instance whose units are those of the nursery, with the labor-cheat flag as given. -/
def nursery_instance (labor_cheats : Bool) : DFInstance :=
  { host := { plain_host with labor_cheats_allowed := labor_cheats, new_Dwarf := nursery_unit } }

/-- Urist, an adult who hates trolls. -/
def urist : Dwarf :=
  { blank_dwarf 1 with
    is_valid := true, is_adult := true, nice_name := "Urist",
    grouped_preferences := [("Hates", ["troll"])] }

/-- Bomrek, an adult who likes trolls. -/
def bomrek : Dwarf :=
  { blank_dwarf 2 with
    is_valid := true, is_adult := true, nice_name := "Bomrek",
    grouped_preferences := [("Likes", ["troll"])] }

/-- An instance whose non-animal population is Urist and Bomrek, with an empty tally. -/
def instance_with_population : DFInstance :=
  { host := plain_host, m_actual_dwarves := [urist, bomrek] }

/-- An instance with `unit_layout` selected whose creature vector holds the two units at
20480 and 24576 and whose active-units vector holds the unit at 20480 alone; the civilization
field of that unit holds 0 and the tracked civilization id is `civ`. -/
def instance_with_active_units (civ : Int) : DFInstance :=
  { host := plain_host, m_layout := some unit_layout, m_status := DFStatus.DFS_LAYOUT_OK,
    m_dwarf_civ_id := civ,
    mem := mem_of_words [(16, 4096), (20, 4104), (4096, 20480), (4100, 24576),
                         (32, 8192), (36, 8196), (8192, 20480)] }

/-- The checksum `set_memory_layout` looks up: the one given, or the stored one when the
given one is empty. -/
def looked_up_checksum (df : DFInstance) (checksum : String) : String :=
  if checksum = "" then df.m_df_checksum else checksum

/-- The registry holds, under `key`, a layout that is valid and complete. -/
def registry_has_usable_layout (df : DFInstance) (key : String) : Prop :=
  ∃ l, assoc_value df.m_memory_layouts key = some l ∧ l.is_valid = true ∧ l.is_complete = true

/-- An instance in the given status whose registry holds `sample_layout` under "abc" alone. -/
def instance_with_registry (status : DFStatus) : DFInstance :=
  { host := plain_host, m_status := status, m_memory_layouts := [("abc", sample_layout)] }

/-- A layout with the given checksum, build label and validity, everything else as in
`sample_layout`. -/
def layout_file (checksum version : String) (valid : Bool) : MemoryLayout :=
  { sample_layout with checksum := checksum, game_version := version, is_valid := valid }

/-- A layout directory: two valid files with the checksum "0xAB" in different letter case,
one invalid file with the checksum "0xcd", one valid file with the checksum "0xef". -/
def sample_directory : List (String × MemoryLayout) :=
  [("v0.42.ini", layout_file "0xAB" "early" true), ("v0.44.ini", layout_file "0xab" "late" true),
   ("broken.ini", layout_file "0xcd" "broken" false), ("v0.40.ini", layout_file "0xef" "old" true)]

/-- An instance with two weapon subtypes: long swords of the group "sword", then the subtype
whose plural name is "sword", of the group "blade". -/
def instance_with_weapons : DFInstance :=
  { host := plain_host,
    m_weapon_subtypes :=
      [{ address := 1, name_plural := "long swords", group_name := "sword" },
       { address := 2, name_plural := "sword", group_name := "blade" }] }

/-- The name of a plant material by the stated precedence: seeds, raw plant, non-solid
state, the item-type overrides, and the flag fallback when the name is still empty. -/
def plant_name_by_precedence (E : Enumerators) (p : Plant) (m : Material)
    (itype mat_state : Int) : String :=
  if itype = E.SEEDS then p.seed_plural
  else if itype = E.PLANT then p.name_plural
  else
    let chosen : String :=
      if mat_state ≠ E.SOLID then m.state_name mat_state
      else if itype = E.DRINK ∨ itype = E.LIQUID_MISC then m.state_name E.LIQUID
      else if itype = E.POWDER_MISC ∨ itype = E.CHEESE then m.state_name E.POWDER
      else if E.is_armor_type itype then m.state_name E.SOLID
      else if itype = E.LEAVES_FRUIT then p.name ++ " " ++ m.state_name E.GENERIC
      else ""
    if chosen = "" then
      (if m.has_flag E.LEAF_MAT = true ∧ m.has_flag E.EDIBLE_RAW = true then
        p.name ++ " " ++ m.state_name E.GENERIC
      else if m.has_flag E.IS_WOOD = true ∧ p.has_flag E.P_TREE = true then
        p.name ++ " " ++ m.state_name E.GENERIC
      else if m.has_flag E.SEED_MAT = true then p.seed_plural
      else if m.has_flag E.ALCOHOL = true ∨ m.has_flag E.ALCOHOL_PLANT = true ∨
          m.has_flag E.LIQUID_MISC = true ∨ m.has_flag E.LIQUID_MISC_PLANT = true then
        m.state_name E.LIQUID
      else if m.has_flag E.POWDER_MISC_PLANT = true ∨ m.has_flag E.POWDER_MISC = true then
        m.state_name E.POWDER
      else m.state_name E.SOLID ++ " " ++ m.state_name E.GENERIC)
    else chosen

/-- The enumerator `NONE` is none of the item types with an override and is no armor. -/
def none_is_no_override (E : Enumerators) : Prop :=
  E.NONE ≠ E.DRINK ∧ E.NONE ≠ E.LIQUID_MISC ∧ E.NONE ≠ E.POWDER_MISC ∧ E.NONE ≠ E.CHEESE ∧
    E.NONE ≠ E.LEAVES_FRUIT ∧ E.is_armor_type E.NONE = false

/-- A creature material: "Leather" when solid, "blood" when liquid, "tissue" otherwise. -/
def dwarf_tissue : Material :=
  { address := 1000, index := 0, is_inorganic := false,
    state_name := fun st => if st = 0 then "Leather" else if st = 1 then "blood" else "tissue",
    has_flag := fun _ => false }

/-- A plant material with the flag `ALCOHOL_PLANT` (13): "Dwarven Wine" when liquid, nameless
otherwise. -/
def helmet_alcohol : Material :=
  { address := 2000, index := 0, is_inorganic := false,
    state_name := fun st => if st = 1 then "Dwarven Wine" else "",
    has_flag := fun f => decide (f = 13) }

/-- The race "DWARF", all of whose creature materials are `dwarf_tissue`. -/
def dwarf_race : Race :=
  { address := 100, name := "DWARF", get_creature_material := fun _ => some dwarf_tissue }

/-- The plant "plump helmet" with two materials, both `helmet_alcohol`. -/
def plump_helmet : Plant :=
  { address := 200, name := "plump helmet", name_plural := "Plump Helmets",
    seed_plural := "plump helmet spawn", has_flag := fun _ => false, material_count := 2,
    get_plant_material := fun _ => some helmet_alcohol }

/-- An instance whose only race is `dwarf_race` and whose only plant is `plump_helmet`. -/
def instance_with_named_catalogs : DFInstance :=
  { host := plain_host, m_layout := some sample_layout,
    m_races := [dwarf_race], m_plants_vector := [plump_helmet] }

/-- A layout with the creature vector at address 16, the squad vector at address 48, the
reactions vector at address 64 and every other address and offset zero. -/
def squad_layout : MemoryLayout :=
  { unit_layout with
    address := fun k _ =>
      if k = "creature_vector" then 16 else if k = "squad_vector" then 48
      else if k = "reactions_vector" then 64 else 0 }

/-- A fortress whose only active squad has the id 7. -/
def sample_fortress : FortressEntity :=
  { address := 0, squad_is_active := fun i => decide (i = 7) }

/-- An instance in the given status with `squad_layout` selected and `sample_fortress`
loaded: one unit at 20480 in the creature vector, one squad at 24576 with the id 7 in the
squad vector, one reaction at 28672 in the reactions vector. -/
def instance_with_squads (status : DFStatus) : DFInstance :=
  { host := plain_host, m_layout := some squad_layout, m_status := status,
    m_fortress := some sample_fortress, m_squad_vector := 48,
    mem := mem_of_words [(16, 4096), (20, 4100), (4096, 20480), (48, 8192), (52, 8196),
                         (8192, 24576), (24576, 7), (64, 12288), (68, 12292), (12288, 28672)] }

/-- The numbers of `attach()` and `detach()` calls in the trace of an instance. -/
def attach_detach_calls (df : DFInstance) : Nat × Nat :=
  (attach_calls df.trace, detach_calls df.trace)

/-- A layout with the occupations vector at address 80, the activities vector at address 96
and every other address and offset zero. -/
def catalog_layout : MemoryLayout :=
  { unit_layout with
    address := fun k _ =>
      if k = "occupations_vector" then 80 else if k = "activities_vector" then 96 else 0 }

/-- An instance with `catalog_layout` selected whose occupations vector holds the one
occupation at `addr`, with the number `id` at `addr + 8`. -/
def instance_with_occupation (addr id : Nat) : DFInstance :=
  { host := plain_host, m_layout := some catalog_layout,
    mem := mem_of_words [(80, 4096), (84, 4100), (4096, addr), (addr + 8, id)] }

/-- The activity at 20480 knows the figure 7 as job 10 ("train") and the figure 8 as job 11
("spar"), the activity at 24576 knows the figure 7 as job 20 ("pray"); the activity at 28672
has no entries. -/
def sample_activity (addr : Nat) : Activity :=
  { address := addr, activity_count := if addr = 28672 then 0 else 1,
    find_activity := fun h =>
      if h = 7 ∧ addr = 20480 then (10, "train")
      else if h = 7 ∧ addr = 24576 then (20, "pray")
      else if h = 8 ∧ addr = 20480 then (11, "spar")
      else (-1, "") }

/-- An instance with `catalog_layout` selected whose activities vector holds the activities
at 20480, 24576 and 28672, with the ids 1, 2 and 3. -/
def instance_with_activities : DFInstance :=
  { host := { plain_host with new_Activity := sample_activity },
    m_layout := some catalog_layout,
    mem := mem_of_words [(96, 4096), (100, 4108), (4096, 20480), (4100, 24576), (4104, 28672),
                         (20480, 1), (24576, 2), (28672, 3)] }

/-- The addresses of the activities built in a trace, in the order of their construction. -/
def built_activities : List Event → List Nat
  | [] => []
  | Event.call n t :: es =>
    if n = "Activity::Activity" then t :: built_activities es else built_activities es
  | _ :: es => built_activities es

/-- The activities that a run of `load_activities` with the effects `es` inserted into
`m_activities`, in the order of insertion: those built that have entries. -/
def inserted_activities (host : Host) (es : List Event) : List Activity :=
  ((built_activities es).map host.new_Activity).filter (fun a => decide (a.activity_count > 0))

/-- The entries that the second loop of `load_activities` inserts when it walks `l`: the key
and the activity built at the address, for the activities that have entries. -/
def kept_activities (host : Host) (l : List (Int × Nat)) : List (Int × Activity) :=
  l.filterMap (fun x =>
    if (host.new_Activity x.2).activity_count > 0 then some (x.1, host.new_Activity x.2) else none)

/-- The path of the layout file `add_new_layout` writes for a file name. -/
def layout_file_path (host : Host) (filename : String) : String :=
  host.absoluteFilePath (qarg "share/memory_layouts/%1" host.LAYOUT_SUBDIR) filename

/-- A file system holding the one layout file "v1.ini", in which the file "locked.ini" cannot
be created. -/
def sample_files : FileSystem :=
  { files := [("/opt/dt/share/memory_layouts/linux/v1.ini", "abc")],
    can_create := fun path => decide (path ≠ "/opt/dt/share/memory_layouts/linux/locked.ini") }

/-- What a call of `add_new_layout` leaves behind: the returned flag, the message, the files
and the keys of the registry. -/
def layout_outcome (r : (Bool × String × FileSystem) × DFInstance) :
    Bool × String × List (String × String) × List String :=
  (r.1.1, r.1.2.1, r.1.2.2.files, r.2.m_memory_layouts.map Prod.fst)

/-- The texts of a list, one after the other. -/
def concat : List String → String
  | [] => ""
  | t :: rest => t ++ concat rest

/-- The rendering of one byte in the text column of `pprint`: a dot for the byte 0, the
character itself for a printable byte (32 to 126), two hexadecimal digits for any other. -/
def text_of_byte (b : Nat) : String :=
  if b % 256 = 0 then "."
  else if b % 256 ≤ 126 ∧ b % 256 ≥ 32 then String.singleton (Char.ofNat (b % 256))
  else toHex [b]

/-- Row `i` of the dump of `ba`: the offset, the two hexadecimal digits of each byte of the
row, each followed by a blank, and the text of each byte of the row. -/
def dump_row (host : Host) (ba : List Nat) (i : Nat) : String :=
  host.hexify (16 * i) ++ " | " ++ concat ((mid ba (i * 16) 16).map (fun b => toHex [b] ++ " "))
    ++ "| " ++ concat ((mid ba (i * 16) 16).map text_of_byte) ++ "\n"

/-- A buffer of 16 bytes: the byte 1, the byte 200, and 14 times the letter A. -/
def sample_buffer : List Nat := 1 :: 200 :: List.replicate 14 65

/-- The 32-bit number that target memory holds at address `a`, least significant byte
first. -/
def word_at (mem : Nat → Nat) (a : Nat) : Nat :=
  mem a % 256 + 256 * (mem (add32 a 1) % 256) + 65536 * (mem (add32 a 2) % 256)
    + 16777216 * (mem (add32 a 3) % 256)

/-- Target memory holding one vector descriptor at address 16, with `count` elements starting
at 4096, the element `i` being the number `i + 7`. -/
def counted_memory (count : Nat) (a : Nat) : Nat :=
  if a < 4096 then mem_of_words [(16, 4096), (20, 4096 + 4 * count)] a
  else ((a - 4096) / 4 + 7) / 256 ^ ((a - 4096) % 4) % 256

/-- An instance whose target memory is `counted_memory count`. -/
def instance_with_counted_vector (count : Nat) : DFInstance :=
  { host := plain_host, mem := counted_memory count }

/-- The `read_raw` calls of a trace that ask for more bytes than their destination holds, as
`(addr, bytes, capacity)`, in order. -/
def overflowing_reads : List Event → List (Nat × Nat × Nat)
  | [] => []
  | Event.read_raw a b c :: es =>
    if c < b then (a, b, c) :: overflowing_reads es else overflowing_reads es
  | _ :: es => overflowing_reads es

/-- What a layout selection leaves behind: the checksum of the selected layout (`none` for a
null `m_layout`) and the stored checksum. -/
def selection (df : DFInstance) : Option String × String :=
  (df.m_layout.map MemoryLayout.checksum, df.m_df_checksum)

/-! # Properties -/

/-! ## Trace bookkeeping -/

theorem emit_emit (df : DFInstance) (a b : List Event) :
    (df.emit a).emit b = df.emit (a ++ b) := by
  simp [DFInstance.emit, List.append_assoc]

theorem emit_nil (df : DFInstance) : df.emit [] = df := by
  simp [DFInstance.emit]

theorem emit_trace (df : DFInstance) (a : List Event) : (df.emit a).trace = df.trace ++ a := rfl

theorem emit_status (df : DFInstance) (a : List Event) : (df.emit a).m_status = df.m_status := rfl

theorem emit_mem (df : DFInstance) (a : List Event) : (df.emit a).mem = df.mem := rfl

theorem raw_reads_append (a b : List Event) : raw_reads (a ++ b) = raw_reads a ++ raw_reads b := by
  induction a with
  | nil => rfl
  | cons e es ih => cases e <;> simp [raw_reads, ih]

theorem warnings_append (a b : List Event) : warnings (a ++ b) = warnings a ++ warnings b := by
  induction a with
  | nil => rfl
  | cons e es ih =>
    cases e with
    | log l t x => cases l <;> simp [warnings, ih]
    | _ => simp [warnings, ih]

theorem signals_append (a b : List Event) : signals (a ++ b) = signals a ++ signals b := by
  induction a with
  | nil => rfl
  | cons e es ih => cases e <;> simp [signals, ih]

/-! ## The plausibility guard -/

theorem check_vector_fst (df : DFInstance) (start end_ addr : Nat) :
    (check_vector df start end_ addr).1 = decide (sub32 end_ start / SIZEOF_VIRTADDR ≤ 1000000) := by
  unfold check_vector
  by_cases h1 : sub32 end_ start / SIZEOF_VIRTADDR > 1000000
  · simp [h1]
  · have h1b : sub32 end_ start / SIZEOF_VIRTADDR ≤ 1000000 := Nat.le_of_not_gt h1
    by_cases h2 : sub32 end_ start / SIZEOF_VIRTADDR > 250000
    · simp [h1, h1b, h2]
    · by_cases h3 : sub32 end_ start / SIZEOF_VIRTADDR > 50000
      · simp [h1, h1b, h2, h3]
      · by_cases h4 : sub32 end_ start / SIZEOF_VIRTADDR > 10000 <;> simp [h1, h1b, h2, h3, h4]

theorem check_vector_snd (df : DFInstance) (start end_ addr : Nat) :
    (check_vector df start end_ addr).2 = df.emit (check_vector_events start end_ addr) := by
  unfold check_vector check_vector_events size_warning
  by_cases h1 : sub32 end_ start / SIZEOF_VIRTADDR > 1000000
  · simp [h1, DFInstance.logline, DFInstance.record, emit_emit]
  · by_cases h2 : sub32 end_ start / SIZEOF_VIRTADDR > 250000
    · simp [h1, h2, DFInstance.logline, DFInstance.record, emit_emit]
    · by_cases h3 : sub32 end_ start / SIZEOF_VIRTADDR > 50000
      · simp [h1, h2, h3, DFInstance.logline, DFInstance.record, emit_emit]
      · by_cases h4 : sub32 end_ start / SIZEOF_VIRTADDR > 10000 <;>
          simp [h1, h2, h3, h4, DFInstance.logline, DFInstance.record, emit_emit]

theorem read_raw_fst (df : DFInstance) (a b c : Nat) : (read_raw df a b c).1 = peek df.mem a b := rfl

theorem read_raw_snd (df : DFInstance) (a b c : Nat) :
    (read_raw df a b c).2 = df.emit [Event.read_raw a b c] := rfl

theorem peek_length (mem : Nat → Nat) (a b : Nat) : (peek mem a b).length = b := by
  simp [peek]

theorem read_addr_fst (df : DFInstance) (a : Nat) :
    (read_addr df a).1 = le_decode (peek df.mem a SIZEOF_VIRTADDR) := rfl

theorem read_addr_snd (df : DFInstance) (a : Nat) :
    (read_addr df a).2 = df.emit [Event.read_raw a SIZEOF_VIRTADDR SIZEOF_VIRTADDR] := rfl

theorem decode_elems_length {α : Type} (size : Nat) (decode : List Nat → α) (n : Nat)
    (buf : List Nat) : (decode_elems size decode n buf).length = n := by
  simp [decode_elems]

/-- Result of `enum_vec` on a descriptor the guard rejects. -/
theorem enum_vec_rejected {α : Type} (sizeofT : Nat) (decode : List Nat → α) (df : DFInstance)
    (addr : Nat) (h : descriptor_bytes df addr / SIZEOF_VIRTADDR > 1000000) :
    enum_vec sizeofT decode df addr =
      ([], df.emit (descriptor_reads addr ++
              check_vector_events (descriptor_start df addr) (descriptor_end df addr) addr)) := by
  have hc : ¬ (sub32 (le_decode (peek df.mem (add32 addr 4) SIZEOF_VIRTADDR))
      (le_decode (peek df.mem addr SIZEOF_VIRTADDR)) / SIZEOF_VIRTADDR ≤ 1000000) :=
    Nat.not_le_of_gt h
  simp [enum_vec, check_vector_fst, check_vector_snd, read_addr_fst, read_addr_snd, emit_emit,
    emit_mem, hc, descriptor_reads, descriptor_start, descriptor_end]

/-- Result of `enum_vec` on a descriptor the guard accepts. -/
theorem enum_vec_accepted {α : Type} (sizeofT : Nat) (decode : List Nat → α) (df : DFInstance)
    (addr : Nat) (h : descriptor_bytes df addr / SIZEOF_VIRTADDR ≤ 1000000) :
    enum_vec sizeofT decode df addr =
      (decode_elems sizeofT decode (descriptor_bytes df addr / sizeofT)
          (peek df.mem (descriptor_start df addr) (descriptor_bytes df addr)),
       df.emit (descriptor_reads addr ++
          check_vector_events (descriptor_start df addr) (descriptor_end df addr) addr ++
          [Event.read_raw (descriptor_start df addr) (descriptor_bytes df addr)
             (descriptor_bytes df addr / sizeofT * sizeofT),
           Event.log LogLevel.LL_TRACE "FOUND addresses in vector at"
             [((descriptor_bytes df addr / SIZEOF_VIRTADDR : Nat) : Int), addr]])) := by
  have hc : sub32 (le_decode (peek df.mem (add32 addr 4) SIZEOF_VIRTADDR))
      (le_decode (peek df.mem addr SIZEOF_VIRTADDR)) / SIZEOF_VIRTADDR ≤ 1000000 := h
  simp [enum_vec, check_vector_fst, check_vector_snd, read_addr_fst, read_addr_snd, emit_emit,
    emit_mem, hc, descriptor_reads, descriptor_start, descriptor_end, descriptor_bytes,
    read_raw_fst, read_raw_snd, peek_length, DFInstance.logline, DFInstance.record]

theorem raw_reads_check_vector_events (s e a : Nat) :
    raw_reads (check_vector_events s e a) = [] := by
  unfold check_vector_events size_warning
  repeat' split
  all_goals simp [raw_reads]

/-- C1: a descriptor implying more than 1,000,000 pointer-width elements
(`entries = ((end - start) mod 2^32) / 4`) makes `check_vector` return false and
`enumerate_vector` return an empty vector after reading only the two descriptor words, with no
bulk read of the elements; with at most 1,000,000 entries `check_vector` returns true. -/
theorem C1_guard_rejects_over_a_million (df : DFInstance) (addr start end_ : Nat) :
    (sub32 end_ start / SIZEOF_VIRTADDR > 1000000 → (check_vector df start end_ addr).1 = false) ∧
    (sub32 end_ start / SIZEOF_VIRTADDR ≤ 1000000 → (check_vector df start end_ addr).1 = true) ∧
    (descriptor_bytes df addr / SIZEOF_VIRTADDR > 1000000 →
      (enumerate_vector df addr).1 = [] ∧
      raw_reads (enumerate_vector df addr).2.trace =
        raw_reads df.trace ++ [(addr, 4), (add32 addr 4, 4)]) := by
  refine ⟨?_, ?_, ?_⟩
  · intro h
    rw [check_vector_fst]
    exact decide_eq_false (Nat.not_le_of_gt h)
  · intro h
    rw [check_vector_fst]
    exact decide_eq_true h
  · intro h
    unfold enumerate_vector
    rw [enum_vec_rejected _ _ _ _ h]
    refine ⟨rfl, ?_⟩
    rw [emit_trace, raw_reads_append, raw_reads_append, raw_reads_check_vector_events]
    simp [descriptor_reads, raw_reads, SIZEOF_VIRTADDR]

/-- Witness of C1: a descriptor of 4,000,004 bytes (1,000,001 entries) is rejected and read
as empty, one of 40 bytes is accepted. -/
theorem C1_guard_rejects_over_a_million_witness :
    (check_vector (instance_with_vector 0) 4096 4004100 16).1 = false ∧
    (check_vector (instance_with_vector 0) 4096 4136 16).1 = true ∧
    (enumerate_vector (instance_with_vector 4000004) 16).1 = [] ∧
    raw_reads (enumerate_vector (instance_with_vector 4000004) 16).2.trace =
      raw_reads (instance_with_vector 4000004).trace ++ [(16, 4), (add32 16 4, 4)] :=
  ⟨(C1_guard_rejects_over_a_million (instance_with_vector 0) 16 4096 4004100).1 (by decide),
   (C1_guard_rejects_over_a_million (instance_with_vector 0) 16 4096 4136).2.1 (by decide),
   (C1_guard_rejects_over_a_million (instance_with_vector 4000004) 16 0 0).2.2 (by decide)⟩

theorem warnings_check_vector_events (s e a : Nat) :
    warnings (check_vector_events s e a) =
      if sub32 e s / SIZEOF_VIRTADDR > 1000000 then ["has over 1.000.000 entries!"]
      else if sub32 e s / SIZEOF_VIRTADDR > 10000 then
        [highest_exceeded_warning (sub32 e s / SIZEOF_VIRTADDR)]
      else [] := by
  unfold check_vector_events size_warning highest_exceeded_warning
  by_cases h1 : sub32 e s / SIZEOF_VIRTADDR > 1000000
  · simp [h1, warnings]
  · by_cases h2 : sub32 e s / SIZEOF_VIRTADDR > 250000
    · have h4 : sub32 e s / SIZEOF_VIRTADDR > 10000 := by omega
      simp [h1, h2, h4, warnings]
    · by_cases h3 : sub32 e s / SIZEOF_VIRTADDR > 50000
      · have h4 : sub32 e s / SIZEOF_VIRTADDR > 10000 := by omega
        simp [h1, h2, h3, h4, warnings]
      · by_cases h4 : sub32 e s / SIZEOF_VIRTADDR > 10000 <;> simp [h1, h2, h3, h4, warnings]

/-- C9, the code at the failing input: a descriptor of 2,000,002 bytes implies 1,000,001
16-bit elements, yet `enumerate_vector_short` issues the bulk read of all 2,000,002 bytes and
returns 1,000,001 elements, because `check_vector` divides by `sizeof(VIRTADDR)` and sees
500,000 entries. -/
theorem C9_short_vector_over_a_million_is_read :
    descriptor_bytes (instance_with_vector 2000002) 16 / SIZEOF_SHORT = 1000001 ∧
    (check_vector (instance_with_vector 2000002) 4096 (4096 + 2000002) 16).1 = true ∧
    (enumerate_vector_short (instance_with_vector 2000002) 16).1.length = 1000001 ∧
    raw_reads (enumerate_vector_short (instance_with_vector 2000002) 16).2.trace =
      [(16, 4), (20, 4), (4096, 2000002)] := by
  have hb : descriptor_bytes (instance_with_vector 2000002) 16 = 2000002 := by decide
  have hs : descriptor_start (instance_with_vector 2000002) 16 = 4096 := by decide
  have ha : descriptor_bytes (instance_with_vector 2000002) 16 / SIZEOF_VIRTADDR ≤ 1000000 := by
    rw [hb]; decide
  refine ⟨by rw [hb]; decide, by rw [check_vector_fst]; decide, ?_, ?_⟩
  · unfold enumerate_vector_short
    rw [enum_vec_accepted _ _ _ _ ha, decode_elems_length, hb]
    decide
  · unfold enumerate_vector_short
    rw [enum_vec_accepted _ _ _ _ ha, emit_trace, raw_reads_append, raw_reads_append,
      raw_reads_append, raw_reads_check_vector_events, hb, hs]
    simp [descriptor_reads, raw_reads, instance_with_vector, SIZEOF_VIRTADDR, add32, WORD32]

theorem overflowing_reads_append (a b : List Event) :
    overflowing_reads (a ++ b) = overflowing_reads a ++ overflowing_reads b := by
  induction a with
  | nil => rfl
  | cons e es ih =>
    cases e with
    | read_raw x y z =>
      by_cases h : z < y
      · simp [overflowing_reads, h, ih]
      · simp [overflowing_reads, h, ih]
    | _ => simp [overflowing_reads, ih]

theorem overflowing_reads_check_vector_events (s e a : Nat) :
    overflowing_reads (check_vector_events s e a) = [] := by
  unfold check_vector_events size_warning
  repeat' split
  all_goals simp [overflowing_reads]

theorem range_window (m k : Nat) (h : k + 4 ≤ m) :
    ((List.range m).drop k).take 4 = [k, k + 1, k + 2, k + 3] := by
  apply List.ext_getElem
  · rw [List.length_take, List.length_drop, List.length_range]
    simp only [List.length_cons, List.length_nil]
    omega
  · intro i h1 h2
    rw [List.getElem_take, List.getElem_drop, List.getElem_range]
    simp only [List.length_cons, List.length_nil] at h2
    have hi : i = 0 ∨ i = 1 ∨ i = 2 ∨ i = 3 := by omega
    rcases hi with hi | hi | hi | hi <;> subst hi <;> rfl

theorem peek_window (mem : Nat → Nat) (s m k : Nat) (h : k + 4 ≤ m) :
    ((peek mem s m).drop k).take 4 =
      [mem (add32 s k) % 256, mem (add32 s (k + 1)) % 256, mem (add32 s (k + 2)) % 256,
       mem (add32 s (k + 3)) % 256] := by
  unfold peek
  rw [← List.map_drop, ← List.map_take, range_window m k h]
  rfl

theorem add32_add32 (s a b : Nat) : add32 (add32 s a) b = add32 s (a + b) := by
  unfold add32 WORD32
  omega

theorem le_decode_window (mem : Nat → Nat) (a : Nat) :
    le_decode [mem (add32 a 0) % 256, mem (add32 a 1) % 256, mem (add32 a 2) % 256,
      mem (add32 a 3) % 256] =
      mem (add32 a 0) % 256 + 256 * (mem (add32 a 1) % 256) + 65536 * (mem (add32 a 2) % 256)
        + 16777216 * (mem (add32 a 3) % 256) := by
  simp only [le_decode, Nat.mod_mod]
  omega

/-- The elements decoded from the bulk read of `n` whole elements are the 32-bit numbers
that target memory holds at `start`, `start + 4`, and so on. -/
theorem decode_elems_words (mem : Nat → Nat) (start n : Nat) :
    decode_elems SIZEOF_VIRTADDR le_decode n (peek mem start (SIZEOF_VIRTADDR * n)) =
      (List.range n).map (fun i => word_at mem (add32 start (4 * i))) := by
  unfold decode_elems
  apply List.map_congr_left
  intro i hi
  have hi2 : i < n := List.mem_range.mp hi
  have h4 : SIZEOF_VIRTADDR = 4 := rfl
  rw [h4, peek_window mem start (4 * n) (i * 4) (by omega)]
  have e0 : add32 start (i * 4) = add32 (add32 start (4 * i)) 0 := by
    rw [add32_add32]; congr 1; omega
  have e1 : add32 start (i * 4 + 1) = add32 (add32 start (4 * i)) 1 := by
    rw [add32_add32]; congr 1; omega
  have e2 : add32 start (i * 4 + 2) = add32 (add32 start (4 * i)) 2 := by
    rw [add32_add32]; congr 1; omega
  have e3 : add32 start (i * 4 + 3) = add32 (add32 start (4 * i)) 3 := by
    rw [add32_add32]; congr 1; omega
  rw [e0, e1, e2, e3, le_decode_window]
  unfold word_at
  have z : add32 (add32 start (4 * i)) 0 = add32 start (4 * i) := by
    rw [add32_add32]; rfl
  rw [z]

/-- C10: `check_vector` logs exactly one size warning for a count `n` with
10,000 < n <= 1,000,000, that of the highest threshold among 250,000 / 50,000 / 10,000 that
`n` exceeds, and none for n <= 10,000.  A descriptor of exactly `n` pointer-width elements
(`end - start = 4 * n` bytes) with 10,000 < n <= 1,000,000 is read in full:
`enumerate_vector` returns exactly `n` elements, element `i` being the 32-bit number that
target memory holds at `start + 4 * i`, after one bulk read of the whole range from `start`
over `end - start` bytes, which fits the output, and the one size warning is all it warns;
for n <= 10,000 it logs no size warning. -/
theorem C10_large_vector_read_with_one_warning (df : DFInstance) (addr : Nat) :
    (10000 < descriptor_bytes df addr / SIZEOF_VIRTADDR ∧
        descriptor_bytes df addr / SIZEOF_VIRTADDR ≤ 1000000 →
      warnings (check_vector df (descriptor_start df addr) (descriptor_end df addr) addr).2.trace =
        warnings df.trace ++
          [highest_exceeded_warning (descriptor_bytes df addr / SIZEOF_VIRTADDR)]) ∧
    (descriptor_bytes df addr / SIZEOF_VIRTADDR ≤ 10000 →
      warnings (check_vector df (descriptor_start df addr) (descriptor_end df addr) addr).2.trace =
        warnings df.trace) ∧
    (∀ n : Nat, descriptor_bytes df addr = SIZEOF_VIRTADDR * n →
      (10000 < n ∧ n ≤ 1000000 →
        (enumerate_vector df addr).1.length = n ∧
        (enumerate_vector df addr).1 =
          (List.range n).map (fun i => word_at df.mem (add32 (descriptor_start df addr) (4 * i))) ∧
        raw_reads (enumerate_vector df addr).2.trace =
          raw_reads df.trace ++
            [(addr, 4), (add32 addr 4, 4), (descriptor_start df addr, 4 * n)] ∧
        overflowing_reads (enumerate_vector df addr).2.trace = overflowing_reads df.trace ∧
        warnings (enumerate_vector df addr).2.trace =
          warnings df.trace ++ [highest_exceeded_warning n]) ∧
      (n ≤ 10000 → warnings (enumerate_vector df addr).2.trace = warnings df.trace)) := by
  have h4 : SIZEOF_VIRTADDR = 4 := rfl
  refine ⟨?_, ?_, ?_⟩
  · rintro ⟨hlo, hhi⟩
    have hlo2 : sub32 (descriptor_end df addr) (descriptor_start df addr) / SIZEOF_VIRTADDR
        > 10000 := hlo
    have hhi2 : ¬ sub32 (descriptor_end df addr) (descriptor_start df addr) / SIZEOF_VIRTADDR
        > 1000000 := Nat.not_lt.mpr hhi
    rw [check_vector_snd, emit_trace, warnings_append, warnings_check_vector_events,
      if_neg hhi2, if_pos hlo2]
    rfl
  · intro h
    have hlo2 : ¬ sub32 (descriptor_end df addr) (descriptor_start df addr) / SIZEOF_VIRTADDR
        > 10000 := Nat.not_lt.mpr h
    have hhi2 : ¬ sub32 (descriptor_end df addr) (descriptor_start df addr) / SIZEOF_VIRTADDR
        > 1000000 := by
      have hb : descriptor_bytes df addr / SIZEOF_VIRTADDR ≤ 10000 := h
      exact Nat.not_lt.mpr (by unfold descriptor_bytes at hb; omega)
    rw [check_vector_snd, emit_trace, warnings_append, warnings_check_vector_events,
      if_neg hhi2, if_neg hlo2]
    simp
  · intro n hn
    have hq : descriptor_bytes df addr / SIZEOF_VIRTADDR = n := by
      rw [hn, h4]; omega
    constructor
    · rintro ⟨hlo, hhi⟩
      have hlo2 : sub32 (descriptor_end df addr) (descriptor_start df addr) / SIZEOF_VIRTADDR
          > 10000 := by
        have := hq; unfold descriptor_bytes at this; omega
      have hhi2 : ¬ sub32 (descriptor_end df addr) (descriptor_start df addr) / SIZEOF_VIRTADDR
          > 1000000 := by
        have := hq; unfold descriptor_bytes at this; omega
      have hacc : descriptor_bytes df addr / SIZEOF_VIRTADDR ≤ 1000000 := by omega
      have hsub : sub32 (descriptor_end df addr) (descriptor_start df addr) / SIZEOF_VIRTADDR
          = n := hq
      unfold enumerate_vector
      rw [enum_vec_accepted _ _ _ _ hacc, hq]
      refine ⟨decode_elems_length _ _ _ _, ?_, ?_, ?_, ?_⟩
      · rw [hn]
        exact decode_elems_words df.mem (descriptor_start df addr) n
      · rw [emit_trace, raw_reads_append, raw_reads_append, raw_reads_append,
          raw_reads_check_vector_events, hn, h4]
        simp [descriptor_reads, raw_reads, SIZEOF_VIRTADDR]
      · rw [emit_trace, overflowing_reads_append, overflowing_reads_append,
          overflowing_reads_append, overflowing_reads_check_vector_events, hn, h4]
        simp [descriptor_reads, overflowing_reads, SIZEOF_VIRTADDR, Nat.mul_comm]
      · rw [emit_trace, warnings_append, warnings_append, warnings_append,
          warnings_check_vector_events, if_neg hhi2, if_pos hlo2, hsub]
        simp [descriptor_reads, warnings]
    · intro hle
      have hlo2 : ¬ sub32 (descriptor_end df addr) (descriptor_start df addr) / SIZEOF_VIRTADDR
          > 10000 := by
        have := hq; unfold descriptor_bytes at this; omega
      have hhi2 : ¬ sub32 (descriptor_end df addr) (descriptor_start df addr) / SIZEOF_VIRTADDR
          > 1000000 := by
        have := hq; unfold descriptor_bytes at this; omega
      have hacc : descriptor_bytes df addr / SIZEOF_VIRTADDR ≤ 1000000 := by omega
      unfold enumerate_vector
      rw [enum_vec_accepted _ _ _ _ hacc, emit_trace, warnings_append, warnings_append,
        warnings_append, warnings_check_vector_events, if_neg hhi2, if_neg hlo2]
      simp [descriptor_reads, warnings]

/-- Witness of C10 at 10,001 elements (the first element is 7, the last 10,007, one bulk
read of 40,004 bytes, the warning of the lowest tier), at 50,001 and 250,001 elements (one
warning each, that of the matching tier) and at exactly 10,000 elements (no warning); three
elements are read as 7, 8 and 9. -/
theorem C10_large_vector_read_with_one_warning_witness :
    ((enumerate_vector (instance_with_counted_vector 10001) 16).1.length = 10001 ∧
     (enumerate_vector (instance_with_counted_vector 10001) 16).1[0]? = some 7 ∧
     (enumerate_vector (instance_with_counted_vector 10001) 16).1[10000]? = some 10007 ∧
     raw_reads (enumerate_vector (instance_with_counted_vector 10001) 16).2.trace =
       [(16, 4), (20, 4), (4096, 40004)] ∧
     overflowing_reads (enumerate_vector (instance_with_counted_vector 10001) 16).2.trace = [] ∧
     warnings (enumerate_vector (instance_with_counted_vector 10001) 16).2.trace =
       ["has over 10.000 entries!"]) ∧
    ((enumerate_vector (instance_with_vector 200004) 16).1.length = 50001 ∧
     warnings (enumerate_vector (instance_with_vector 200004) 16).2.trace =
       ["has over 50.000 entries!"]) ∧
    ((enumerate_vector (instance_with_vector 1000004) 16).1.length = 250001 ∧
     warnings (enumerate_vector (instance_with_vector 1000004) 16).2.trace =
       ["has over 250.000 entries!"]) ∧
    warnings (enumerate_vector (instance_with_vector 40000) 16).2.trace = [] ∧
    (enumerate_vector (instance_with_counted_vector 3) 16).1 = [7, 8, 9] := by
  have hb : descriptor_bytes (instance_with_counted_vector 10001) 16 = 40004 := by decide
  have hs : descriptor_start (instance_with_counted_vector 10001) 16 = 4096 := by decide
  have hb2 : descriptor_bytes (instance_with_vector 200004) 16 = 200004 := by decide
  have hb3 : descriptor_bytes (instance_with_vector 1000004) 16 = 1000004 := by decide
  have hb0 : descriptor_bytes (instance_with_vector 40000) 16 = 40000 := by decide
  have h1 := ((C10_large_vector_read_with_one_warning (instance_with_counted_vector 10001)
    16).2.2 10001 (by rw [hb]; rfl)).1 ⟨by decide, by decide⟩
  have h2 := ((C10_large_vector_read_with_one_warning (instance_with_vector 200004) 16).2.2
    50001 (by rw [hb2]; rfl)).1 ⟨by decide, by decide⟩
  have h3 := ((C10_large_vector_read_with_one_warning (instance_with_vector 1000004) 16).2.2
    250001 (by rw [hb3]; rfl)).1 ⟨by decide, by decide⟩
  have h0 := ((C10_large_vector_read_with_one_warning (instance_with_vector 40000) 16).2.2
    10000 (by rw [hb0]; rfl)).2 (by decide)
  obtain ⟨l1, c1, r1, o1, w1⟩ := h1
  rw [hs] at c1 r1
  refine ⟨⟨l1, ?_, ?_, r1, o1, w1⟩, ⟨h2.1, h2.2.2.2.2⟩, ⟨h3.1, h3.2.2.2.2⟩, h0, by decide⟩
  · rw [c1, List.getElem?_map, List.getElem?_range (by decide), Option.map_some']
    exact congrArg some
      (by decide : word_at (instance_with_counted_vector 10001).mem (add32 4096 (4 * 0)) = 7)
  · rw [c1, List.getElem?_map, List.getElem?_range (by decide), Option.map_some']
    exact congrArg some
      (by decide :
        word_at (instance_with_counted_vector 10001).mem (add32 4096 (4 * 10000)) = 10007)

/-! ## Material resolution -/

theorem enum_vec_snd_emit {α : Type} (sizeofT : Nat) (decode : List Nat → α) (df : DFInstance)
    (addr : Nat) : ∃ es, (enum_vec sizeofT decode df addr).2 = df.emit es := by
  by_cases h : descriptor_bytes df addr / SIZEOF_VIRTADDR ≤ 1000000
  · rw [enum_vec_accepted _ _ _ _ h]; exact ⟨_, rfl⟩
  · rw [enum_vec_rejected _ _ _ _ (Nat.lt_of_not_le h)]; exact ⟨_, rfl⟩

theorem enumerate_vector_layout (df : DFInstance) (addr : Nat) :
    (enumerate_vector df addr).2.m_layout = df.m_layout := by
  obtain ⟨es, h⟩ := enum_vec_snd_emit SIZEOF_VIRTADDR le_decode df addr
  unfold enumerate_vector
  rw [h]
  rfl

/-- C3, counterexample: with `mat_index = 0` and `mat_type = 0` (so `mat_type < 19`)
`find_material` resolves the inorganic material at index 0 (address 20), not the raw material
with type code 0 (address 10). -/
theorem C3_type_zero_resolves_inorganic_counterexample :
    ((0 : Int) < 0 ∨ (0 : Int) < 19) ∧
    resolved_address (find_material instance_with_catalogs 0 0) = some (some 20) ∧
    resolved_address (find_material instance_with_catalogs 0 0) ≠
      some ((get_raw_material instance_with_catalogs 0).map Material.address) := by
  refine ⟨Or.inr (by decide), rfl, ?_⟩
  have h1 : resolved_address (find_material instance_with_catalogs 0 0) = some (some 20) := rfl
  have h2 : (get_raw_material instance_with_catalogs 0).map Material.address = some 10 := rfl
  rw [h1, h2]
  decide

/-- C3, amended: `find_material` resolves to the raw/base material looked up by the type code,
`get_raw_material(mat_type)`, when `mat_index < 0` (every `mat_type`, 0 and 18 included) and
when `mat_type < 19` with `mat_type` not 0; for `mat_index >= 0` and `mat_type = 0` it resolves
to the inorganic material looked up by the index, `get_inorganic_material(mat_index)`. -/
theorem C3_raw_band_amended (df : DFInstance) (mat_index mat_type : Int) :
    (mat_index < 0 ∨ (mat_type < 19 ∧ mat_type ≠ 0) →
      find_material df mat_index mat_type = some (get_raw_material df mat_type, df)) ∧
    (0 ≤ mat_index ∧ mat_type = 0 →
      find_material df mat_index mat_type = some (get_inorganic_material df mat_index, df)) := by
  constructor
  · intro h
    unfold find_material
    by_cases h0 : mat_index < 0
    · rw [if_pos h0]
    · rcases h with h | ⟨h1, h2⟩
      · exact absurd h h0
      · rw [if_neg h0, if_neg h2, if_pos h1]
  · rintro ⟨h0, h1⟩
    unfold find_material
    rw [if_neg (not_lt.mpr h0), if_pos h1]

/-- Witness of C3 as amended: type 18 at index 0 and type 0 at index -1 resolve the raw
material table, type 0 at index 0 the inorganic table. -/
theorem C3_raw_band_amended_witness :
    resolved_address (find_material instance_with_catalogs 0 18) = some none ∧
    resolved_address (find_material instance_with_catalogs (-1) 0) = some (some 10) ∧
    resolved_address (find_material instance_with_catalogs 0 0) = some (some 20) := by
  refine ⟨?_, ?_, ?_⟩
  · rw [(C3_raw_band_amended instance_with_catalogs 0 18).1 (Or.inr (by decide))]
    rfl
  · rw [(C3_raw_band_amended instance_with_catalogs (-1) 0).1 (Or.inl (by decide))]
    rfl
  · rw [(C3_raw_band_amended instance_with_catalogs 0 0).2 (by decide)]
    rfl

/-! ## Connection lifecycle -/

theorem with_status_self (df : DFInstance) : df.with_status df.m_status = df := by
  cases df; rfl

theorem signals_of_passive (es : List Event) (h : es.all Event.is_passive = true) :
    signals es = [] := by
  induction es with
  | nil => rfl
  | cons e rest ih =>
    rw [List.all_cons, Bool.and_eq_true] at h
    cases e <;> simp_all [signals, Event.is_passive]

theorem check_vector_events_passive (s e a : Nat) :
    (check_vector_events s e a).all Event.is_passive = true := by
  unfold check_vector_events size_warning
  repeat' split
  all_goals simp [Event.is_passive]

theorem enum_vec_frame {α : Type} (sizeofT : Nat) (decode : List Nat → α) (df : DFInstance)
    (addr : Nat) :
    ∃ es, es.all Event.is_passive = true ∧ (enum_vec sizeofT decode df addr).2 = df.emit es := by
  by_cases h : descriptor_bytes df addr / SIZEOF_VIRTADDR ≤ 1000000
  · rw [enum_vec_accepted _ _ _ _ h]
    refine ⟨_, ?_, rfl⟩
    simp [List.all_append, check_vector_events_passive, descriptor_reads, Event.is_passive]
  · rw [enum_vec_rejected _ _ _ _ (Nat.lt_of_not_le h)]
    refine ⟨_, ?_, rfl⟩
    simp [List.all_append, check_vector_events_passive, descriptor_reads, Event.is_passive]

theorem scan_active_units_frame (rp : Bool) (civ_offset : Int) (entries : List Nat)
    (df : DFInstance) :
    ∃ es, es.all Event.is_passive = true ∧
      scan_active_units rp civ_offset entries df = df.emit es := by
  induction entries generalizing df with
  | nil => exact ⟨[], rfl, (emit_nil df).symm⟩
  | cons entry rest ih =>
    unfold scan_active_units
    by_cases hc : (((read_word df (addr_off entry civ_offset)).1 : Nat) : Int) =
        (read_word df (addr_off entry civ_offset)).2.m_dwarf_civ_id
    · simp only [hc, if_true]
      cases rp
      · exact ⟨_, by simp [Event.is_passive], rfl⟩
      · refine ⟨[Event.read_raw (addr_off entry civ_offset) 2 2,
          Event.log LogLevel.LL_INFO "using active units" []], by simp [Event.is_passive], ?_⟩
        simp [read_word, read_raw_snd, DFInstance.logline, DFInstance.record, emit_emit]
    · simp only [hc, if_false]
      obtain ⟨es, hes, heq⟩ := ih (read_word df (addr_off entry civ_offset)).2
      refine ⟨Event.read_raw (addr_off entry civ_offset) 2 2 :: es, ?_, ?_⟩
      · simp [Event.is_passive, hes]
      · rw [heq]
        simp [read_word, read_raw_snd, emit_emit]

/-- Frame of `get_creatures`: with a layout selected it returns, it only logs and reads, and
it changes no member but the status. -/
theorem get_creatures_frame (df : DFInstance) (L : MemoryLayout) (rp : Bool)
    (hL : df.m_layout = some L) :
    ∃ entries es, es.all Event.is_passive = true ∧
      get_creatures df rp =
        some (entries, (df.emit es).with_status (status_after_get_creatures df.m_status entries)) := by
  unfold get_creatures
  simp only [hL]
  obtain ⟨es1, hp1, he1⟩ := enum_vec_frame SIZEOF_VIRTADDR le_decode df
    (L.address "active_creature_vector" true)
  have key : ∀ (df2 : DFInstance) (es2 : List Event), es2.all Event.is_passive = true →
      df2 = df.emit es2 →
      ∃ entries es, es.all Event.is_passive = true ∧
        (if (enumerate_vector df2 (L.address "creature_vector" true)).1.length > 0 ∧
            (enumerate_vector df2 (L.address "creature_vector" true)).2.m_status
              = DFStatus.DFS_LAYOUT_OK then
          some ((enumerate_vector df2 (L.address "creature_vector" true)).1,
            (enumerate_vector df2 (L.address "creature_vector" true)).2.with_status
              DFStatus.DFS_GAME_LOADED)
        else some (enumerate_vector df2 (L.address "creature_vector" true))) =
        some (entries,
          (df.emit es).with_status (status_after_get_creatures df.m_status entries)) := by
    intro df2 es2 hp2 hd2
    obtain ⟨es3, hp3, he3⟩ := enum_vec_frame SIZEOF_VIRTADDR le_decode df2
      (L.address "creature_vector" true)
    have hs : (enumerate_vector df2 (L.address "creature_vector" true)).2 = df.emit (es2 ++ es3) := by
      unfold enumerate_vector
      rw [he3, hd2, emit_emit]
    rcases hpair : enumerate_vector df2 (L.address "creature_vector" true) with ⟨v, d⟩
    rw [hpair] at hs
    simp only at hs
    subst hs
    refine ⟨v, es2 ++ es3, ?_, ?_⟩
    · rw [List.all_append, hp2, hp3]; rfl
    · simp only [emit_status]
      unfold status_after_get_creatures
      by_cases hst : df.m_status = DFStatus.DFS_LAYOUT_OK
      · by_cases hne : v = []
        · have h2 : (df.emit (es2 ++ es3)).with_status DFStatus.DFS_LAYOUT_OK
              = df.emit (es2 ++ es3) := by
            have := with_status_self (df.emit (es2 ++ es3))
            rw [emit_status, hst] at this
            exact this
          simp [hst, hne, h2]
        · have hlen : v.length > 0 := List.length_pos.mpr hne
          simp [hst, hne, hlen]
      · have h2 : (df.emit (es2 ++ es3)).with_status df.m_status = df.emit (es2 ++ es3) := by
          have := with_status_self (df.emit (es2 ++ es3))
          rw [emit_status] at this
          exact this
        simp [hst, h2]
  by_cases hempty : (enumerate_vector df (L.address "active_creature_vector" true)).1.isEmpty = true
  · simp only [hempty, if_true]
    cases rp
    · exact key _ es1 hp1 he1
    · refine key _ (es1 ++ [Event.log LogLevel.LL_INFO
        "no active units (embark) using full unit list" []]) ?_ ?_
      · rw [List.all_append, hp1]; rfl
      · unfold enumerate_vector
        rw [he1]
        simp [DFInstance.logline, DFInstance.record, emit_emit]
  · simp only [hempty, if_false]
    obtain ⟨es2, hp2, he2⟩ := scan_active_units_frame rp (L.dwarf_offset "civ")
      (enumerate_vector df (L.address "active_creature_vector" true)).1
      (enumerate_vector df (L.address "active_creature_vector" true)).2
    cases rp
    · refine key _ (es1 ++ es2) ?_ ?_
      · rw [List.all_append, hp1, hp2]; rfl
      · simp only [Bool.false_eq_true, if_false]
        rw [he2]
        unfold enumerate_vector
        rw [he1, emit_emit]
    · refine key _ (es1 ++ es2 ++ [Event.log LogLevel.LL_INFO
        "no active units with our civ (reclaim), using full unit list" []]) ?_ ?_
      · rw [List.all_append, List.all_append, hp1, hp2]; rfl
      · simp only [if_true]
        rw [he2]
        unfold enumerate_vector
        rw [he1]
        simp [DFInstance.logline, DFInstance.record, emit_emit]

/-- C7: with a layout selected `get_creatures` returns, and the status afterwards is
`DFS_GAME_LOADED` when the prior status is exactly `DFS_LAYOUT_OK` and the returned list is
non-empty, and the prior status in every other case. -/
theorem C7_get_creatures_status (df : DFInstance) (L : MemoryLayout) (report_progress : Bool)
    (hL : df.m_layout = some L) :
    ∃ entries df1, get_creatures df report_progress = some (entries, df1) ∧
      (df.m_status = DFStatus.DFS_LAYOUT_OK ∧ entries ≠ [] →
        df1.m_status = DFStatus.DFS_GAME_LOADED) ∧
      (¬ (df.m_status = DFStatus.DFS_LAYOUT_OK ∧ entries ≠ []) → df1.m_status = df.m_status) := by
  obtain ⟨entries, es, _, h⟩ := get_creatures_frame df L report_progress hL
  refine ⟨entries, _, h, ?_, ?_⟩
  · intro hc
    show status_after_get_creatures df.m_status entries = _
    unfold status_after_get_creatures
    rw [if_pos hc]
  · intro hc
    show status_after_get_creatures df.m_status entries = _
    unfold status_after_get_creatures
    rw [if_neg hc]

/-- Witness of C7: from `DFS_LAYOUT_OK` with one creature the status becomes
`DFS_GAME_LOADED`; from `DFS_CONNECTED` with one creature, and from `DFS_LAYOUT_OK` with none,
it stays. -/
theorem C7_get_creatures_status_witness :
    (get_creatures (instance_with_units DFStatus.DFS_LAYOUT_OK 1 true) true).map
        (fun r => (r.1, r.2.m_status)) = some ([0], DFStatus.DFS_GAME_LOADED) ∧
    (get_creatures (instance_with_units DFStatus.DFS_CONNECTED 1 true) true).map
        (fun r => (r.1, r.2.m_status)) = some ([0], DFStatus.DFS_CONNECTED) ∧
    (get_creatures (instance_with_units DFStatus.DFS_LAYOUT_OK 0 true) true).map
        (fun r => (r.1, r.2.m_status)) = some ([], DFStatus.DFS_LAYOUT_OK) := by
  refine ⟨?_, ?_, ?_⟩
  · obtain ⟨entries, df1, h, h1, _⟩ := C7_get_creatures_status
      (instance_with_units DFStatus.DFS_LAYOUT_OK 1 true) unit_layout true rfl
    have he : (get_creatures (instance_with_units DFStatus.DFS_LAYOUT_OK 1 true) true).map
        Prod.fst = some [0] := by decide
    rw [h] at he ⊢
    simp only [Option.map_some', Option.some.injEq] at he
    subst he
    rw [Option.map_some', h1 ⟨rfl, by decide⟩]
  · obtain ⟨entries, df1, h, _, h2⟩ := C7_get_creatures_status
      (instance_with_units DFStatus.DFS_CONNECTED 1 true) unit_layout true rfl
    have he : (get_creatures (instance_with_units DFStatus.DFS_CONNECTED 1 true) true).map
        Prod.fst = some [0] := by decide
    rw [h] at he ⊢
    simp only [Option.map_some', Option.some.injEq] at he
    subst he
    rw [Option.map_some', h2 (fun hc => absurd hc.1 (by decide))]
    rfl
  · obtain ⟨entries, df1, h, _, h2⟩ := C7_get_creatures_status
      (instance_with_units DFStatus.DFS_LAYOUT_OK 0 true) unit_layout true rfl
    have he : (get_creatures (instance_with_units DFStatus.DFS_LAYOUT_OK 0 true) true).map
        Prod.fst = some [] := by decide
    rw [h] at he ⊢
    simp only [Option.map_some', Option.some.injEq] at he
    subst he
    rw [Option.map_some', h2 (fun hc => hc.2 rfl)]
    rfl

theorem send_connection_interrupted_status (df : DFInstance) :
    (send_connection_interrupted df).m_status =
      if df.df_running then DFStatus.DFS_LAYOUT_OK else DFStatus.DFS_DISCONNECTED := by
  unfold send_connection_interrupted
  cases h : df.df_running <;> simp <;> rfl

theorem send_connection_interrupted_trace (df : DFInstance) :
    (send_connection_interrupted df).trace =
      df.trace ++ [Event.emit_signal "connection_interrupted"] := by
  unfold send_connection_interrupted
  cases h : df.df_running <;> simp <;> rfl

/-- C6: whatever the prior status, `send_connection_interrupted` sets the status to
`DFS_LAYOUT_OK` when the backend reports the process alive and to `DFS_DISCONNECTED` when it
does not, and emits `connection_interrupted` exactly once; so `heartbeat` from
`DFS_GAME_LOADED` with a creature probe of zero entries returns with the status
`DFS_LAYOUT_OK` if the process is alive and `DFS_DISCONNECTED` otherwise, the signal emitted
once. -/
theorem C6_interruption_sets_status (df : DFInstance) :
    ((send_connection_interrupted df).m_status =
        (if df.df_running then DFStatus.DFS_LAYOUT_OK else DFStatus.DFS_DISCONNECTED) ∧
      signals (send_connection_interrupted df).trace =
        signals df.trace ++ ["connection_interrupted"]) ∧
    (df.m_status = DFStatus.DFS_GAME_LOADED ∧
        (get_creatures df false).map Prod.fst = some [] →
      ∃ df2, heartbeat df = some df2 ∧
        df2.m_status =
          (if df.df_running then DFStatus.DFS_LAYOUT_OK else DFStatus.DFS_DISCONNECTED) ∧
        signals df2.trace = signals df.trace ++ ["connection_interrupted"]) := by
  refine ⟨⟨send_connection_interrupted_status df, ?_⟩, ?_⟩
  · rw [send_connection_interrupted_trace, signals_append]
    rfl
  · rintro ⟨hst, hprobe⟩
    cases hlay : df.m_layout with
    | none =>
      have hnone : get_creatures df false = none := by
        unfold get_creatures
        simp only [hlay]
      rw [hnone] at hprobe
      exact absurd hprobe (by simp)
    | some L =>
      obtain ⟨entries, es, hp, hg⟩ := get_creatures_frame df L false hlay
      rw [hg] at hprobe
      simp only [Option.map_some', Option.some.injEq] at hprobe
      subst hprobe
      have hne : df.m_status ≠ DFStatus.DFS_DISCONNECTED := by rw [hst]; decide
      refine ⟨send_connection_interrupted
        ((df.emit es).with_status (status_after_get_creatures df.m_status [])), ?_, ?_, ?_⟩
      · unfold heartbeat
        rw [if_pos hne, hg]
        rfl
      · rw [send_connection_interrupted_status]
        rfl
      · rw [send_connection_interrupted_trace, signals_append]
        show signals (df.trace ++ es) ++ _ = _
        rw [signals_append, signals_of_passive es hp, List.append_nil]
        rfl

/-- Witness of C6: from `DFS_GAME_LOADED` with no creature, `heartbeat` ends in
`DFS_LAYOUT_OK` when the process is alive and in `DFS_DISCONNECTED` when it is not, having
emitted the one signal. -/
theorem C6_interruption_sets_status_witness :
    (heartbeat (instance_with_units DFStatus.DFS_GAME_LOADED 0 true)).map
        (fun d => (d.m_status, signals d.trace)) =
      some (DFStatus.DFS_LAYOUT_OK, ["connection_interrupted"]) ∧
    (heartbeat (instance_with_units DFStatus.DFS_GAME_LOADED 0 false)).map
        (fun d => (d.m_status, signals d.trace)) =
      some (DFStatus.DFS_DISCONNECTED, ["connection_interrupted"]) := by
  constructor
  · obtain ⟨df2, h, h1, h2⟩ :=
      (C6_interruption_sets_status (instance_with_units DFStatus.DFS_GAME_LOADED 0 true)).2
        ⟨rfl, by decide⟩
    rw [h, Option.map_some', h1, h2]
    rfl
  · obtain ⟨df2, h, h1, h2⟩ :=
      (C6_interruption_sets_status (instance_with_units DFStatus.DFS_GAME_LOADED 0 false)).2
        ⟨rfl, by decide⟩
    rw [h, Option.map_some', h1, h2]
    rfl

/-! ## Name decoding -/

theorem read_dwarf_word_snd (df : DFInstance) (a : Nat) :
    (read_dwarf_word df a).2 = df.emit [Event.read_raw a 4 4] := by
  unfold read_dwarf_word
  simp only [read_int, read_raw_snd]
  split <;> rfl

theorem read_dwarf_word_emit_fst (df : DFInstance) (es : List Event) (a : Nat) :
    (read_dwarf_word (df.emit es) a).1 = (read_dwarf_word df a).1 := by
  unfold read_dwarf_word
  simp only [read_int, read_raw_fst, emit_mem]
  split <;> rfl

theorem read_dwarf_name_head_snd (df : DFInstance) (addr : Nat) :
    ∃ es, (read_dwarf_name_head df addr).2 = df.emit es := by
  unfold read_dwarf_name_head
  simp only [read_dwarf_word_snd, emit_emit]
  exact ⟨_, rfl⟩

/-- C8: when the sixth slot (offset 0x14) of a name block holds a word, `read_dwarf_name`
appends to the fragments of the first five slots: if that word has an empty plural noun, its
capitalized singular noun and, when the seventh slot (offset 0x18) holds a word, " of "
followed by that word's capitalized verb if it has one and by its capitalized noun otherwise;
if the plural noun is not empty, the capitalized plural noun and, for the seventh slot, " of "
followed by the capitalized present participle if the word has a verb and by its capitalized
plural noun otherwise. -/
theorem C8_name_noun_and_of_slots (df : DFInstance) (addr : Nat) (w6 : Word)
    (h6 : slot_word df addr 0x14 = some w6) :
    (w6.plural_noun = "" →
      (read_dwarf_name df addr).1 =
        match slot_word df addr 0x18 with
        | none =>
          df.host.trimmed ((read_dwarf_name_head df addr).1 ++ (" " ++ df.host.capitalize w6.noun))
        | some w7 =>
          df.host.trimmed ((read_dwarf_name_head df addr).1 ++ (" " ++ df.host.capitalize w6.noun)
            ++ (" of " ++ df.host.capitalize (if w7.verb ≠ "" then w7.verb else w7.noun)))) ∧
    (w6.plural_noun ≠ "" →
      (read_dwarf_name df addr).1 =
        match slot_word df addr 0x18 with
        | none =>
          df.host.trimmed
            ((read_dwarf_name_head df addr).1 ++ (" " ++ df.host.capitalize w6.plural_noun))
        | some w7 =>
          df.host.trimmed
            ((read_dwarf_name_head df addr).1 ++ (" " ++ df.host.capitalize w6.plural_noun)
              ++ (" of " ++ df.host.capitalize
                    (if w7.verb ≠ "" then w7.present_participle_verb else w7.plural_noun)))) := by
  obtain ⟨es, hes⟩ := read_dwarf_name_head_snd df addr
  have e6 : (read_dwarf_word (read_dwarf_name_head df addr).2 (add32 addr 0x14)).1 = some w6 := by
    rw [hes, read_dwarf_word_emit_fst]; exact h6
  have e7 : (read_dwarf_word (read_dwarf_word (read_dwarf_name_head df addr).2
      (add32 addr 0x14)).2 (add32 addr 0x18)).1 = slot_word df addr 0x18 := by
    rw [read_dwarf_word_snd, hes, emit_emit, read_dwarf_word_emit_fst]; rfl
  constructor
  · intro hp
    unfold read_dwarf_name
    simp only [e6, e7, hp, if_true]
    cases slot_word df addr 0x18 with
    | none => rfl
    | some w7 =>
      by_cases hv : w7.verb = "" <;> simp [hv]
  · intro hp
    unfold read_dwarf_name
    simp only [e6, e7, hp, if_false]
    cases slot_word df addr 0x18 with
    | none => rfl
    | some w7 =>
      by_cases hv : w7.verb = "" <;> simp [hv]

/-- Witness of C8: a singular noun followed by the verb of the seventh word, and a plural
noun followed by the plural noun of a seventh word without verb. -/
theorem C8_name_noun_and_of_slots_witness :
    (read_dwarf_name instance_with_names 64).1 = "The hammer of strike" ∧
    (read_dwarf_name instance_with_names 128).1 = "The hammers of blows" := by
  have w6a : slot_word instance_with_names 64 0x14 = sample_words 1 := by decide
  have w6b : slot_word instance_with_names 128 0x14 = sample_words 3 := by decide
  have h1 := (C8_name_noun_and_of_slots instance_with_names 64 _ w6a).1 rfl
  have h2 := (C8_name_noun_and_of_slots instance_with_names 128 _ w6b).2 (by decide)
  exact ⟨h1.trans (by decide), h2.trans (by decide)⟩

/-! ## Unit loading -/

theorem load_dwarves_step_host (acc : List Dwarf × DFInstance) (a : Nat) :
    (load_dwarves_step acc a).2.host = acc.2.host := by
  unfold load_dwarves_step
  simp only
  split
  · split
    · split <;> rfl
    · rfl
  · rfl

theorem load_dwarves_step_labor (acc : List Dwarf × DFInstance) (a : Nat) :
    (load_dwarves_step acc a).2.m_labor_capable_dwarves =
      acc.2.m_labor_capable_dwarves ++
        [acc.2.host.new_Dwarf a].filter (fun d => d.is_valid &&
          (!d.is_animal && !d.is_baby && (!d.is_child || acc.2.host.labor_cheats_allowed))) := by
  unfold load_dwarves_step
  cases hv : (acc.2.host.new_Dwarf a).is_valid <;>
    cases ha : (acc.2.host.new_Dwarf a).is_animal <;>
    cases hb : (acc.2.host.new_Dwarf a).is_baby <;>
    cases hc : (acc.2.host.new_Dwarf a).is_child <;>
    cases hl : acc.2.host.labor_cheats_allowed <;>
    simp [hv, ha, hb, hc, hl, DFInstance.record, DFInstance.emit, List.filter]

theorem load_dwarves_fold_labor (addrs : List Nat) (acc : List Dwarf × DFInstance) :
    (addrs.foldl load_dwarves_step acc).2.host = acc.2.host ∧
    (addrs.foldl load_dwarves_step acc).2.m_labor_capable_dwarves =
      acc.2.m_labor_capable_dwarves ++
        (addrs.map acc.2.host.new_Dwarf).filter (fun d => d.is_valid &&
          (!d.is_animal && !d.is_baby && (!d.is_child || acc.2.host.labor_cheats_allowed))) := by
  induction addrs generalizing acc with
  | nil => simp
  | cons a rest ih =>
    obtain ⟨h1, h2⟩ := ih (load_dwarves_step acc a)
    rw [List.foldl_cons]
    refine ⟨h1.trans (load_dwarves_step_host acc a), ?_⟩
    rw [h2, load_dwarves_step_labor, load_dwarves_step_host, List.map_cons, List.append_assoc,
      ← List.filter_append]
    rfl

/-- C4: the loop of `load_dwarves` over the creature addresses appends to
`m_labor_capable_dwarves`, in order, exactly the constructed units that are valid, not an
animal, not a baby, and not a child unless labor cheats are allowed; so, starting from an
empty subset, a valid constructed unit is in the labor-capable subset if and only if it is not
an animal, not a baby, and (not a child or the flag is enabled). -/
theorem C4_labor_capable_subset (df : DFInstance) (creatures_addrs : List Nat) :
    (load_dwarves_units df creatures_addrs).2.m_labor_capable_dwarves =
      df.m_labor_capable_dwarves ++
        (creatures_addrs.map df.host.new_Dwarf).filter (fun d => d.is_valid &&
          (!d.is_animal && !d.is_baby && (!d.is_child || df.host.labor_cheats_allowed))) ∧
    (∀ addr ∈ creatures_addrs, (df.host.new_Dwarf addr).is_valid = true →
      df.m_labor_capable_dwarves = [] →
      (df.host.new_Dwarf addr ∈ (load_dwarves_units df creatures_addrs).2.m_labor_capable_dwarves ↔
        (df.host.new_Dwarf addr).is_animal = false ∧ (df.host.new_Dwarf addr).is_baby = false ∧
          ((df.host.new_Dwarf addr).is_child = false ∨ df.host.labor_cheats_allowed = true))) := by
  have h := (load_dwarves_fold_labor creatures_addrs ([], df)).2
  refine ⟨h, ?_⟩
  intro addr hmem hvalid hempty
  unfold load_dwarves_units
  rw [h, hempty, List.nil_append, List.mem_filter]
  constructor
  · rintro ⟨_, hp⟩
    simpa [hvalid, and_assoc] using hp
  · intro hp
    refine ⟨List.mem_map.mpr ⟨addr, hmem, rfl⟩, ?_⟩
    simpa [hvalid, and_assoc] using hp

/-- Witness of C4: the child at address 3 is labor-capable with the flag on and is not with
the flag off; the baby at address 2 is not, whatever the flag. -/
theorem C4_labor_capable_subset_witness :
    nursery_unit 3 ∈
      (load_dwarves_units (nursery_instance true) [1, 2, 3, 4]).2.m_labor_capable_dwarves ∧
    nursery_unit 3 ∉
      (load_dwarves_units (nursery_instance false) [1, 2, 3, 4]).2.m_labor_capable_dwarves ∧
    nursery_unit 2 ∉
      (load_dwarves_units (nursery_instance true) [1, 2, 3, 4]).2.m_labor_capable_dwarves ∧
    nursery_unit 2 ∉
      (load_dwarves_units (nursery_instance false) [1, 2, 3, 4]).2.m_labor_capable_dwarves :=
  ⟨((C4_labor_capable_subset (nursery_instance true) [1, 2, 3, 4]).2 3 (by decide) rfl rfl).mpr
      (by decide),
   fun h => absurd
     (((C4_labor_capable_subset (nursery_instance false) [1, 2, 3, 4]).2 3 (by decide) rfl rfl).mp h)
     (by decide),
   fun h => absurd
     (((C4_labor_capable_subset (nursery_instance true) [1, 2, 3, 4]).2 2 (by decide) rfl rfl).mp h)
     (by decide),
   fun h => absurd
     (((C4_labor_capable_subset (nursery_instance false) [1, 2, 3, 4]).2 2 (by decide) rfl rfl).mp h)
     (by decide)⟩

/-! ## Population aggregation -/

theorem assoc_value_erase {κ ν : Type} [DecidableEq κ] (m : List (κ × ν)) (k k2 : κ) :
    assoc_value (assoc_erase m k) k2 = if k = k2 then none else assoc_value m k2 := by
  induction m with
  | nil => simp [assoc_erase, assoc_value]
  | cons e rest ih =>
    obtain ⟨a, v⟩ := e
    by_cases h1 : a = k
    · have e1 : assoc_erase ((a, v) :: rest) k = assoc_erase rest k := by
        simp [assoc_erase, h1]
      rw [e1, ih]
      by_cases h2 : k = k2
      · rw [if_pos h2, if_pos h2]
      · have h3 : ¬ a = k2 := by rw [h1]; exact h2
        rw [if_neg h2, if_neg h2]
        simp [assoc_value, h3]
    · have e1 : assoc_erase ((a, v) :: rest) k = (a, v) :: assoc_erase rest k := by
        simp [assoc_erase, h1]
      rw [e1]
      by_cases h3 : a = k2
      · have h2 : ¬ k = k2 := by rw [← h3]; exact fun h => h1 h.symm
        rw [if_neg h2]
        simp [assoc_value, h3]
      · have e2 : assoc_value ((a, v) :: assoc_erase rest k) k2
            = assoc_value (assoc_erase rest k) k2 := by
          simp [assoc_value, h3]
        have e3 : assoc_value ((a, v) :: rest) k2 = assoc_value rest k2 := by
          simp [assoc_value, h3]
        rw [e2, e3, ih]

theorem assoc_value_insert {κ ν : Type} [DecidableEq κ] (m : List (κ × ν)) (k k2 : κ) (v : ν) :
    assoc_value (assoc_insert m k v) k2 = if k = k2 then some v else assoc_value m k2 := by
  unfold assoc_insert
  by_cases h : k = k2
  · simp [assoc_value, h]
  · simp [assoc_value, h, assoc_value_erase]

theorem mem_of_mem_assoc_erase {κ ν : Type} [DecidableEq κ] (m : List (κ × ν)) (k : κ)
    (e : κ × ν) (h : e ∈ assoc_erase m k) : e ∈ m := by
  induction m with
  | nil => simp [assoc_erase] at h
  | cons x rest ih =>
    obtain ⟨a, v⟩ := x
    by_cases h1 : a = k
    · simp only [assoc_erase, h1, if_true] at h
      exact List.mem_cons_of_mem _ (ih h)
    · simp only [assoc_erase, h1, if_false, List.mem_cons] at h
      rcases h with h | h
      · rw [h]; exact List.mem_cons_self _ _
      · exact List.mem_cons_of_mem _ (ih h)

theorem mem_keys_of_assoc_value {κ ν : Type} [DecidableEq κ] (m : List (κ × ν)) (k : κ) (v : ν)
    (h : assoc_value m k = some v) : k ∈ assoc_uniqueKeys m := by
  unfold assoc_uniqueKeys
  rw [List.mem_dedup]
  induction m with
  | nil => simp [assoc_value] at h
  | cons x rest ih =>
    obtain ⟨a, w⟩ := x
    by_cases h1 : a = k
    · simp [h1]
    · simp only [assoc_value, h1, if_false] at h
      simp [ih h]

/-- What a single tally step leaves at every key. -/
theorem tally_preference_value (host : Host) (d : Dwarf) (c : String)
    (counts : List ((String × String) × pref_stat)) (pref : String) (key : String × String) :
    assoc_value (tally_preference host d c counts pref) key =
      if ((if c = host.pref_desc_hate_creature then host.pref_desc_like_creature else c), pref) = key
      then
        some
          { names_likes :=
              if c = host.pref_desc_hate_creature then
                ((assoc_value counts key).getD pref_stat.fresh).names_likes
              else ((assoc_value counts key).getD pref_stat.fresh).names_likes ++ [d.nice_name],
            names_dislikes :=
              if c = host.pref_desc_hate_creature then
                ((assoc_value counts key).getD pref_stat.fresh).names_dislikes ++ [d.nice_name]
              else ((assoc_value counts key).getD pref_stat.fresh).names_dislikes,
            pref_category :=
              if c = host.pref_desc_hate_creature then host.pref_desc_like_creature else c }
      else assoc_value counts key := by
  unfold tally_preference
  by_cases hk : ((if c = host.pref_desc_hate_creature then host.pref_desc_like_creature else c),
      pref) = key
  · subst hk
    by_cases hh : c = host.pref_desc_hate_creature
    · cases hv : assoc_value counts (host.pref_desc_like_creature, pref) <;>
        simp [hh, hv, assoc_value_insert, assoc_contains]
    · cases hv : assoc_value counts (c, pref) <;>
        simp [hh, hv, assoc_value_insert, assoc_contains]
  · by_cases hh : c = host.pref_desc_hate_creature
    · simp only [hh, if_true] at hk
      cases hv : assoc_value counts (host.pref_desc_like_creature, pref) <;>
        simp [hh, hv, hk, assoc_value_insert, assoc_contains, assoc_value_erase]
    · simp only [hh, if_false] at hk
      cases hv : assoc_value counts (c, pref) <;>
        simp [hh, hv, hk, assoc_value_insert, assoc_contains, assoc_value_erase]

theorem foldl_preserves {α β : Type} (f : β → α → β) (Q : β → Prop)
    (hstep : ∀ b x, Q b → Q (f b x)) (l : List α) (b : β) (hb : Q b) : Q (l.foldl f b) := by
  induction l generalizing b with
  | nil => exact hb
  | cons x rest ih => exact ih (f b x) (hstep b x hb)

theorem foldl_establishes {α β : Type} (f : β → α → β) (Q : β → Prop) (x0 : α)
    (hest : ∀ b, Q (f b x0)) (hstep : ∀ b x, Q b → Q (f b x)) (l : List α) (hx : x0 ∈ l) (b : β) :
    Q (l.foldl f b) := by
  induction l generalizing b with
  | nil => simp at hx
  | cons x rest ih =>
    rw [List.foldl_cons]
    rcases List.mem_cons.mp hx with h | h
    · subst h
      exact foldl_preserves f Q hstep rest _ (hest b)
    · exact ih h _

theorem tally_preference_keeps_like (host : Host) (d : Dwarf) (c : String)
    (counts : List ((String × String) × pref_stat)) (pref : String) (key : String × String)
    (name : String) (h : records_like counts key name) :
    records_like (tally_preference host d c counts pref) key name := by
  obtain ⟨p, hp, hn⟩ := h
  unfold records_like
  rw [tally_preference_value, hp]
  by_cases hk : ((if c = host.pref_desc_hate_creature then host.pref_desc_like_creature else c),
      pref) = key
  · rw [if_pos hk]
    refine ⟨_, rfl, ?_⟩
    by_cases hh : c = host.pref_desc_hate_creature <;> simp [hh, hn]
  · rw [if_neg hk]
    exact ⟨p, rfl, hn⟩

theorem tally_preference_keeps_dislike (host : Host) (d : Dwarf) (c : String)
    (counts : List ((String × String) × pref_stat)) (pref : String) (key : String × String)
    (name : String) (h : records_dislike counts key name) :
    records_dislike (tally_preference host d c counts pref) key name := by
  obtain ⟨p, hp, hn⟩ := h
  unfold records_dislike
  rw [tally_preference_value, hp]
  by_cases hk : ((if c = host.pref_desc_hate_creature then host.pref_desc_like_creature else c),
      pref) = key
  · rw [if_pos hk]
    refine ⟨_, rfl, ?_⟩
    by_cases hh : c = host.pref_desc_hate_creature <;> simp [hh, hn]
  · rw [if_neg hk]
    exact ⟨p, rfl, hn⟩

theorem tally_preference_adds_dislike (host : Host) (d : Dwarf)
    (counts : List ((String × String) × pref_stat)) (pref : String) :
    records_dislike (tally_preference host d host.pref_desc_hate_creature counts pref)
      (host.pref_desc_like_creature, pref) d.nice_name := by
  unfold records_dislike
  rw [tally_preference_value]
  simp

theorem tally_preference_adds_like (host : Host) (d : Dwarf) (c : String)
    (hc : c ≠ host.pref_desc_hate_creature)
    (counts : List ((String × String) × pref_stat)) (pref : String) :
    records_like (tally_preference host d c counts pref) (c, pref) d.nice_name := by
  unfold records_like
  rw [tally_preference_value]
  simp [hc]

theorem tally_preference_keys (host : Host)
    (hne : host.pref_desc_hate_creature ≠ host.pref_desc_like_creature) (d : Dwarf) (c : String)
    (counts : List ((String × String) × pref_stat)) (pref : String)
    (h : ∀ e ∈ counts, e.1.1 ≠ host.pref_desc_hate_creature) :
    ∀ e ∈ tally_preference host d c counts pref, e.1.1 ≠ host.pref_desc_hate_creature := by
  intro e he
  unfold tally_preference assoc_insert at he
  simp only [List.mem_cons] at he
  rcases he with he | he
  · rw [he]
    by_cases hh : c = host.pref_desc_hate_creature
    · simpa [hh] using hne.symm
    · simp [hh]
  · have h2 := mem_of_mem_assoc_erase _ _ _ he
    have aux : ∀ (b : Prop) [Decidable b] (x y : pref_stat) (k : String × String),
        e ∈ (if b then (x, assoc_erase counts k) else (y, counts)).2 → e ∈ counts := by
      intro b _ x y k hmem
      by_cases hb : b
      · rw [if_pos hb] at hmem
        exact mem_of_mem_assoc_erase _ _ _ hmem
      · rw [if_neg hb] at hmem
        exact hmem
    exact h e (aux _ _ _ _ h2)

/-- Whatever every tally step preserves, the tally of a whole unit preserves. -/
theorem tally_preferences_preserves (host : Host) (Q : List ((String × String) × pref_stat) → Prop)
    (hQ : ∀ d c m x, Q m → Q (tally_preference host d c m x)) (d : Dwarf)
    (m : List ((String × String) × pref_stat)) (hm : Q m) : Q (tally_preferences host d m) := by
  unfold tally_preferences
  refine foldl_preserves _ Q ?_ _ m hm
  intro b c hb
  exact foldl_preserves _ Q (fun b2 x hb2 => hQ d c b2 x hb2) _ b hb

/-- What the tally step of `(c, x)` establishes and every step preserves holds after the
tally of a unit that has `x` in its category `c`. -/
theorem tally_preferences_establishes (host : Host)
    (Q : List ((String × String) × pref_stat) → Prop)
    (hQ : ∀ d c m x, Q m → Q (tally_preference host d c m x)) (d : Dwarf) (c x : String)
    (prefs : List String) (hc : assoc_value d.grouped_preferences c = some prefs) (hx : x ∈ prefs)
    (hest : ∀ m, Q (tally_preference host d c m x))
    (m : List ((String × String) × pref_stat)) : Q (tally_preferences host d m) := by
  unfold tally_preferences
  refine foldl_establishes _ Q c ?_ ?_ _ (mem_keys_of_assoc_value _ _ _ hc) m
  · intro b
    rw [hc]
    exact foldl_establishes _ Q x hest (fun b2 y hb2 => hQ d c b2 y hb2) prefs hx b
  · intro b c2 hb
    exact foldl_preserves _ Q (fun b2 y hb2 => hQ d c2 b2 y hb2) _ b hb

theorem population_prefs_preserves (host : Host) (Q : List ((String × String) × pref_stat) → Prop)
    (hQ : ∀ d c m x, Q m → Q (tally_preference host d c m x)) (ds : List Dwarf)
    (m : List ((String × String) × pref_stat)) (hm : Q m) : Q (population_prefs host ds m) := by
  unfold population_prefs
  refine foldl_preserves _ Q ?_ _ m hm
  intro b d hb
  by_cases hf : passes_visibility_filter host d = true
  · rw [if_pos hf]
    exact tally_preferences_preserves host Q hQ d b hb
  · rw [if_neg hf]
    exact hb

theorem population_prefs_establishes (host : Host)
    (Q : List ((String × String) × pref_stat) → Prop)
    (hQ : ∀ d c m x, Q m → Q (tally_preference host d c m x)) (ds : List Dwarf) (d : Dwarf)
    (hd : d ∈ ds) (hf : passes_visibility_filter host d = true) (c x : String)
    (prefs : List String) (hc : assoc_value d.grouped_preferences c = some prefs) (hx : x ∈ prefs)
    (hest : ∀ m, Q (tally_preference host d c m x))
    (m : List ((String × String) × pref_stat)) : Q (population_prefs host ds m) := by
  unfold population_prefs
  refine foldl_establishes _ Q d ?_ ?_ _ hd m
  · intro b
    rw [if_pos hf]
    exact tally_preferences_establishes host Q hQ d c x prefs hc hx hest b
  · intro b d2 hb
    by_cases hf2 : passes_visibility_filter host d2 = true
    · rw [if_pos hf2]
      exact tally_preferences_preserves host Q hQ d2 b hb
    · rw [if_neg hf2]
      exact hb

theorem load_population_step_frame (acc : Int × DFInstance) (d : Dwarf) :
    (load_population_step acc d).2.host = acc.2.host ∧
    (load_population_step acc d).2.m_pref_counts =
      if passes_visibility_filter acc.2.host d then tally_preferences acc.2.host d acc.2.m_pref_counts
      else acc.2.m_pref_counts := by
  unfold load_population_step
  cases h1 : (!(acc.2.m_labor_capable_dwarves.any (fun x => x.address == d.address))) <;>
    cases h2 : passes_visibility_filter acc.2.host d <;>
    simp [h1, h2, DFInstance.record, DFInstance.emit]

theorem load_population_fold_prefs (ds : List Dwarf) (acc : Int × DFInstance) :
    (ds.foldl load_population_step acc).2.host = acc.2.host ∧
    (ds.foldl load_population_step acc).2.m_pref_counts =
      population_prefs acc.2.host ds acc.2.m_pref_counts := by
  induction ds generalizing acc with
  | nil => exact ⟨rfl, rfl⟩
  | cons d rest ih =>
    obtain ⟨h1, h2⟩ := ih (load_population_step acc d)
    obtain ⟨f1, f2⟩ := load_population_step_frame acc d
    rw [List.foldl_cons]
    refine ⟨h1.trans f1, ?_⟩
    rw [h2, f1, f2]
    rfl

theorem load_population_data_prefs (df : DFInstance) :
    (load_population_data df).m_pref_counts =
      population_prefs df.host df.m_actual_dwarves df.m_pref_counts :=
  (load_population_fold_prefs df.m_actual_dwarves (0, df)).2

/-- C5: if unit A of the population passes the visibility filter and has preference X under
the hated-creature category, and unit B passes it and has X under the liked-creature
category, then after `load_population_data` on an empty tally the entry keyed
(liked-creature category, X) holds A's display name among its dislikes and B's among its
likes, and no entry of the tally is keyed by the hated-creature category (the two category
names being different). -/
theorem C5_hated_creature_folded_into_liked (df : DFInstance) (A B : Dwarf) (X : String)
    (prefsA prefsB : List String)
    (hne : df.host.pref_desc_hate_creature ≠ df.host.pref_desc_like_creature)
    (hA : A ∈ df.m_actual_dwarves) (hB : B ∈ df.m_actual_dwarves)
    (hfA : passes_visibility_filter df.host A = true)
    (hfB : passes_visibility_filter df.host B = true)
    (hpA : assoc_value A.grouped_preferences df.host.pref_desc_hate_creature = some prefsA)
    (hXA : X ∈ prefsA)
    (hpB : assoc_value B.grouped_preferences df.host.pref_desc_like_creature = some prefsB)
    (hXB : X ∈ prefsB)
    (hempty : df.m_pref_counts = []) :
    (∃ p, assoc_value (load_population_data df).m_pref_counts
            (df.host.pref_desc_like_creature, X) = some p ∧
          A.nice_name ∈ p.names_dislikes ∧ B.nice_name ∈ p.names_likes) ∧
    (∀ e ∈ (load_population_data df).m_pref_counts, e.1.1 ≠ df.host.pref_desc_hate_creature) := by
  rw [load_population_data_prefs]
  have hdis : records_dislike (population_prefs df.host df.m_actual_dwarves df.m_pref_counts)
      (df.host.pref_desc_like_creature, X) A.nice_name :=
    population_prefs_establishes df.host
      (fun m => records_dislike m (df.host.pref_desc_like_creature, X) A.nice_name)
      (fun d c m x hm => tally_preference_keeps_dislike df.host d c m x _ _ hm)
      df.m_actual_dwarves A hA hfA _ X prefsA hpA hXA
      (fun m => tally_preference_adds_dislike df.host A m X) df.m_pref_counts
  have hlike : records_like (population_prefs df.host df.m_actual_dwarves df.m_pref_counts)
      (df.host.pref_desc_like_creature, X) B.nice_name :=
    population_prefs_establishes df.host
      (fun m => records_like m (df.host.pref_desc_like_creature, X) B.nice_name)
      (fun d c m x hm => tally_preference_keeps_like df.host d c m x _ _ hm)
      df.m_actual_dwarves B hB hfB _ X prefsB hpB hXB
      (fun m => tally_preference_adds_like df.host B _ hne.symm m X) df.m_pref_counts
  have hkeys : ∀ e ∈ population_prefs df.host df.m_actual_dwarves df.m_pref_counts,
      e.1.1 ≠ df.host.pref_desc_hate_creature :=
    population_prefs_preserves df.host
      (fun m => ∀ e ∈ m, e.1.1 ≠ df.host.pref_desc_hate_creature)
      (fun d c m x hm => tally_preference_keys df.host hne d c m x hm)
      df.m_actual_dwarves df.m_pref_counts (by rw [hempty]; intro e he; simp at he)
  obtain ⟨p1, hp1, hn1⟩ := hdis
  obtain ⟨p2, hp2, hn2⟩ := hlike
  rw [hp1] at hp2
  cases hp2
  exact ⟨⟨p1, hp1, hn1, hn2⟩, hkeys⟩

/-- Witness of C5: Urist hates trolls and Bomrek likes them; the tally has Urist among the
dislikes and Bomrek among the likes of ("Likes", "troll"), and no key in "Hates". -/
theorem C5_hated_creature_folded_into_liked_witness :
    (∃ p, assoc_value (load_population_data instance_with_population).m_pref_counts
            ("Likes", "troll") = some p ∧
          "Urist" ∈ p.names_dislikes ∧ "Bomrek" ∈ p.names_likes) ∧
    (∀ e ∈ (load_population_data instance_with_population).m_pref_counts, e.1.1 ≠ "Hates") :=
  C5_hated_creature_folded_into_liked instance_with_population urist bomrek "troll"
    ["troll"] ["troll"] (by decide) (List.mem_cons_self _ _)
    (List.mem_cons_of_mem _ (List.mem_cons_self _ _)) rfl rfl (by decide)
    (List.mem_cons_self _ _) (by decide) (List.mem_cons_self _ _) rfl

/-! ## Creature-list resolution -/

theorem enum_vec_emit_fst {α : Type} (sizeofT : Nat) (decode : List Nat → α) (df : DFInstance)
    (es : List Event) (addr : Nat) :
    (enum_vec sizeofT decode (df.emit es) addr).1 = (enum_vec sizeofT decode df addr).1 := by
  by_cases h : descriptor_bytes df addr / SIZEOF_VIRTADDR ≤ 1000000
  · have h2 : descriptor_bytes (df.emit es) addr / SIZEOF_VIRTADDR ≤ 1000000 := h
    rw [enum_vec_accepted _ _ _ _ h, enum_vec_accepted _ _ _ _ h2]
    rfl
  · have h1 := Nat.lt_of_not_le h
    have h2 : descriptor_bytes (df.emit es) addr / SIZEOF_VIRTADDR > 1000000 := h1
    rw [enum_vec_rejected _ _ _ _ h1, enum_vec_rejected _ _ _ _ h2]

theorem get_creatures_fst (df : DFInstance) (L : MemoryLayout) (rp : Bool)
    (hL : df.m_layout = some L) :
    (get_creatures df rp).map Prod.fst =
      some (enumerate_vector df (L.address "creature_vector" true)).1 := by
  unfold get_creatures
  simp only [hL]
  obtain ⟨es1, _, he1⟩ := enum_vec_frame SIZEOF_VIRTADDR le_decode df
    (L.address "active_creature_vector" true)
  have key : ∀ (df2 : DFInstance) (es2 : List Event), df2 = df.emit es2 →
      Option.map Prod.fst
        (if (enumerate_vector df2 (L.address "creature_vector" true)).1.length > 0 ∧
            (enumerate_vector df2 (L.address "creature_vector" true)).2.m_status
              = DFStatus.DFS_LAYOUT_OK then
          some ((enumerate_vector df2 (L.address "creature_vector" true)).1,
            (enumerate_vector df2 (L.address "creature_vector" true)).2.with_status
              DFStatus.DFS_GAME_LOADED)
        else some (enumerate_vector df2 (L.address "creature_vector" true))) =
      some (enumerate_vector df (L.address "creature_vector" true)).1 := by
    intro df2 es2 hd2
    have hf : (enumerate_vector df2 (L.address "creature_vector" true)).1 =
        (enumerate_vector df (L.address "creature_vector" true)).1 := by
      rw [hd2]
      exact enum_vec_emit_fst _ _ _ _ _
    split <;> simp [hf]
  by_cases hempty : (enumerate_vector df (L.address "active_creature_vector" true)).1.isEmpty = true
  · simp only [hempty, if_true]
    cases rp
    · exact key _ es1 he1
    · refine key _ (es1 ++ [Event.log LogLevel.LL_INFO
        "no active units (embark) using full unit list" []]) ?_
      unfold enumerate_vector
      rw [he1]
      simp [DFInstance.logline, DFInstance.record, emit_emit]
  · simp only [hempty, if_false]
    obtain ⟨es2, _, he2⟩ := scan_active_units_frame rp (L.dwarf_offset "civ")
      (enumerate_vector df (L.address "active_creature_vector" true)).1
      (enumerate_vector df (L.address "active_creature_vector" true)).2
    cases rp
    · refine key _ (es1 ++ es2) ?_
      simp only [Bool.false_eq_true, if_false]
      rw [he2]
      unfold enumerate_vector
      rw [he1, emit_emit]
    · refine key _ (es1 ++ es2 ++ [Event.log LogLevel.LL_INFO
        "no active units with our civ (reclaim), using full unit list" []]) ?_
      simp only [if_true]
      rw [he2]
      unfold enumerate_vector
      rw [he1]
      simp [DFInstance.logline, DFInstance.record, emit_emit]

/-- C11: with a layout selected `get_creatures` returns exactly the enumeration of the full
creature vector (layout address "creature_vector"), whatever the active-units vector holds:
empty, with a unit of the tracked civilization, or without one. -/
theorem C11_get_creatures_returns_full_list (df : DFInstance) (L : MemoryLayout)
    (report_progress : Bool) (hL : df.m_layout = some L) :
    ∃ df1, get_creatures df report_progress =
      some ((enumerate_vector df (L.address "creature_vector" true)).1, df1) := by
  have h := get_creatures_fst df L report_progress hL
  cases hg : get_creatures df report_progress with
  | none => rw [hg] at h; simp at h
  | some r =>
    rw [hg] at h
    simp only [Option.map_some', Option.some.injEq] at h
    exact ⟨r.2, by rw [← h]⟩

/-- Witness of C11: the active-units vector holds one unit, of the tracked civilization (id
0) or not (id 7), or is empty; the result is the full creature list each time. -/
theorem C11_get_creatures_returns_full_list_witness :
    (enumerate_vector (instance_with_active_units 0) 32).1 = [20480] ∧
    (get_creatures (instance_with_active_units 0) true).map Prod.fst = some [20480, 24576] ∧
    (get_creatures (instance_with_active_units 7) true).map Prod.fst = some [20480, 24576] ∧
    (get_creatures (instance_with_units DFStatus.DFS_LAYOUT_OK 1 true) true).map Prod.fst
      = some [0] := by
  refine ⟨by decide, ?_, ?_, ?_⟩
  · obtain ⟨df1, h⟩ := C11_get_creatures_returns_full_list (instance_with_active_units 0)
      unit_layout true rfl
    rw [h, Option.map_some']
    exact congrArg some
      (by decide : (enumerate_vector (instance_with_active_units 0) 16).1 = [20480, 24576])
  · obtain ⟨df1, h⟩ := C11_get_creatures_returns_full_list (instance_with_active_units 7)
      unit_layout true rfl
    rw [h, Option.map_some']
    exact congrArg some
      (by decide : (enumerate_vector (instance_with_active_units 7) 16).1 = [20480, 24576])
  · obtain ⟨df1, h⟩ := C11_get_creatures_returns_full_list
      (instance_with_units DFStatus.DFS_LAYOUT_OK 1 true) unit_layout true rfl
    rw [h, Option.map_some']
    exact congrArg some
      (by decide : (enumerate_vector (instance_with_units DFStatus.DFS_LAYOUT_OK 1 true) 16).1
        = [0])

/-! ## Per-refresh clock -/

theorem to_uint32_of_nat (n : Nat) (h : n < 4294967296) : to_uint32 (n : Int) = n := by
  unfold to_uint32
  simp only [WORD32]
  omega

/-- C20, counterexample: the date (year 1, tick 0) precedes (year 10653, tick 0), both years
are 16-bit and both ticks are below `ticks_per_year`, yet the 32-bit counter goes from 403,200
down to 322,304: `10653 * 403200` exceeds 2^32 and wraps. -/
theorem C20_tick_counter_wraps_counterexample :
    (1 < 65536 ∧ 10653 < 65536 ∧ (0 : Int) < ticks_per_year ∧ 1 < 10653) ∧
    cur_time 1 0 = 403200 ∧ cur_time 10653 0 = 322304 ∧
    ¬ (cur_time 1 0 < cur_time 10653 0) := by
  decide

/-- C20, amended: with `ticks_per_day = 1200`, `ticks_per_month = 33,600`,
`ticks_per_season = 100,800` and `ticks_per_year = 403,200`, the counter
`year * ticks_per_year + year_tick` in 32-bit arithmetic is strictly monotonic in the date
as long as the later date does not overflow 32 bits: for ticks in [0, ticks_per_year), if
(y1, t1) precedes (y2, t2) lexicographically and `y2 * 403200 + t2 < 2^32` (every date up to
the end of year 10651), the counter of (y1, t1) is below the counter of (y2, t2). -/
theorem C20_tick_counter_monotonic_amended (y1 y2 t1 t2 : Nat)
    (ht1 : t1 < ticks_per_year) (ht2 : t2 < ticks_per_year)
    (hlex : y1 < y2 ∨ (y1 = y2 ∧ t1 < t2))
    (hfit : y2 * 403200 + t2 < 4294967296) :
    (ticks_per_day = 1200 ∧ ticks_per_month = 33600 ∧ ticks_per_season = 100800 ∧
      ticks_per_year = 403200) ∧
    cur_time y1 (t1 : Int) < cur_time y2 (t2 : Int) := by
  have hy : ticks_per_year = 403200 := by decide
  refine ⟨by decide, ?_⟩
  rw [hy] at ht1 ht2
  have hy1 : y1 < 4294967296 := by omega
  have hy2 : y2 < 4294967296 := by omega
  have e1 : cur_time y1 (t1 : Int) = y1 * 403200 + t1 := by
    unfold cur_time
    rw [to_uint32_of_nat y1 hy1, to_uint32_of_nat t1 (by omega), hy]
    simp only [WORD32]
    omega
  have e2 : cur_time y2 (t2 : Int) = y2 * 403200 + t2 := by
    unfold cur_time
    rw [to_uint32_of_nat y2 hy2, to_uint32_of_nat t2 (by omega), hy]
    simp only [WORD32]
    omega
  rw [e1, e2]
  omega

/-- Witness of C20 as amended: within a year and across the years 250 and 251. -/
theorem C20_tick_counter_monotonic_amended_witness :
    cur_time 250 (1000 : Nat) < cur_time 250 (1001 : Nat) ∧
    cur_time 250 (403199 : Nat) < cur_time 251 (0 : Nat) ∧
    cur_time 10651 (403198 : Nat) < cur_time 10651 (403199 : Nat) :=
  ⟨(C20_tick_counter_monotonic_amended 250 250 1000 1001 (by decide) (by decide)
      (Or.inr ⟨rfl, by decide⟩) (by decide)).2,
   (C20_tick_counter_monotonic_amended 250 251 403199 0 (by decide) (by decide)
      (Or.inl (by decide)) (by decide)).2,
   (C20_tick_counter_monotonic_amended 10651 10651 403198 403199 (by decide) (by decide)
      (Or.inr ⟨rfl, by decide⟩) (by decide)).2⟩

/-! ## Layout selection and status reporting -/

/-- C19, counterexample: in the status `DFS_GAME_LOADED` the message list is empty, not four
strings long. -/
theorem C19_game_loaded_has_no_message_counterexample :
    status_err_msg (instance_with_registry DFStatus.DFS_GAME_LOADED) = [] ∧
    (status_err_msg (instance_with_registry DFStatus.DFS_GAME_LOADED)).length ≠ 4 := by
  constructor
  · rfl
  · decide

/-- C19, amended: for the statuses `DFS_DISCONNECTED`, `DFS_CONNECTED` and `DFS_LAYOUT_OK`
`status_err_msg` returns exactly four strings (title, summary, detail, extended detail); for
`DFS_GAME_LOADED` it returns the empty list. -/
theorem C19_status_message_amended (df : DFInstance) :
    (df.m_status ≠ DFStatus.DFS_GAME_LOADED → (status_err_msg df).length = 4) ∧
    (df.m_status = DFStatus.DFS_GAME_LOADED → status_err_msg df = []) := by
  unfold status_err_msg
  cases h : df.m_status <;> simp

/-- Witness of C19 as amended, in the status `DFS_CONNECTED`. -/
theorem C19_status_message_amended_witness :
    (status_err_msg (instance_with_registry DFStatus.DFS_CONNECTED)).length = 4 ∧
    status_err_msg (instance_with_registry DFStatus.DFS_GAME_LOADED) = [] :=
  ⟨(C19_status_message_amended (instance_with_registry DFStatus.DFS_CONNECTED)).1 (by decide),
   (C19_status_message_amended (instance_with_registry DFStatus.DFS_GAME_LOADED)).2 rfl⟩

/-- C17, counterexample: from the status `DFS_LAYOUT_OK`, `set_memory_layout` with a
checksum the registry does not hold leaves the status `DFS_LAYOUT_OK`, which is not below
`DFS_LAYOUT_OK`. -/
theorem C17_status_not_lowered_counterexample :
    ¬ registry_has_usable_layout (instance_with_registry DFStatus.DFS_LAYOUT_OK)
        (looked_up_checksum (instance_with_registry DFStatus.DFS_LAYOUT_OK) "zzz") ∧
    (set_memory_layout (instance_with_registry DFStatus.DFS_LAYOUT_OK) "zzz").map
        DFInstance.m_status = some DFStatus.DFS_LAYOUT_OK ∧
    ¬ (DFStatus.DFS_LAYOUT_OK.toNat < DFStatus.DFS_LAYOUT_OK.toNat) := by
  refine ⟨?_, by decide, by decide⟩
  rintro ⟨l, hl, _⟩
  have hnone : assoc_value (instance_with_registry DFStatus.DFS_LAYOUT_OK).m_memory_layouts
      (looked_up_checksum (instance_with_registry DFStatus.DFS_LAYOUT_OK) "zzz") = none := rfl
  rw [hnone] at hl
  exact absurd hl (by simp)

/-- What `set_memory_layout` does when the looked-up entry is not both valid and complete:
it stores the checksum and the entry and logs. -/
theorem set_memory_layout_unusable (df : DFInstance) (checksum : String)
    (h : ∀ l, assoc_value df.m_memory_layouts (looked_up_checksum df checksum) = some l →
      (l.is_valid && l.is_complete) = false) :
    set_memory_layout df checksum =
      some { df with
        m_df_checksum := if checksum = "" then df.m_df_checksum else df.host.toLower checksum,
        m_layout := assoc_value df.m_memory_layouts (looked_up_checksum df checksum),
        trace := df.trace ++
          (Event.log LogLevel.LL_INFO "Setting memory layout for DF checksum" [] ::
            match assoc_value df.m_memory_layouts (looked_up_checksum df checksum) with
            | none => [Event.log LogLevel.LL_INFO "Could not find layout for checksum" []]
            | some l =>
              if l.is_valid then []
              else [Event.log LogLevel.LL_INFO "Invalid layout for checksum" []]) } := by
  unfold set_memory_layout get_memory_layout looked_up_checksum at *
  by_cases hc : checksum = ""
  · simp only [hc, not_true_eq_false, if_false, if_true] at h ⊢
    cases hv : assoc_value df.m_memory_layouts df.m_df_checksum with
    | none =>
      simp [hv, DFInstance.logline, DFInstance.record, DFInstance.emit]
    | some l =>
      have hbad := h l hv
      cases hval : l.is_valid <;> cases hcomp : l.is_complete <;>
        simp [hv, hval, hcomp, DFInstance.logline, DFInstance.record, DFInstance.emit] at hbad ⊢
  · simp only [hc, not_false_eq_true, if_false, if_true] at h ⊢
    cases hv : assoc_value df.m_memory_layouts checksum with
    | none =>
      simp [hv, DFInstance.logline, DFInstance.record, DFInstance.emit]
    | some l =>
      have hbad := h l hv
      cases hval : l.is_valid <;> cases hcomp : l.is_complete <;>
        simp [hv, hval, hcomp, DFInstance.logline, DFInstance.record, DFInstance.emit] at hbad ⊢

/-- C17, amended: when the registry holds no valid and complete layout under the checksum
that is looked up, `set_memory_layout` returns with the status unchanged (so it stays below
`DFS_LAYOUT_OK` if it was below before the call), the probe timer flag unchanged, and a
trace extended by informational log lines only: no read of the heartbeat probe, no signal,
no timer start. -/
theorem C17_no_usable_layout_amended (df : DFInstance) (checksum : String)
    (h : ¬ registry_has_usable_layout df (looked_up_checksum df checksum)) :
    ∃ df1 es, set_memory_layout df checksum = some df1 ∧
      df1.m_status = df.m_status ∧
      (df.m_status.toNat < DFStatus.DFS_LAYOUT_OK.toNat →
        df1.m_status.toNat < DFStatus.DFS_LAYOUT_OK.toNat) ∧
      df1.m_heartbeat_timer_active = df.m_heartbeat_timer_active ∧
      df1.trace = df.trace ++ es ∧
      (∀ e ∈ es, ∃ t a, e = Event.log LogLevel.LL_INFO t a) ∧
      raw_reads df1.trace = raw_reads df.trace ∧ signals df1.trace = signals df.trace := by
  have hreg : ∀ l, assoc_value df.m_memory_layouts (looked_up_checksum df checksum) = some l →
      (l.is_valid && l.is_complete) = false := by
    intro l hl
    cases hv : l.is_valid <;> cases hc : l.is_complete <;> simp
    exact h ⟨l, hl, hv, hc⟩
  have hes : ∀ e ∈ (Event.log LogLevel.LL_INFO "Setting memory layout for DF checksum" [] ::
      match assoc_value df.m_memory_layouts (looked_up_checksum df checksum) with
      | none => [Event.log LogLevel.LL_INFO "Could not find layout for checksum" []]
      | some l =>
        if l.is_valid then []
        else [Event.log LogLevel.LL_INFO "Invalid layout for checksum" []]),
      ∃ t a, e = Event.log LogLevel.LL_INFO t a := by
    intro e he
    rcases List.mem_cons.mp he with he | he
    · exact ⟨_, _, he⟩
    · cases hv : assoc_value df.m_memory_layouts (looked_up_checksum df checksum) with
      | none =>
        rw [hv] at he
        exact ⟨_, _, List.mem_singleton.mp he⟩
      | some l =>
        rw [hv] at he
        by_cases hval : l.is_valid = true
        · simp [hval] at he
        · simp only [hval, if_false, Bool.false_eq_true] at he
          exact ⟨_, _, List.mem_singleton.mp he⟩
  have hpassive : ∀ (es : List Event), (∀ e ∈ es, ∃ t a, e = Event.log LogLevel.LL_INFO t a) →
      es.all Event.is_passive = true := by
    intro es hall
    rw [List.all_eq_true]
    intro e he
    obtain ⟨t, a, rfl⟩ := hall e he
    rfl
  have hreads : ∀ (es : List Event), (∀ e ∈ es, ∃ t a, e = Event.log LogLevel.LL_INFO t a) →
      raw_reads es = [] := by
    intro es
    induction es with
    | nil => intro _; rfl
    | cons e rest ih =>
      intro hall
      obtain ⟨t, a, he⟩ := hall e (List.mem_cons_self _ _)
      subst he
      exact ih (fun x hx => hall x (List.mem_cons_of_mem _ hx))
  refine ⟨_, _, set_memory_layout_unusable df checksum hreg, rfl, fun hlt => hlt, rfl, rfl, hes,
    ?_, ?_⟩
  · show raw_reads (df.trace ++ _) = _
    rw [raw_reads_append, hreads _ hes, List.append_nil]
  · show signals (df.trace ++ _) = _
    rw [signals_append, signals_of_passive _ (hpassive _ hes), List.append_nil]

/-- Witness of C17 as amended: an unknown checksum from `DFS_CONNECTED`, and the known
checksum in upper case, which is looked up as given and not found. -/
theorem C17_no_usable_layout_amended_witness :
    (set_memory_layout (instance_with_registry DFStatus.DFS_CONNECTED) "zzz").map
        (fun d => (d.m_status, d.m_heartbeat_timer_active, raw_reads d.trace)) =
      some (DFStatus.DFS_CONNECTED, false, []) ∧
    (set_memory_layout (instance_with_registry DFStatus.DFS_CONNECTED) "ABC").map
        (fun d => (d.m_status, d.m_heartbeat_timer_active, raw_reads d.trace)) =
      some (DFStatus.DFS_CONNECTED, false, []) := by
  constructor
  · obtain ⟨df1, es, h, h1, _, h3, _, _, h6, _⟩ :=
      C17_no_usable_layout_amended (instance_with_registry DFStatus.DFS_CONNECTED) "zzz"
        (by rintro ⟨l, hl, _⟩; exact absurd hl (by simp [instance_with_registry,
          looked_up_checksum, assoc_value]))
    rw [h, Option.map_some', h1, h3, h6]
    rfl
  · obtain ⟨df1, es, h, h1, _, h3, _, _, h6, _⟩ :=
      C17_no_usable_layout_amended (instance_with_registry DFStatus.DFS_CONNECTED) "ABC"
        (by rintro ⟨l, hl, _⟩; exact absurd hl (by simp [instance_with_registry,
          looked_up_checksum, assoc_value]))
    rw [h, Option.map_some', h1, h3, h6]
    rfl

/-! ## Construction -/

theorem register_layout_registry (host : Host) (df : DFInstance) (info : String × MemoryLayout) :
    (register_layout host df info).m_memory_layouts =
      if info.2.is_valid then
        assoc_insert df.m_memory_layouts (host.toLower info.2.checksum) info.2
      else df.m_memory_layouts := by
  unfold register_layout
  by_cases h : info.2.is_valid = true <;>
    simp [h, DFInstance.logline, DFInstance.record, DFInstance.emit]

/-- Entries a fold of registrations cannot change: the value under `k` stays `v` when every
valid file of the list with that key carries the layout `v`. -/
theorem register_fold_keeps (host : Host) (k : String) (v : MemoryLayout)
    (l : List (String × MemoryLayout))
    (hl : ∀ g ∈ l, g.2.is_valid = true → host.toLower g.2.checksum = k → g.2 = v)
    (df : DFInstance) (hdf : assoc_value df.m_memory_layouts k = some v) :
    assoc_value (l.foldl (register_layout host) df).m_memory_layouts k = some v := by
  induction l generalizing df with
  | nil => exact hdf
  | cons g rest ih =>
    rw [List.foldl_cons]
    apply ih (fun x hx => hl x (List.mem_cons_of_mem _ hx))
    rw [register_layout_registry]
    by_cases hv : g.2.is_valid = true
    · rw [if_pos hv, assoc_value_insert]
      by_cases hk : host.toLower g.2.checksum = k
      · rw [if_pos hk, hl g (List.mem_cons_self _ _) hv hk]
      · rw [if_neg hk]; exact hdf
    · rw [if_neg hv]; exact hdf

theorem register_fold_valid (host : Host) (l : List (String × MemoryLayout)) (df : DFInstance)
    (hdf : ∀ e ∈ df.m_memory_layouts, e.2.is_valid = true) :
    ∀ e ∈ (l.foldl (register_layout host) df).m_memory_layouts, e.2.is_valid = true := by
  induction l generalizing df with
  | nil => exact hdf
  | cons g rest ih =>
    rw [List.foldl_cons]
    apply ih
    intro e he
    rw [register_layout_registry] at he
    by_cases hv : g.2.is_valid = true
    · rw [if_pos hv] at he
      rcases List.mem_cons.mp he with he | he
      · rw [he]; exact hv
      · exact hdf e (mem_of_mem_assoc_erase _ _ _ he)
    · rw [if_neg hv] at he
      exact hdf e he

theorem construct_registry (host : Host) (dir : List (String × MemoryLayout)) (codec : Bool) :
    (DFInstance.construct host dir codec).m_memory_layouts =
      ((entryInfoList dir).foldl (register_layout host) { host := host }).m_memory_layouts := by
  unfold DFInstance.construct
  simp only
  split <;> split <;> rfl

/-- C12: after construction the registry's entry for a lowercased checksum is the layout
parsed from the valid file with the lexicographically earliest file name among the valid
files with that checksum (compared after lowercasing), the files being processed in
descending file-name order with later inserts overwriting earlier ones; and no invalid layout
is in the registry. -/
theorem C12_earliest_file_name_wins (host : Host) (dir : List (String × MemoryLayout))
    (codec_registered : Bool) (f : String × MemoryLayout) (hf : f ∈ dir)
    (hvalid : f.2.is_valid = true)
    (hmin : ∀ g ∈ dir, g ≠ f → g.2.is_valid = true →
      host.toLower g.2.checksum = host.toLower f.2.checksum → name_key f.1 < name_key g.1) :
    assoc_value (DFInstance.construct host dir codec_registered).m_memory_layouts
        (host.toLower f.2.checksum) = some f.2 ∧
    (∀ e ∈ (DFInstance.construct host dir codec_registered).m_memory_layouts,
      e.2.is_valid = true) := by
  rw [construct_registry]
  constructor
  · have hperm : (entryInfoList dir).Perm dir := List.perm_insertionSort _ _
    have hsorted : (entryInfoList dir).Sorted by_name_reversed :=
      @List.sorted_insertionSort _ by_name_reversed _
        ⟨fun a b => le_total (name_key b.1) (name_key a.1)⟩
        ⟨fun a b c h1 h2 => le_trans h2 h1⟩ dir
    have hmem : f ∈ entryInfoList dir := hperm.mem_iff.mpr hf
    obtain ⟨l1, l2, hsplit⟩ := List.append_of_mem hmem
    rw [hsplit, List.foldl_append, List.foldl_cons]
    apply register_fold_keeps
    · intro g hg hgv hgk
      by_cases hgf : g = f
      · rw [hgf]
      · exfalso
        have hgdir : g ∈ dir := hperm.mem_iff.mp (by rw [hsplit]; simp [hg])
        have hlt := hmin g hgdir hgf hgv hgk
        have hpw : (f :: l2).Pairwise by_name_reversed := by
          have := hsorted
          rw [hsplit] at this
          exact (List.pairwise_append.mp this).2.1
        have hle : name_key g.1 ≤ name_key f.1 := List.rel_of_pairwise_cons hpw hg
        exact absurd hlt (not_lt.mpr hle)
    · rw [register_layout_registry, if_pos hvalid, assoc_value_insert, if_pos rfl]
  · apply register_fold_valid
    intro e he
    simp at he

/-- Witness of C12: "v0.42.ini" and "v0.44.ini" carry the checksums "0xAB" and "0xab"; the
registry entry under "0xab" is the layout of "v0.42.ini", and the invalid "broken.ini" is not
registered. -/
theorem C12_earliest_file_name_wins_witness :
    (assoc_value (DFInstance.construct plain_host sample_directory false).m_memory_layouts
        "0xab").map MemoryLayout.game_version = some "early" ∧
    (∀ e ∈ (DFInstance.construct plain_host sample_directory false).m_memory_layouts,
      e.2.is_valid = true) := by
  have h := C12_earliest_file_name_wins plain_host sample_directory false
    ("v0.42.ini", layout_file "0xAB" "early" true) (List.mem_cons_self _ _) rfl
    (by
      intro g hg hne hv hk
      simp only [sample_directory, List.mem_cons, List.mem_singleton, List.not_mem_nil,
        or_false] at hg
      rcases hg with hg | hg | hg | hg
      · exact absurd hg hne
      · subst hg; decide
      · subst hg; exact absurd hv (by decide)
      · subst hg; exact absurd hk (by decide))
  refine ⟨?_, h.2⟩
  have h1 : plain_host.toLower (layout_file "0xAB" "early" true).checksum = "0xab" := by decide
  rw [← h1, h.1]
  rfl

/-! ## Item catalog helpers -/

/-- C16, counterexample: the second subtype's plural name equals the query "sword", yet
`find_weapon_subtype` returns the first subtype, which matches by its group name and whose
plural name is "long swords". -/
theorem C16_list_order_beats_criterion_counterexample :
    (∃ w ∈ instance_with_weapons.m_weapon_subtypes,
      instance_with_weapons.host.ci_equals w.name_plural "sword" = true) ∧
    find_weapon_subtype instance_with_weapons "sword" =
      some { address := 1, name_plural := "long swords", group_name := "sword" } ∧
    instance_with_weapons.host.ci_equals "long swords" "sword" = false := by
  refine ⟨⟨{ address := 2, name_plural := "sword", group_name := "blade" }, ?_, ?_⟩, ?_, ?_⟩
  · decide
  · decide
  · decide
  · decide

theorem find_weapon_subtype_in_some (host : Host) (name : String) (l : List ItemWeaponSubtype)
    (w : ItemWeaponSubtype) (h : find_weapon_subtype_in host name l = some w) :
    ∃ l1 l2, l = l1 ++ w :: l2 ∧ weapon_subtype_matches host name w = true ∧
      ∀ x ∈ l1, weapon_subtype_matches host name x = false := by
  induction l with
  | nil => simp [find_weapon_subtype_in] at h
  | cons a rest ih =>
    unfold find_weapon_subtype_in at h
    by_cases ha : weapon_subtype_matches host name a = true
    · rw [if_pos ha] at h
      cases h
      exact ⟨[], rest, rfl, ha, by simp⟩
    · rw [if_neg ha] at h
      obtain ⟨l1, l2, h1, h2, h3⟩ := ih h
      refine ⟨a :: l1, l2, by rw [h1]; rfl, h2, ?_⟩
      intro x hx
      rcases List.mem_cons.mp hx with hx | hx
      · rw [hx]; simpa using ha
      · exact h3 x hx

theorem find_weapon_subtype_in_none (host : Host) (name : String) (l : List ItemWeaponSubtype) :
    find_weapon_subtype_in host name l = none ↔
      ∀ x ∈ l, weapon_subtype_matches host name x = false := by
  induction l with
  | nil => simp [find_weapon_subtype_in]
  | cons a rest ih =>
    unfold find_weapon_subtype_in
    by_cases ha : weapon_subtype_matches host name a = true
    · rw [if_pos ha]
      constructor
      · intro h; cases h
      · intro h
        have := h a (List.mem_cons_self _ _)
        rw [ha] at this
        cases this
    · rw [if_neg ha, ih]
      constructor
      · intro h x hx
        rcases List.mem_cons.mp hx with hx | hx
        · rw [hx]; simpa using ha
        · exact h x hx
      · intro h x hx
        exact h x (List.mem_cons_of_mem _ hx)

/-- C16, amended: `find_weapon_subtype(name)` returns the first subtype of the weapon list, in
list order, that matches by any of the three criteria (plural name equal to the query, group
name equal to the query, group name containing the query, each ignoring case), with no
precedence of one criterion over another across the list; and the result is null exactly
when no subtype matches by any of the three criteria. -/
theorem C16_first_match_in_list_order_amended (df : DFInstance) (name : String) :
    (∀ w, find_weapon_subtype df name = some w →
      ∃ l1 l2, df.m_weapon_subtypes = l1 ++ w :: l2 ∧
        (df.host.ci_equals w.name_plural name = true ∨ df.host.ci_equals w.group_name name = true ∨
          df.host.ci_contains w.group_name name = true) ∧
        ∀ x ∈ l1, df.host.ci_equals x.name_plural name = false ∧
          df.host.ci_equals x.group_name name = false ∧
          df.host.ci_contains x.group_name name = false) ∧
    (find_weapon_subtype df name = none ↔
      ∀ x ∈ df.m_weapon_subtypes, df.host.ci_equals x.name_plural name = false ∧
        df.host.ci_equals x.group_name name = false ∧
        df.host.ci_contains x.group_name name = false) := by
  have hm : ∀ x : ItemWeaponSubtype, weapon_subtype_matches df.host name x = false ↔
      (df.host.ci_equals x.name_plural name = false ∧ df.host.ci_equals x.group_name name = false ∧
        df.host.ci_contains x.group_name name = false) := by
    intro x
    unfold weapon_subtype_matches
    simp [Bool.or_eq_false_iff, and_assoc]
  constructor
  · intro w hw
    obtain ⟨l1, l2, h1, h2, h3⟩ := find_weapon_subtype_in_some _ _ _ _ hw
    refine ⟨l1, l2, h1, ?_, fun x hx => (hm x).mp (h3 x hx)⟩
    unfold weapon_subtype_matches at h2
    simpa [Bool.or_eq_true, or_assoc] using h2
  · unfold find_weapon_subtype
    rw [find_weapon_subtype_in_none]
    constructor
    · intro h x hx
      exact (hm x).mp (h x hx)
    · intro h x hx
      exact (hm x).mpr (h x hx)

/-- Witness of C16 as amended: the query "sword" returns the first subtype, the query
"halberd" returns null. -/
theorem C16_first_match_in_list_order_amended_witness :
    (∃ l1 l2, instance_with_weapons.m_weapon_subtypes =
        l1 ++ { address := 1, name_plural := "long swords", group_name := "sword" } :: l2 ∧
      l1 = []) ∧
    find_weapon_subtype instance_with_weapons "halberd" = none := by
  constructor
  · obtain ⟨l1, l2, h1, _, h3⟩ :=
      (C16_first_match_in_list_order_amended instance_with_weapons "sword").1
        { address := 1, name_plural := "long swords", group_name := "sword" } (by decide)
    refine ⟨l1, l2, h1, ?_⟩
    cases l1 with
    | nil => rfl
    | cons a rest =>
      exfalso
      have ha : a = { address := 1, name_plural := "long swords", group_name := "sword" } := by
        have := congrArg List.head? h1
        simpa [instance_with_weapons] using this.symm
      have := (h3 a (List.mem_cons_self _ _)).2.1
      rw [ha] at this
      exact absurd this (by decide)
  · exact (C16_first_match_in_list_order_amended instance_with_weapons "halberd").2.mpr
      (by decide)

/-! ## Material names -/

theorem find_material_creature_band (df : DFInstance) (mat_index mat_type : Int)
    (h0 : 0 ≤ mat_index) (h1 : 19 ≤ mat_type) (h2 : mat_type < 219) :
    find_material df mat_index mat_type =
      some ((get_race df mat_index).bind (fun r => r.get_creature_material (mat_type - 19)),
            df) := by
  have a0 : ¬ mat_index < 0 := not_lt.mpr h0
  have a1 : ¬ mat_type = 0 := by omega
  have a2 : ¬ mat_type < 19 := by omega
  unfold find_material
  rw [if_neg a0, if_neg a1, if_neg a2, if_pos h2]
  cases get_race df mat_index <;> rfl

theorem find_material_plant_band (df : DFInstance) (mat_index mat_type : Int)
    (h0 : 0 ≤ mat_index) (h1 : 419 ≤ mat_type) (h2 : mat_type < 619) :
    find_material df mat_index mat_type =
      some ((get_plant df mat_index).bind (fun p =>
              if mat_type - 419 < p.material_count then p.get_plant_material (mat_type - 419)
              else none),
            df) := by
  have a0 : ¬ mat_index < 0 := not_lt.mpr h0
  have a1 : ¬ mat_type = 0 := by omega
  have a2 : ¬ mat_type < 19 := by omega
  have a3 : ¬ mat_type < 219 := by omega
  have a4 : ¬ mat_type < 419 := by omega
  unfold find_material
  rw [if_neg a0, if_neg a1, if_neg a2, if_neg a3, if_neg a4, if_pos h2]
  cases hp : get_plant df mat_index with
  | none => rfl
  | some p =>
    by_cases hc : mat_type - 419 < p.material_count <;> simp [hc]

theorem plant_material_name_eq (E : Enumerators) (hE : none_is_no_override E) (p : Plant)
    (m : Material) (itype mat_state : Int) :
    plant_material_name E p m itype mat_state = plant_name_by_precedence E p m itype mat_state := by
  obtain ⟨h1, h2, h3, h4, h5, h6⟩ := hE
  have hfb : plant_flag_fallback E p m =
      (if m.has_flag E.LEAF_MAT = true ∧ m.has_flag E.EDIBLE_RAW = true then
        p.name ++ " " ++ m.state_name E.GENERIC
      else if m.has_flag E.IS_WOOD = true ∧ p.has_flag E.P_TREE = true then
        p.name ++ " " ++ m.state_name E.GENERIC
      else if m.has_flag E.SEED_MAT = true then p.seed_plural
      else if m.has_flag E.ALCOHOL = true ∨ m.has_flag E.ALCOHOL_PLANT = true ∨
          m.has_flag E.LIQUID_MISC = true ∨ m.has_flag E.LIQUID_MISC_PLANT = true then
        m.state_name E.LIQUID
      else if m.has_flag E.POWDER_MISC_PLANT = true ∨ m.has_flag E.POWDER_MISC = true then
        m.state_name E.POWDER
      else m.state_name E.SOLID ++ " " ++ m.state_name E.GENERIC) := by
    unfold plant_flag_fallback
    simp only [Bool.and_eq_true, Bool.or_eq_true, or_assoc]
  unfold plant_material_name plant_name_by_precedence
  rw [hfb]
  by_cases hn : itype = E.NONE
  · have a1 : ¬ (itype = E.DRINK ∨ itype = E.LIQUID_MISC) := by
      rw [hn]; exact fun h => h.elim h1 h2
    have a2 : ¬ (itype = E.POWDER_MISC ∨ itype = E.CHEESE) := by
      rw [hn]; exact fun h => h.elim h3 h4
    have a3 : ¬ (E.is_armor_type itype = true) := by
      rw [hn, h6]; exact Bool.false_ne_true
    have a4 : ¬ itype = E.LEAVES_FRUIT := by
      rw [hn]; exact h5
    simp only [hn, ne_eq, not_true_eq_false, if_false]
    rw [hn] at a1 a2 a3 a4
    simp only [a1, a2, a3, a4, h6, if_false, Bool.false_eq_true]
  · simp only [ne_eq, hn, not_false_eq_true, if_true]

/-- C13: for a plant-band request (`mat_index >= 0`, `419 <= mat_type < 619`) that resolves
to the plant `p` and its material `m`, `find_material_name` returns the lowercased, trimmed
name chosen by this precedence: SEEDS, the plural seed name; PLANT, the plural plant name;
otherwise a state other than SOLID, the material's name for that state; otherwise DRINK or
LIQUID_MISC, the liquid name; POWDER_MISC or CHEESE, the powder name; an armor item type, the
solid name; LEAVES_FRUIT, the plant name, a space and the generic name; and, the name being
still empty after the steps past SEEDS and PLANT, the flag fallback in its order. -/
theorem C13_plant_material_name_precedence (df : DFInstance) (mat_index mat_type : Int)
    (itype mat_state : Int) (p : Plant) (m : Material)
    (hE : none_is_no_override df.host.enums)
    (hband : 0 ≤ mat_index ∧ 419 ≤ mat_type ∧ mat_type < 619)
    (hp : get_plant df mat_index = some p)
    (hcount : mat_type - 419 < p.material_count)
    (hm : p.get_plant_material (mat_type - 419) = some m) :
    ∃ df1, find_material_name df mat_index mat_type itype mat_state =
      some (df.host.trimmed (df.host.toLower
              (plant_name_by_precedence df.host.enums p m itype mat_state)), df1) := by
  obtain ⟨h0, h1, h2⟩ := hband
  have hfm : find_material df mat_index mat_type = some (some m, df) := by
    rw [find_material_plant_band df mat_index mat_type h0 h1 h2, hp]
    simp [hcount, hm]
  have a0 : ¬ (mat_index < 0 ∨ mat_type < 19) := by omega
  have a1 : ¬ mat_type < 219 := by omega
  have a2 : ¬ mat_type < 419 := by omega
  unfold find_material_name
  simp only [hfm, a0, a1, a2, h2, if_false, if_true, hp, plant_material_name_eq _ hE]
  exact ⟨_, rfl⟩

/-- Witness of C13: seeds, raw plant, drink, and the flag fallback for an item type without
override and for an armor whose solid name is empty. -/
theorem C13_plant_material_name_precedence_witness :
    (find_material_name instance_with_named_catalogs 0 419 52 0).map Prod.fst
      = some "plump helmet spawn" ∧
    (find_material_name instance_with_named_catalogs 0 419 53 0).map Prod.fst
      = some "plump helmets" ∧
    (find_material_name instance_with_named_catalogs 0 420 68 0).map Prod.fst
      = some "dwarven wine" ∧
    (find_material_name instance_with_named_catalogs 0 419 (-1) 0).map Prod.fst
      = some "dwarven wine" ∧
    (find_material_name instance_with_named_catalogs 0 419 25 0).map Prod.fst
      = some "dwarven wine" := by
  have hE : none_is_no_override instance_with_named_catalogs.host.enums := by
    unfold none_is_no_override
    decide
  refine ⟨?_, ?_, ?_, ?_, ?_⟩
  · obtain ⟨df1, h⟩ := C13_plant_material_name_precedence instance_with_named_catalogs 0 419
      52 0 plump_helmet helmet_alcohol hE (by decide) rfl (by decide) rfl
    rw [h, Option.map_some']
    exact congrArg some (by decide : plain_host.trimmed (plain_host.toLower
      (plant_name_by_precedence sample_enums plump_helmet helmet_alcohol 52 0))
        = "plump helmet spawn")
  · obtain ⟨df1, h⟩ := C13_plant_material_name_precedence instance_with_named_catalogs 0 419
      53 0 plump_helmet helmet_alcohol hE (by decide) rfl (by decide) rfl
    rw [h, Option.map_some']
    exact congrArg some (by decide : plain_host.trimmed (plain_host.toLower
      (plant_name_by_precedence sample_enums plump_helmet helmet_alcohol 53 0))
        = "plump helmets")
  · obtain ⟨df1, h⟩ := C13_plant_material_name_precedence instance_with_named_catalogs 0 420
      68 0 plump_helmet helmet_alcohol hE (by decide) rfl (by decide) rfl
    rw [h, Option.map_some']
    exact congrArg some (by decide : plain_host.trimmed (plain_host.toLower
      (plant_name_by_precedence sample_enums plump_helmet helmet_alcohol 68 0))
        = "dwarven wine")
  · obtain ⟨df1, h⟩ := C13_plant_material_name_precedence instance_with_named_catalogs 0 419
      (-1) 0 plump_helmet helmet_alcohol hE (by decide) rfl (by decide) rfl
    rw [h, Option.map_some']
    exact congrArg some (by decide : plain_host.trimmed (plain_host.toLower
      (plant_name_by_precedence sample_enums plump_helmet helmet_alcohol (-1) 0))
        = "dwarven wine")
  · obtain ⟨df1, h⟩ := C13_plant_material_name_precedence instance_with_named_catalogs 0 419
      25 0 plump_helmet helmet_alcohol hE (by decide) rfl (by decide) rfl
    rw [h, Option.map_some']
    exact congrArg some (by decide : plain_host.trimmed (plain_host.toLower
      (plant_name_by_precedence sample_enums plump_helmet helmet_alcohol 25 0))
        = "dwarven wine")

/-- C14, counterexample: in the creature band, for the item type DRINK (68) the name is the
material's liquid name "blood", with no race name in front; the claimed name would be
"dwarf leather". -/
theorem C14_drink_has_no_race_name_counterexample :
    get_race instance_with_named_catalogs 0 = some dwarf_race ∧
    dwarf_race.get_creature_material (19 - 19) = some dwarf_tissue ∧
    (find_material_name instance_with_named_catalogs 0 19 68 0).map Prod.fst = some "blood" ∧
    plain_host.trimmed (plain_host.toLower
      (plain_host.toLower dwarf_race.name ++ " " ++ dwarf_tissue.state_name 0))
      = "dwarf leather" := by
  refine ⟨rfl, rfl, ?_, ?_⟩
  · decide
  · decide

/-- C14, amended: for a creature-band request (`mat_index >= 0`, `19 <= mat_type < 219`) that
resolves to the material `m` of the race `r` at `mat_index`, `find_material_name` returns,
lowercased and trimmed: for the item types DRINK and LIQUID_MISC the material's liquid name,
for CHEESE the material's name for the requested state, both without the race name; for every
other item type the lowercased name of `r`, a space, and the material's name for the
requested state. -/
theorem C14_creature_material_name_amended (df : DFInstance) (mat_index mat_type : Int)
    (itype mat_state : Int) (r : Race) (m : Material)
    (hband : 0 ≤ mat_index ∧ 19 ≤ mat_type ∧ mat_type < 219)
    (hr : get_race df mat_index = some r)
    (hm : r.get_creature_material (mat_type - 19) = some m) :
    ∃ df1, find_material_name df mat_index mat_type itype mat_state =
      some (df.host.trimmed (df.host.toLower
              (if itype = df.host.enums.DRINK ∨ itype = df.host.enums.LIQUID_MISC then
                m.state_name df.host.enums.LIQUID
              else if itype = df.host.enums.CHEESE then m.state_name mat_state
              else df.host.toLower r.name ++ " " ++ m.state_name mat_state)), df1) := by
  obtain ⟨h0, h1, h2⟩ := hband
  have hfm : find_material df mat_index mat_type = some (some m, df) := by
    rw [find_material_creature_band df mat_index mat_type h0 h1 h2, hr]
    simp [hm]
  have a0 : ¬ (mat_index < 0 ∨ mat_type < 19) := by omega
  unfold find_material_name
  simp only [hfm, a0, h2, if_false, if_true, hr]
  by_cases hd : itype = df.host.enums.DRINK ∨ itype = df.host.enums.LIQUID_MISC
  · rw [if_pos hd, if_pos hd]
    exact ⟨_, rfl⟩
  · rw [if_neg hd, if_neg hd]
    by_cases hc : itype = df.host.enums.CHEESE
    · rw [if_pos hc, if_pos hc]
      exact ⟨_, rfl⟩
    · rw [if_neg hc, if_neg hc]
      exact ⟨_, rfl⟩

/-- Witness of C14 as amended: a weapon (24) of dwarf leather, and dwarf blood as a drink. -/
theorem C14_creature_material_name_amended_witness :
    (find_material_name instance_with_named_catalogs 0 19 24 0).map Prod.fst
      = some "dwarf leather" ∧
    (find_material_name instance_with_named_catalogs 0 218 68 0).map Prod.fst
      = some "blood" := by
  constructor
  · obtain ⟨df1, h⟩ := C14_creature_material_name_amended instance_with_named_catalogs 0 19
      24 0 dwarf_race dwarf_tissue (by decide) rfl rfl
    rw [h, Option.map_some']
    exact congrArg some (by decide : plain_host.trimmed (plain_host.toLower
      (plain_host.toLower dwarf_race.name ++ " " ++ dwarf_tissue.state_name 0))
        = "dwarf leather")
  · obtain ⟨df1, h⟩ := C14_creature_material_name_amended instance_with_named_catalogs 0 218
      68 0 dwarf_race dwarf_tissue (by decide) rfl rfl
    rw [h, Option.map_some']
    exact congrArg some (by decide : plain_host.trimmed (plain_host.toLower
      (dwarf_tissue.state_name 1)) = "blood")

/-- C15: whenever `find_material` returns without a material, `find_material_name` returns
the empty string, for every item type and every material state; in particular for
`mat_type >= 619` with `mat_index >= 0`. -/
theorem C15_no_material_no_name (df : DFInstance) (mat_index mat_type : Int)
    (itype mat_state : Int) :
    (∀ df1, find_material df mat_index mat_type = some (none, df1) →
      find_material_name df mat_index mat_type itype mat_state = some ("", df1)) ∧
    (0 ≤ mat_index ∧ 619 ≤ mat_type →
      find_material_name df mat_index mat_type itype mat_state = some ("", df)) := by
  have key : ∀ df1, find_material df mat_index mat_type = some (none, df1) →
      find_material_name df mat_index mat_type itype mat_state = some ("", df1) := by
    intro df1 h
    unfold find_material_name
    simp only [h]
  refine ⟨key, ?_⟩
  rintro ⟨h0, h1⟩
  apply key
  have a0 : ¬ mat_index < 0 := not_lt.mpr h0
  have a1 : ¬ mat_type = 0 := by omega
  have a2 : ¬ mat_type < 19 := by omega
  have a3 : ¬ mat_type < 219 := by omega
  have a4 : ¬ mat_type < 419 := by omega
  have a5 : ¬ mat_type < 619 := by omega
  unfold find_material
  rw [if_neg a0, if_neg a1, if_neg a2, if_neg a3, if_neg a4, if_neg a5]

/-- Witness of C15: type 619, an unknown race (index 5), an unknown plant (index 5) and a
plant sub-index equal to the material count (type 421) all give the empty name. -/
theorem C15_no_material_no_name_witness :
    (find_material_name instance_with_named_catalogs 0 619 24 0).map Prod.fst = some "" ∧
    (find_material_name instance_with_named_catalogs 5 19 24 0).map Prod.fst = some "" ∧
    (find_material_name instance_with_named_catalogs 5 419 24 0).map Prod.fst = some "" ∧
    (find_material_name instance_with_named_catalogs 0 421 52 1).map Prod.fst = some "" := by
  refine ⟨?_, ?_, ?_, ?_⟩
  · rw [(C15_no_material_no_name instance_with_named_catalogs 0 619 24 0).2 (by decide)]
    rfl
  · rw [(C15_no_material_no_name instance_with_named_catalogs 5 19 24 0).1
      instance_with_named_catalogs rfl]
    rfl
  · rw [(C15_no_material_no_name instance_with_named_catalogs 5 419 24 0).1
      instance_with_named_catalogs rfl]
    rfl
  · rw [(C15_no_material_no_name instance_with_named_catalogs 0 421 52 1).1
      instance_with_named_catalogs rfl]
    rfl

/-! ## Attach and detach -/

theorem attach_calls_append (a b : List Event) :
    attach_calls (a ++ b) = attach_calls a + attach_calls b := by
  induction a with
  | nil => simp [attach_calls]
  | cons e es ih =>
    cases e <;> simp [attach_calls, ih]
    omega

theorem detach_calls_append (a b : List Event) :
    detach_calls (a ++ b) = detach_calls a + detach_calls b := by
  induction a with
  | nil => simp [detach_calls]
  | cons e es ih =>
    cases e <;> simp [detach_calls, ih]
    omega

theorem calls_of_passive (es : List Event) (h : es.all Event.is_passive = true) :
    attach_calls es = 0 ∧ detach_calls es = 0 := by
  induction es with
  | nil => exact ⟨rfl, rfl⟩
  | cons e rest ih =>
    rw [List.all_cons, Bool.and_eq_true] at h
    cases e <;> simp_all [attach_calls, detach_calls, Event.is_passive]

theorem extends_quietly_refl (df : DFInstance) : extends_quietly df df :=
  ⟨[], (List.append_nil _).symm, rfl, rfl⟩

theorem extends_quietly_of_trace_eq (a b : DFInstance) (h : b.trace = a.trace) :
    extends_quietly a b :=
  ⟨[], by rw [h, List.append_nil], rfl, rfl⟩

theorem extends_quietly_trans (a b c : DFInstance) (h1 : extends_quietly a b)
    (h2 : extends_quietly b c) : extends_quietly a c := by
  obtain ⟨e1, t1, a1, d1⟩ := h1
  obtain ⟨e2, t2, a2, d2⟩ := h2
  refine ⟨e1 ++ e2, by rw [t2, t1, List.append_assoc], ?_, ?_⟩
  · rw [attach_calls_append, a1, a2]
  · rw [detach_calls_append, d1, d2]

theorem extends_quietly_emit (df : DFInstance) (es : List Event) (ha : attach_calls es = 0)
    (hd : detach_calls es = 0) : extends_quietly df (df.emit es) :=
  ⟨es, rfl, ha, hd⟩

theorem extends_quietly_calls (a b : DFInstance) (h : extends_quietly a b) :
    attach_calls b.trace = attach_calls a.trace ∧ detach_calls b.trace = detach_calls a.trace := by
  obtain ⟨es, t, ha, hd⟩ := h
  rw [t, attach_calls_append, detach_calls_append, ha, hd]
  exact ⟨rfl, rfl⟩

theorem calls_after_attach (df : DFInstance) :
    attach_calls (df.record Event.attach).trace = attach_calls df.trace + 1 ∧
    detach_calls (df.record Event.attach).trace = detach_calls df.trace := by
  show attach_calls (df.trace ++ _) = _ ∧ detach_calls (df.trace ++ _) = _
  rw [attach_calls_append, detach_calls_append]
  exact ⟨rfl, rfl⟩

theorem calls_after_detach (df : DFInstance) :
    attach_calls (df.record Event.detach).trace = attach_calls df.trace ∧
    detach_calls (df.record Event.detach).trace = detach_calls df.trace + 1 := by
  show attach_calls (df.trace ++ _) = _ ∧ detach_calls (df.trace ++ _) = _
  rw [attach_calls_append, detach_calls_append]
  exact ⟨rfl, rfl⟩

theorem extends_quietly_logline (df : DFInstance) (l : LogLevel) (t : String) (a : List Int) :
    extends_quietly df (df.logline l t a) :=
  extends_quietly_emit df _ rfl rfl

theorem extends_quietly_signal (df : DFInstance) (n : String) :
    extends_quietly df (df.record (Event.emit_signal n)) :=
  extends_quietly_emit df _ rfl rfl

theorem extends_quietly_call (df : DFInstance) (n : String) (t : Nat) :
    extends_quietly df (df.record (Event.call n t)) :=
  extends_quietly_emit df _ rfl rfl

theorem extends_quietly_enumerate_vector (df : DFInstance) (addr : Nat) :
    extends_quietly df (enumerate_vector df addr).2 := by
  obtain ⟨es, hp, he⟩ := enum_vec_frame SIZEOF_VIRTADDR le_decode df addr
  unfold enumerate_vector
  rw [he]
  exact extends_quietly_emit df es (calls_of_passive es hp).1 (calls_of_passive es hp).2

theorem extends_quietly_read_int (df : DFInstance) (addr : Nat) :
    extends_quietly df (read_int df addr).2 :=
  extends_quietly_emit df _ rfl rfl

theorem load_reactions_fold_trace (host : Host) (l : List Nat) (df : DFInstance) :
    (l.foldl (load_reactions_step host) df).trace = df.trace := by
  induction l generalizing df with
  | nil => rfl
  | cons a rest ih => rw [List.foldl_cons, ih]; rfl

/-- Calls of `load_reactions`: with a layout selected it returns, having invoked `attach()`
once and `detach()` once. -/
theorem load_reactions_calls (df : DFInstance) (L : MemoryLayout) (hL : df.m_layout = some L) :
    ∃ df1, load_reactions df = some df1 ∧
      attach_calls df1.trace = attach_calls df.trace + 1 ∧
      detach_calls df1.trace = detach_calls df.trace + 1 := by
  unfold load_reactions
  have hL1 : (df.record Event.attach).m_layout = some L := hL
  simp only [hL1]
  refine ⟨_, rfl, ?_⟩
  have hq : extends_quietly (df.record Event.attach)
      (if L.is_valid_address (L.address "reactions_vector" true) = true then
        if (!(enumerate_vector (df.record Event.attach)
              (L.address "reactions_vector" true)).1.isEmpty) = true then
          List.foldl (load_reactions_step df.host)
            (enumerate_vector (df.record Event.attach) (L.address "reactions_vector" true)).2
            (enumerate_vector (df.record Event.attach) (L.address "reactions_vector" true)).1
        else (enumerate_vector (df.record Event.attach) (L.address "reactions_vector" true)).2
      else df.record Event.attach) := by
    split
    · split
      · exact extends_quietly_trans _ _ _ (extends_quietly_enumerate_vector _ _)
          (extends_quietly_of_trace_eq _ _ (load_reactions_fold_trace _ _ _))
      · exact extends_quietly_enumerate_vector _ _
    · exact extends_quietly_refl _
  obtain ⟨q1, q2⟩ := extends_quietly_calls _ _ hq
  obtain ⟨a1, a2⟩ := calls_after_attach df
  obtain ⟨d1, d2⟩ := calls_after_detach
    (if L.is_valid_address (L.address "reactions_vector" true) = true then
        if (!(enumerate_vector (df.record Event.attach)
              (L.address "reactions_vector" true)).1.isEmpty) = true then
          List.foldl (load_reactions_step df.host)
            (enumerate_vector (df.record Event.attach) (L.address "reactions_vector" true)).2
            (enumerate_vector (df.record Event.attach) (L.address "reactions_vector" true)).1
        else (enumerate_vector (df.record Event.attach) (L.address "reactions_vector" true)).2
      else df.record Event.attach)
  rw [d1, d2, q1, q2, a1, a2]
  exact ⟨rfl, rfl⟩

theorem extends_quietly_of_trace (a b c : DFInstance) (h : c.trace = b.trace)
    (hq : extends_quietly a b) : extends_quietly a c := by
  obtain ⟨es, t, ha, hd⟩ := hq
  exact ⟨es, by rw [h, t], ha, hd⟩

theorem enumerate_vector_fortress (df : DFInstance) (addr : Nat) :
    (enumerate_vector df addr).2.m_fortress = df.m_fortress := by
  obtain ⟨es, h⟩ := enum_vec_snd_emit SIZEOF_VIRTADDR le_decode df addr
  unfold enumerate_vector
  rw [h]
  rfl

theorem load_squads_loop_calls (sp : Bool) (L : MemoryLayout) (F : FortressEntity)
    (l : List Nat) (base d0 : DFInstance) (hL : d0.m_layout = some L)
    (hF : d0.m_fortress = some F) (hq : extends_quietly base d0) :
    ∃ d, load_squads_loop sp l d0 = some d ∧ extends_quietly base d := by
  induction l generalizing d0 with
  | nil => exact ⟨d0, rfl, hq⟩
  | cons a rest ih =>
    unfold load_squads_loop
    simp only [hL, hF]
    have hr : extends_quietly base (read_int d0 (addr_off a (L.squad_offset "id"))).2 :=
      extends_quietly_trans _ _ _ hq (extends_quietly_read_int _ _)
    by_cases h1 : F.squad_is_active (read_int d0 (addr_off a (L.squad_offset "id"))).1 = true
    · by_cases h2 : F.squad_is_active
          (d0.host.new_Squad (read_int d0 (addr_off a (L.squad_offset "id"))).1 a).id = true
      · simp only [h1, h2, if_true]
        cases sp
        · exact ih _ hL hF (extends_quietly_of_trace _ _ _ rfl
            (extends_quietly_trans _ _ _ hr (extends_quietly_logline _ _ _ _)))
        · exact ih _ hL hF (extends_quietly_trans _ _ _ (extends_quietly_of_trace _ _ _ rfl
            (extends_quietly_trans _ _ _ hr (extends_quietly_logline _ _ _ _)))
            (extends_quietly_signal _ _))
      · simp only [h1, h2, if_true, if_false]
        cases sp
        · exact ih _ hL hF (extends_quietly_trans _ _ _ hr (extends_quietly_logline _ _ _ _))
        · exact ih _ hL hF (extends_quietly_trans _ _ _
            (extends_quietly_trans _ _ _ hr (extends_quietly_logline _ _ _ _))
            (extends_quietly_signal _ _))
    · simp only [h1, if_false]
      cases sp
      · exact ih _ hL hF hr
      · exact ih _ hL hF (extends_quietly_trans _ _ _ hr (extends_quietly_signal _ _))

theorem detach_after_quiet (r : Option DFInstance) (df : DFInstance) :
    (∃ d, r = some d ∧ extends_quietly (df.record Event.attach) d) →
    ∃ res : List Squad × DFInstance,
      (match r with
        | none => none
        | some df5 => some ((df5.record Event.detach).m_squads, df5.record Event.detach))
        = some res ∧
      attach_calls res.2.trace = attach_calls df.trace + 1 ∧
      detach_calls res.2.trace = detach_calls df.trace + 1 := by
  rintro ⟨d, hd, hq⟩
  subst hd
  refine ⟨_, rfl, ?_⟩
  obtain ⟨q1, q2⟩ := extends_quietly_calls _ _ hq
  obtain ⟨a1, a2⟩ := calls_after_attach df
  obtain ⟨d1, d2⟩ := calls_after_detach d
  show attach_calls (d.record Event.detach).trace = _ ∧ detach_calls (d.record Event.detach).trace = _
  rw [d1, d2, q1, q2, a1, a2]
  exact ⟨rfl, rfl⟩

theorem load_squads_attached_calls (df : DFInstance) (sp : Bool) (L : MemoryLayout)
    (F : FortressEntity) (hL : df.m_layout = some L) (hF : df.m_fortress = some F) :
    ∃ r, load_squads_attached df sp = some r ∧
      attach_calls r.2.trace = attach_calls df.trace + 1 ∧
      detach_calls r.2.trace = detach_calls df.trace + 1 := by
  unfold load_squads_attached
  simp only []
  apply detach_after_quiet
  have hq3 : extends_quietly (df.record Event.attach)
      ((enumerate_vector (df.record Event.attach)
          (df.record Event.attach).m_squad_vector).2.logline LogLevel.LL_INFO "FOUND squads"
        [((enumerate_vector (df.record Event.attach)
          (df.record Event.attach).m_squad_vector).1.length : Int)]) :=
    extends_quietly_trans _ _ _ (extends_quietly_enumerate_vector _ _)
      (extends_quietly_logline _ _ _ _)
  have hL3 : (enumerate_vector (df.record Event.attach)
      (df.record Event.attach).m_squad_vector).2.m_layout = some L := by
    rw [enumerate_vector_layout]; exact hL
  have hF3 : (enumerate_vector (df.record Event.attach)
      (df.record Event.attach).m_squad_vector).2.m_fortress = some F := by
    rw [enumerate_vector_fortress]; exact hF
  by_cases hemp : (!(enumerate_vector (df.record Event.attach)
      (df.record Event.attach).m_squad_vector).1.isEmpty) = true
  · simp only [hemp, if_true]
    cases sp
    · exact load_squads_loop_calls false L F _ _ _ hL3 hF3
        (extends_quietly_of_trace _ _ _ rfl hq3)
    · exact load_squads_loop_calls true L F _ _ _ hL3 hF3
        (extends_quietly_trans _ _ _ (extends_quietly_of_trace _ _ _ rfl hq3)
          (extends_quietly_signal _ _))
  · simp only [hemp, if_false, Bool.false_eq_true]
    exact ⟨_, rfl, extends_quietly_of_trace _ _ _ rfl hq3⟩

theorem calls_of_call_list {α : Type} (n : String) (f : α → Nat) (l : List α) :
    attach_calls (l.map (fun d => Event.call n (f d))) = 0 ∧
    detach_calls (l.map (fun d => Event.call n (f d))) = 0 := by
  induction l with
  | nil => exact ⟨rfl, rfl⟩
  | cons a rest ih => exact ih

theorem load_dwarves_step_trace (acc : List Dwarf × DFInstance) (a : Nat) :
    (load_dwarves_step acc a).2.trace = acc.2.trace ++ [Event.emit_signal "progress_value"] := by
  unfold load_dwarves_step
  cases hv : (acc.2.host.new_Dwarf a).is_valid <;>
    cases ha : (acc.2.host.new_Dwarf a).is_animal <;>
    cases hb : (acc.2.host.new_Dwarf a).is_baby <;>
    cases hc : (acc.2.host.new_Dwarf a).is_child <;>
    cases hl : acc.2.host.labor_cheats_allowed <;>
    simp [hv, ha, hb, hc, hl, DFInstance.record, DFInstance.emit]

theorem extends_quietly_load_dwarves_fold (l : List Nat) (acc : List Dwarf × DFInstance) :
    extends_quietly acc.2 (l.foldl load_dwarves_step acc).2 := by
  induction l generalizing acc with
  | nil => exact extends_quietly_refl _
  | cons a rest ih =>
    rw [List.foldl_cons]
    exact extends_quietly_trans _ _ _
      ⟨[Event.emit_signal "progress_value"], load_dwarves_step_trace acc a, rfl, rfl⟩
      (ih (load_dwarves_step acc a))

theorem extends_quietly_load_dwarves_units (df : DFInstance) (l : List Nat) :
    extends_quietly df (load_dwarves_units df l).2 :=
  extends_quietly_load_dwarves_fold l ([], df)

theorem extends_quietly_load_role_ratings (df : DFInstance) :
    extends_quietly df (load_role_ratings df) := by
  unfold load_role_ratings
  split
  · exact extends_quietly_refl df
  · refine ⟨[Event.call "DwarfStats::init_traits" 0, Event.call "DwarfStats::init_skills" 0,
        Event.call "DwarfStats::init_attributes" 0, Event.call "DwarfStats::init_prefs" 0] ++
      (df.m_labor_capable_dwarves.map (fun d => Event.call "Dwarf::calc_role_ratings" d.address) ++
      ([Event.call "DwarfStats::init_roles" 0] ++
      df.m_labor_capable_dwarves.map
        (fun d => Event.call "Dwarf::refresh_role_display_ratings" d.address))), ?_, ?_, ?_⟩
    · simp [DFInstance.emit, DFInstance.record, List.append_assoc]
    · rw [attach_calls_append, attach_calls_append, attach_calls_append,
        (calls_of_call_list _ _ _).1, (calls_of_call_list _ _ _).1]
      rfl
    · rw [detach_calls_append, detach_calls_append, detach_calls_append,
        (calls_of_call_list _ _ _).2, (calls_of_call_list _ _ _).2]
      rfl

theorem extends_quietly_load_population_step (acc : Int × DFInstance) (d : Dwarf) :
    extends_quietly acc.2 (load_population_step acc d).2 := by
  unfold load_population_step
  cases h1 : (!(acc.2.m_labor_capable_dwarves.any (fun x => x.address == d.address))) <;>
    cases h2 : passes_visibility_filter acc.2.host d
  · refine ⟨[], ?_, rfl, rfl⟩
    simp [h1, h2, DFInstance.record, DFInstance.emit]
  · refine ⟨[], ?_, rfl, rfl⟩
    simp [h1, h2, DFInstance.record, DFInstance.emit]
  · refine ⟨[Event.call "Dwarf::calc_attribute_ratings" d.address], ?_, rfl, rfl⟩
    simp [h1, h2, DFInstance.record, DFInstance.emit]
  · refine ⟨[Event.call "Dwarf::calc_attribute_ratings" d.address], ?_, rfl, rfl⟩
    simp [h1, h2, DFInstance.record, DFInstance.emit]

theorem extends_quietly_load_population_fold (l : List Dwarf) (acc : Int × DFInstance) :
    extends_quietly acc.2 (l.foldl load_population_step acc).2 := by
  induction l generalizing acc with
  | nil => exact extends_quietly_refl _
  | cons a rest ih =>
    rw [List.foldl_cons]
    exact extends_quietly_trans _ _ _ (extends_quietly_load_population_step acc a)
      (ih (load_population_step acc a))

theorem extends_quietly_load_population_data (df : DFInstance) :
    extends_quietly df (load_population_data df) :=
  extends_quietly_of_trace _ _ _ rfl
    (extends_quietly_load_population_fold df.m_actual_dwarves (0, df))

theorem extends_quietly_send_connection_interrupted (df : DFInstance) :
    extends_quietly df (send_connection_interrupted df) :=
  ⟨[Event.emit_signal "connection_interrupted"], send_connection_interrupted_trace df, rfl, rfl⟩

theorem extends_quietly_get_creatures (df : DFInstance) (L : MemoryLayout) (rp : Bool)
    (hL : df.m_layout = some L) :
    ∃ r, get_creatures df rp = some r ∧ extends_quietly df r.2 := by
  obtain ⟨entries, es, hp, hg⟩ := get_creatures_frame df L rp hL
  exact ⟨_, hg, es, rfl, (calls_of_passive es hp).1, (calls_of_passive es hp).2⟩

theorem get_creatures_quiet (df : DFInstance) (L : MemoryLayout) (rp : Bool)
    (r : List Nat × DFInstance) (h : get_creatures df rp = some r) (hL : df.m_layout = some L) :
    extends_quietly df r.2 := by
  obtain ⟨r1, h1, hq⟩ := extends_quietly_get_creatures df L rp hL
  rw [h1] at h
  cases h
  exact hq

theorem get_creatures_returns (df : DFInstance) (L : MemoryLayout) (rp : Bool)
    (h : get_creatures df rp = none) (hL : df.m_layout = some L) : False := by
  obtain ⟨r1, h1, _⟩ := extends_quietly_get_creatures df L rp hL
  rw [h1] at h
  cases h

theorem attach_calls_record (df : DFInstance) (e : Event) :
    attach_calls (df.record e).trace = attach_calls df.trace + attach_calls [e] :=
  attach_calls_append _ _

theorem detach_calls_record (df : DFInstance) (e : Event) :
    detach_calls (df.record e).trace = detach_calls df.trace + detach_calls [e] :=
  detach_calls_append _ _

theorem raw_reads_record (df : DFInstance) (e : Event) :
    raw_reads (df.record e).trace = raw_reads df.trace ++ raw_reads [e] :=
  raw_reads_append _ _

/-- Calls of `load_dwarves` on its main path: with a usable status, a layout and a race id
that passes the guard it returns, having invoked `attach()` once and `detach()` once. -/
theorem load_dwarves_calls (df : DFInstance) (L : MemoryLayout) (hL : df.m_layout = some L)
    (hs : ¬ df.m_status.toNat < DFStatus.DFS_LAYOUT_OK.toNat)
    (hr : (!df.host.arena_mode && decide (df.m_dwarf_race_id < 0)) = false) :
    ∃ r, load_dwarves df = some r ∧
      attach_calls r.2.trace = attach_calls df.trace + 1 ∧
      detach_calls r.2.trace = detach_calls df.trace + 1 := by
  have a1 : ∀ (x : DFInstance) l t a, attach_calls (x.logline l t a).trace = attach_calls x.trace :=
    fun x l t a => (extends_quietly_calls _ _ (extends_quietly_logline x l t a)).1
  have d1 : ∀ (x : DFInstance) l t a, detach_calls (x.logline l t a).trace = detach_calls x.trace :=
    fun x l t a => (extends_quietly_calls _ _ (extends_quietly_logline x l t a)).2
  have a2 : ∀ (x : DFInstance) a, attach_calls (read_int x a).2.trace = attach_calls x.trace :=
    fun x a => (extends_quietly_calls _ _ (extends_quietly_read_int x a)).1
  have d2 : ∀ (x : DFInstance) a, detach_calls (read_int x a).2.trace = detach_calls x.trace :=
    fun x a => (extends_quietly_calls _ _ (extends_quietly_read_int x a)).2
  have a3 : ∀ (x : DFInstance) l, attach_calls (load_dwarves_units x l).2.trace
      = attach_calls x.trace :=
    fun x l => (extends_quietly_calls _ _ (extends_quietly_load_dwarves_units x l)).1
  have d3 : ∀ (x : DFInstance) l, detach_calls (load_dwarves_units x l).2.trace
      = detach_calls x.trace :=
    fun x l => (extends_quietly_calls _ _ (extends_quietly_load_dwarves_units x l)).2
  have a4 : ∀ (x : DFInstance), attach_calls (load_role_ratings x).trace = attach_calls x.trace :=
    fun x => (extends_quietly_calls _ _ (extends_quietly_load_role_ratings x)).1
  have d4 : ∀ (x : DFInstance), detach_calls (load_role_ratings x).trace = detach_calls x.trace :=
    fun x => (extends_quietly_calls _ _ (extends_quietly_load_role_ratings x)).2
  have a5 : ∀ (x : DFInstance), attach_calls (load_population_data x).trace
      = attach_calls x.trace :=
    fun x => (extends_quietly_calls _ _ (extends_quietly_load_population_data x)).1
  have d5 : ∀ (x : DFInstance), detach_calls (load_population_data x).trace
      = detach_calls x.trace :=
    fun x => (extends_quietly_calls _ _ (extends_quietly_load_population_data x)).2
  have a6 : ∀ (x : DFInstance), attach_calls (send_connection_interrupted x).trace
      = attach_calls x.trace :=
    fun x => (extends_quietly_calls _ _ (extends_quietly_send_connection_interrupted x)).1
  have d6 : ∀ (x : DFInstance), detach_calls (send_connection_interrupted x).trace
      = detach_calls x.trace :=
    fun x => (extends_quietly_calls _ _ (extends_quietly_send_connection_interrupted x)).2
  have n1 : attach_calls [Event.attach] = 1 := rfl
  have n2 : attach_calls [Event.detach] = 0 := rfl
  have n3 : ∀ n, attach_calls [Event.emit_signal n] = 0 := fun _ => rfl
  have n4 : ∀ n t, attach_calls [Event.call n t] = 0 := fun _ _ => rfl
  have m1 : detach_calls [Event.attach] = 0 := rfl
  have m2 : detach_calls [Event.detach] = 1 := rfl
  have m3 : ∀ n, detach_calls [Event.emit_signal n] = 0 := fun _ => rfl
  have m4 : ∀ n t, detach_calls [Event.call n t] = 0 := fun _ _ => rfl
  unfold load_dwarves
  rw [if_neg hs]
  simp only [hL, hr, Bool.false_eq_true, if_false]
  generalize hri : read_int _ _ = ri
  have l1 : ∀ (x : DFInstance) a, (read_int x a).2.m_layout = x.m_layout := fun _ _ => rfl
  have l2 : ∀ (x : DFInstance) e, (x.record e).m_layout = x.m_layout := fun _ _ => rfl
  have l3 : ∀ (x : DFInstance) l t a, (x.logline l t a).m_layout = x.m_layout :=
    fun _ _ _ _ => rfl
  have hl : ri.2.m_layout = some L := by rw [← hri, l1, l2, l2, l3, hL]
  have ra : attach_calls ri.2.trace = attach_calls df.trace + 1 := by
    rw [← hri]
    simp only [a2, attach_calls_record, a1, n1, n3, Nat.add_zero]
  have rd : detach_calls ri.2.trace = detach_calls df.trace := by
    rw [← hri]
    simp only [d2, detach_calls_record, d1, m1, m3, Nat.add_zero]
  split
  · rename_i heq
    exact (get_creatures_returns _ L true heq hl).elim
  · rename_i ca d heq
    refine ⟨_, rfl, ?_⟩
    obtain ⟨q1, q2⟩ := extends_quietly_calls _ _ (get_creatures_quiet _ L true (ca, d) heq hl)
    simp only [a1, d1, ra, rd] at q1 q2
    cases hc : ca.isEmpty <;>
      simp only [hc, Bool.not_true, Bool.not_false, Bool.false_eq_true, if_false, if_true,
        attach_calls_record, detach_calls_record, a1, d1, a2, d2, a3, d3, a4, d4, a5, d5, a6, d6,
        q1, q2, n1, n2, n3, n4, m1, m2, m3, m4, Nat.add_zero, and_self]

/-- Calls of `load_dwarves` on the bad-status return: no `attach()`, one `detach()`, no read. -/
theorem load_dwarves_bad_status (df : DFInstance)
    (hs : df.m_status.toNat < DFStatus.DFS_LAYOUT_OK.toNat) :
    ∃ r, load_dwarves df = some r ∧ r.1 = [] ∧
      attach_calls r.2.trace = attach_calls df.trace ∧
      detach_calls r.2.trace = detach_calls df.trace + 1 ∧
      raw_reads r.2.trace = raw_reads df.trace := by
  unfold load_dwarves
  rw [if_pos hs]
  refine ⟨_, rfl, rfl, ?_, ?_, ?_⟩
  · rw [attach_calls_record, (extends_quietly_calls _ _ (extends_quietly_logline _ _ _ _)).1]
    rfl
  · rw [detach_calls_record, (extends_quietly_calls _ _ (extends_quietly_logline _ _ _ _)).2]
    rfl
  · show raw_reads (df.trace ++ _ ++ _) = _
    rw [raw_reads_append, raw_reads_append]
    exact (List.append_nil _).trans (List.append_nil _)

/-- The race-id return of `load_dwarves`: nothing is called and the state is unchanged. -/
theorem load_dwarves_no_race (df : DFInstance) (L : MemoryLayout) (hL : df.m_layout = some L)
    (hs : ¬ df.m_status.toNat < DFStatus.DFS_LAYOUT_OK.toNat)
    (hr : (!df.host.arena_mode && decide (df.m_dwarf_race_id < 0)) = true) :
    load_dwarves df = some ([], df) := by
  unfold load_dwarves
  rw [if_neg hs]
  simp only [hL, hr, if_true]

/-- Calls of `load_squads` on the bad-status return: no `attach()`, one `detach()`, no
read. -/
theorem load_squads_bad_status (df : DFInstance) (sp : Bool)
    (hs : df.m_status ≠ DFStatus.DFS_GAME_LOADED) :
    ∃ r, load_squads df sp = some r ∧ r.1 = [] ∧
      attach_calls r.2.trace = attach_calls df.trace ∧
      detach_calls r.2.trace = detach_calls df.trace + 1 ∧
      raw_reads r.2.trace = raw_reads df.trace := by
  unfold load_squads
  have hs1 : (df.logline LogLevel.LL_DEBUG "loading squads" []).m_status
      ≠ DFStatus.DFS_GAME_LOADED := hs
  simp only [hs1, ne_eq, not_false_eq_true, if_true]
  refine ⟨_, rfl, rfl, ?_, ?_, ?_⟩
  · rw [attach_calls_record, (extends_quietly_calls _ _ (extends_quietly_logline _ _ _ _)).1,
      (extends_quietly_calls _ _ (extends_quietly_logline _ _ _ _)).1]
    rfl
  · rw [detach_calls_record, (extends_quietly_calls _ _ (extends_quietly_logline _ _ _ _)).2,
      (extends_quietly_calls _ _ (extends_quietly_logline _ _ _ _)).2]
    rfl
  · show raw_reads (df.trace ++ _ ++ _ ++ _) = _
    rw [raw_reads_append, raw_reads_append, raw_reads_append]
    exact (List.append_nil _).trans ((List.append_nil _).trans (List.append_nil _))

/-- The unsupported-version return of `load_squads`, taken with `show_progress` only: neither
`attach()` nor `detach()` is called and nothing is read. -/
theorem load_squads_unsupported (df : DFInstance) (L : MemoryLayout)
    (hL : df.m_layout = some L) (hs : df.m_status = DFStatus.DFS_GAME_LOADED)
    (hv : L.address "squad_vector" true = 0xFFFFFFFF) :
    ∃ r, load_squads df true = some r ∧ r.1 = [] ∧
      attach_calls r.2.trace = attach_calls df.trace ∧
      detach_calls r.2.trace = detach_calls df.trace ∧
      raw_reads r.2.trace = raw_reads df.trace := by
  unfold load_squads
  have hs1 : (df.logline LogLevel.LL_DEBUG "loading squads" []).m_status
      = DFStatus.DFS_GAME_LOADED := hs
  have hL1 : (df.logline LogLevel.LL_DEBUG "loading squads" []).m_layout = some L := hL
  simp only [hs1, hL1, hv, ne_eq, not_true_eq_false, if_false, if_true]
  refine ⟨_, rfl, rfl, ?_, ?_, ?_⟩
  · show attach_calls (df.trace ++ _ ++ _) = _
    rw [attach_calls_append, attach_calls_append]
    rfl
  · show detach_calls (df.trace ++ _ ++ _) = _
    rw [detach_calls_append, detach_calls_append]
    rfl
  · show raw_reads (df.trace ++ _ ++ _) = _
    rw [raw_reads_append, raw_reads_append]
    exact (List.append_nil _).trans (List.append_nil _)

/-- Calls of `load_squads` on its main path: in the status `DFS_GAME_LOADED`, with a layout
and a fortress, and a supported squad vector when progress is shown, it returns, having
invoked `attach()` once and `detach()` once. -/
theorem load_squads_calls (df : DFInstance) (sp : Bool) (L : MemoryLayout) (F : FortressEntity)
    (hL : df.m_layout = some L) (hF : df.m_fortress = some F)
    (hs : df.m_status = DFStatus.DFS_GAME_LOADED)
    (hv : sp = true → L.address "squad_vector" true ≠ 0xFFFFFFFF) :
    ∃ r, load_squads df sp = some r ∧
      attach_calls r.2.trace = attach_calls df.trace + 1 ∧
      detach_calls r.2.trace = detach_calls df.trace + 1 := by
  unfold load_squads
  have hs1 : (df.logline LogLevel.LL_DEBUG "loading squads" []).m_status
      = DFStatus.DFS_GAME_LOADED := hs
  have hL1 : (df.logline LogLevel.LL_DEBUG "loading squads" []).m_layout = some L := hL
  cases sp with
  | false =>
    simp only [hs1, ne_eq, not_true_eq_false, if_false, Bool.false_eq_true]
    obtain ⟨r, hr, ha, hd⟩ := load_squads_attached_calls
      (df.logline LogLevel.LL_DEBUG "loading squads" []) false L F hL hF
    refine ⟨r, hr, ?_, ?_⟩
    · rw [ha, (extends_quietly_calls _ _ (extends_quietly_logline _ _ _ _)).1]
    · rw [hd, (extends_quietly_calls _ _ (extends_quietly_logline _ _ _ _)).2]
  | true =>
    have hv1 := hv rfl
    simp only [hs1, hL1, hv1, ne_eq, not_true_eq_false, if_false, if_true]
    have key : ∀ X : DFInstance, X.m_layout = some L → X.m_fortress = some F →
        attach_calls X.trace = attach_calls df.trace →
        detach_calls X.trace = detach_calls df.trace →
        ∃ r, load_squads_attached X true = some r ∧
          attach_calls r.2.trace = attach_calls df.trace + 1 ∧
          detach_calls r.2.trace = detach_calls df.trace + 1 := by
      intro X h1 h2 h3 h4
      obtain ⟨r, hr, ha, hd⟩ := load_squads_attached_calls X true L F h1 h2
      exact ⟨r, hr, by rw [ha, h3], by rw [hd, h4]⟩
    have l2 : ∀ (x : DFInstance) e, (x.record e).m_layout = x.m_layout := fun _ _ => rfl
    have l3 : ∀ (x : DFInstance) l t a, (x.logline l t a).m_layout = x.m_layout :=
      fun _ _ _ _ => rfl
    have f2 : ∀ (x : DFInstance) e, (x.record e).m_fortress = x.m_fortress := fun _ _ => rfl
    have f3 : ∀ (x : DFInstance) l t a, (x.logline l t a).m_fortress = x.m_fortress :=
      fun _ _ _ _ => rfl
    have a1 : ∀ (x : DFInstance) l t a,
        attach_calls (x.logline l t a).trace = attach_calls x.trace :=
      fun x l t a => (extends_quietly_calls _ _ (extends_quietly_logline x l t a)).1
    have d1 : ∀ (x : DFInstance) l t a,
        detach_calls (x.logline l t a).trace = detach_calls x.trace :=
      fun x l t a => (extends_quietly_calls _ _ (extends_quietly_logline x l t a)).2
    have a3 : ∀ (x : DFInstance) n,
        attach_calls (x.record (Event.emit_signal n)).trace = attach_calls x.trace :=
      fun x n => (extends_quietly_calls _ _ (extends_quietly_signal x n)).1
    have d3 : ∀ (x : DFInstance) n,
        detach_calls (x.record (Event.emit_signal n)).trace = detach_calls x.trace :=
      fun x n => (extends_quietly_calls _ _ (extends_quietly_signal x n)).2
    apply key
    · simp only [l2, l3, hL]
    · simp only [f2, f3, hF]
    · simp only [a1, a3]
    · simp only [d1, d3]

/-- C18, counterexample: on the bad-status return `load_dwarves` (status below
`DFS_LAYOUT_OK`) and `load_squads` (status other than `DFS_GAME_LOADED`) invoke `detach()`
once and `attach()` not at all, so the two are not invoked the same number of times; no
target memory is read on these paths. -/
theorem C18_bad_status_detach_without_attach_counterexample :
    (load_dwarves (instance_with_squads DFStatus.DFS_DISCONNECTED)).map
      (fun r => (attach_detach_calls r.2, raw_reads r.2.trace)) = some ((0, 1), []) ∧
    (load_squads (instance_with_squads DFStatus.DFS_LAYOUT_OK) true).map
      (fun r => (attach_detach_calls r.2, raw_reads r.2.trace)) = some ((0, 1), []) := by
  decide

/-- C18, amended: `load_reactions`, and the main paths of `load_dwarves` and `load_squads`,
invoke `attach()` exactly once and `detach()` exactly once; the race-id return of
`load_dwarves` and the unsupported-squad-vector return of `load_squads` (taken with
`show_progress` only) invoke neither and read nothing; the bad-status returns of
`load_dwarves` (status below `DFS_LAYOUT_OK`) and of `load_squads` (status other than
`DFS_GAME_LOADED`) read nothing and invoke `detach()` once with no `attach()`. -/
theorem C18_attach_detach_pairing_amended (df : DFInstance) (show_progress : Bool) :
    (df.m_status.toNat < DFStatus.DFS_LAYOUT_OK.toNat →
      ∃ r, load_dwarves df = some r ∧
        attach_calls r.2.trace = attach_calls df.trace ∧
        detach_calls r.2.trace = detach_calls df.trace + 1 ∧
        raw_reads r.2.trace = raw_reads df.trace) ∧
    (df.m_status ≠ DFStatus.DFS_GAME_LOADED →
      ∃ r, load_squads df show_progress = some r ∧
        attach_calls r.2.trace = attach_calls df.trace ∧
        detach_calls r.2.trace = detach_calls df.trace + 1 ∧
        raw_reads r.2.trace = raw_reads df.trace) ∧
    (∀ L, df.m_layout = some L →
      (∃ d, load_reactions df = some d ∧
        attach_calls d.trace = attach_calls df.trace + 1 ∧
        detach_calls d.trace = detach_calls df.trace + 1) ∧
      (¬ df.m_status.toNat < DFStatus.DFS_LAYOUT_OK.toNat →
        (!df.host.arena_mode && decide (df.m_dwarf_race_id < 0)) = true →
        load_dwarves df = some ([], df)) ∧
      (¬ df.m_status.toNat < DFStatus.DFS_LAYOUT_OK.toNat →
        (!df.host.arena_mode && decide (df.m_dwarf_race_id < 0)) = false →
        ∃ r, load_dwarves df = some r ∧
          attach_calls r.2.trace = attach_calls df.trace + 1 ∧
          detach_calls r.2.trace = detach_calls df.trace + 1) ∧
      (df.m_status = DFStatus.DFS_GAME_LOADED → show_progress = true →
        L.address "squad_vector" true = 0xFFFFFFFF →
        ∃ r, load_squads df show_progress = some r ∧
          attach_calls r.2.trace = attach_calls df.trace ∧
          detach_calls r.2.trace = detach_calls df.trace ∧
          raw_reads r.2.trace = raw_reads df.trace) ∧
      (∀ F, df.m_fortress = some F → df.m_status = DFStatus.DFS_GAME_LOADED →
        (show_progress = true → L.address "squad_vector" true ≠ 0xFFFFFFFF) →
        ∃ r, load_squads df show_progress = some r ∧
          attach_calls r.2.trace = attach_calls df.trace + 1 ∧
          detach_calls r.2.trace = detach_calls df.trace + 1)) := by
  refine ⟨?_, ?_, ?_⟩
  · intro hs
    obtain ⟨r, hr, _, h⟩ := load_dwarves_bad_status df hs
    exact ⟨r, hr, h⟩
  · intro hs
    obtain ⟨r, hr, _, h⟩ := load_squads_bad_status df show_progress hs
    exact ⟨r, hr, h⟩
  · intro L hL
    refine ⟨load_reactions_calls df L hL, ?_, ?_, ?_, ?_⟩
    · intro hs hr
      exact load_dwarves_no_race df L hL hs hr
    · intro hs hr
      exact load_dwarves_calls df L hL hs hr
    · intro hs hp hv
      subst hp
      obtain ⟨r, hr, _, h⟩ := load_squads_unsupported df L hL hs hv
      exact ⟨r, hr, h⟩
    · intro F hF hs hv
      exact load_squads_calls df show_progress L F hL hF hs hv

/-- Witness of C18: in the status `DFS_GAME_LOADED`, with one unit, one squad and one
reaction in target memory, each of the three loaders invokes `attach()` once and `detach()`
once; in the status `DFS_DISCONNECTED` the unit loader invokes `detach()` alone. -/
theorem C18_attach_detach_pairing_amended_witness :
    (load_reactions (instance_with_squads DFStatus.DFS_GAME_LOADED)).map attach_detach_calls
      = some (1, 1) ∧
    (load_dwarves (instance_with_squads DFStatus.DFS_GAME_LOADED)).map
      (fun r => attach_detach_calls r.2) = some (1, 1) ∧
    (load_squads (instance_with_squads DFStatus.DFS_GAME_LOADED) true).map
      (fun r => attach_detach_calls r.2) = some (1, 1) ∧
    (load_dwarves (instance_with_squads DFStatus.DFS_DISCONNECTED)).map
      (fun r => attach_detach_calls r.2) = some (0, 1) := by
  obtain ⟨_, _, h⟩ := C18_attach_detach_pairing_amended
    (instance_with_squads DFStatus.DFS_GAME_LOADED) true
  obtain ⟨⟨d, hd, ha, hdd⟩, _, h3, _, h5⟩ := h squad_layout rfl
  obtain ⟨r3, hr3, ha3, hd3⟩ := h3 (by decide) (by decide)
  obtain ⟨r5, hr5, ha5, hd5⟩ := h5 sample_fortress rfl rfl (fun _ => by decide)
  obtain ⟨hbad, _, _⟩ := C18_attach_detach_pairing_amended
    (instance_with_squads DFStatus.DFS_DISCONNECTED) true
  obtain ⟨r1, hr1, ha1, hd1, _⟩ := hbad (by decide)
  refine ⟨?_, ?_, ?_, ?_⟩
  · rw [hd, Option.map_some']
    exact congrArg some (Prod.ext ha hdd)
  · rw [hr3, Option.map_some']
    exact congrArg some (Prod.ext ha3 hd3)
  · rw [hr5, Option.map_some']
    exact congrArg some (Prod.ext ha5 hd5)
  · rw [hr1, Option.map_some']
    exact congrArg some (Prod.ext ha1 hd1)

/-! ## Capacity of the bulk read -/

/-- C25: a descriptor of 6 bytes passes the plausibility guard; `enum_vec<VIRTADDR>` sizes its
output to one element (4 bytes) and asks `read_raw` for 6 bytes into it.  Likewise a
descriptor of 3 bytes for `enum_vec<qint16>`: one element (2 bytes), 3 bytes requested. -/
theorem C25_partial_element_overflows_output :
    (descriptor_bytes (instance_with_vector 6) 16 = 6 ∧
      (check_vector (instance_with_vector 6) 4096 4102 16).1 = true ∧
      (enumerate_vector (instance_with_vector 6) 16).1.length = 1 ∧
      overflowing_reads (enumerate_vector (instance_with_vector 6) 16).2.trace
        = [(4096, 6, 4)]) ∧
    (descriptor_bytes (instance_with_vector 3) 16 = 3 ∧
      (check_vector (instance_with_vector 3) 4096 4099 16).1 = true ∧
      (enumerate_vector_short (instance_with_vector 3) 16).1.length = 1 ∧
      overflowing_reads (enumerate_vector_short (instance_with_vector 3) 16).2.trace
        = [(4096, 3, 2)]) := by
  decide

/-! ## Letter case of the checksum -/

/-- C26: the registry holds a valid and complete layout under "abc".  The call
`set_memory_layout("ABC")` stores "abc" but looks "ABC" up: no layout is selected and the
status stays `DFS_CONNECTED`, below `DFS_LAYOUT_OK`.  The subsequent call `set_memory_layout("")` looks the stored
"abc" up and selects the layout. -/
theorem C26_uppercase_checksum_selects_nothing :
    plain_host.toLower "ABC" = "abc" ∧
    (assoc_value (instance_with_registry DFStatus.DFS_CONNECTED).m_memory_layouts "abc").map
      (fun l => (l.checksum, l.is_valid, l.is_complete)) = some ("abc", true, true) ∧
    (set_memory_layout (instance_with_registry DFStatus.DFS_CONNECTED) "ABC").map
      (fun d => (selection d, d.m_status)) = some ((none, "abc"), DFStatus.DFS_CONNECTED) ∧
    ((set_memory_layout (instance_with_registry DFStatus.DFS_CONNECTED) "ABC").bind
      (fun d => set_memory_layout d "")).map selection = some (some "abc", "abc") ∧
    (set_memory_layout (instance_with_registry DFStatus.DFS_CONNECTED) "abc").map selection
      = some (some "abc", "abc") := by
  decide

/-! ## Occupations and activities -/

/-- C22: a first `load_occupations` indexes the occupation at 20480 under the id 5.  The
game moves on: the occupations vector now holds the occupation at 24576 with the id 6 alone.
After the second `load_occupations` the index still maps the id 5 to 20480, and
`find_occupation(5)` returns 20480, not 0. -/
theorem C22_stale_occupation_survives_reload :
    (load_occupations (instance_with_occupation 20480 5)).map
      (fun d => (d.m_occupations, find_occupation d 5)) = some ([(5, 20480)], 20480) ∧
    ((load_occupations (instance_with_occupation 20480 5)).bind
      (fun d => load_occupations { d with mem := (instance_with_occupation 24576 6).mem })).map
      (fun d => ((enumerate_vector d 80).1, d.m_occupations, find_occupation d 6,
        find_occupation d 5))
      = some ([24576], [(6, 24576), (5, 20480)], 24576, 20480) := by
  decide

/-- C23, counterexample: `load_activities` builds the activities at 28672, 24576 and 20480,
in this order, and inserts the last two; the most recently inserted activity, at 20480,
knows the figure 7 as job 10, yet `find_activity(7)` returns the job 20 of the activity at
24576, which was inserted first. -/
theorem C23_scan_starts_at_first_inserted_counterexample :
    (load_activities instance_with_activities).map
      (fun d => (built_activities d.trace,
        (inserted_activities d.host d.trace).map Activity.address,
        find_activity_scan d.host.JOB_UNKNOWN 7 (inserted_activities d.host d.trace).reverse,
        find_activity d 7))
      = some ([28672, 24576, 20480], [24576, 20480], (10, "train"), (20, "pray")) := by
  decide

theorem mem_qmap_insert {ν : Type} (l : List (Int × ν)) (k : Int) (v : ν) (e : Int × ν)
    (h : e ∈ qmap_insert l k v) : e = (k, v) ∨ e ∈ l := by
  induction l with
  | nil =>
    simp only [qmap_insert, List.mem_singleton] at h
    exact Or.inl h
  | cons x rest ih =>
    obtain ⟨k1, w⟩ := x
    unfold qmap_insert at h
    by_cases h1 : k < k1
    · rw [if_pos h1] at h
      rcases List.mem_cons.mp h with h | h
      · exact Or.inl h
      · exact Or.inr h
    · rw [if_neg h1] at h
      by_cases h2 : k = k1
      · rw [if_pos h2] at h
        rcases List.mem_cons.mp h with h | h
        · exact Or.inl h
        · exact Or.inr (List.mem_cons_of_mem _ h)
      · rw [if_neg h2] at h
        rcases List.mem_cons.mp h with h | h
        · exact Or.inr (h ▸ List.mem_cons_self _ _)
        · rcases ih h with h | h
          · exact Or.inl h
          · exact Or.inr (List.mem_cons_of_mem _ h)

theorem qmap_insert_sorted {ν : Type} (l : List (Int × ν)) (k : Int) (v : ν)
    (h : l.Pairwise (fun a b => a.1 < b.1)) :
    (qmap_insert l k v).Pairwise (fun a b => a.1 < b.1) := by
  induction l with
  | nil => simp [qmap_insert]
  | cons x rest ih =>
    obtain ⟨k1, w⟩ := x
    obtain ⟨hx, hrest⟩ := List.pairwise_cons.mp h
    unfold qmap_insert
    by_cases h1 : k < k1
    · rw [if_pos h1]
      refine List.pairwise_cons.mpr ⟨?_, h⟩
      intro e he
      rcases List.mem_cons.mp he with he | he
      · rw [he]; exact h1
      · exact lt_trans h1 (hx e he)
    · rw [if_neg h1]
      by_cases h2 : k = k1
      · rw [if_pos h2]
        refine List.pairwise_cons.mpr ⟨?_, hrest⟩
        intro e he
        rw [h2]
        exact hx e he
      · rw [if_neg h2]
        refine List.pairwise_cons.mpr ⟨?_, ih hrest⟩
        intro e he
        rcases mem_qmap_insert rest k v e he with he | he
        · rw [he]
          exact lt_of_le_of_ne (not_lt.mp h1) (fun hc => h2 hc.symm)
        · exact hx e he

theorem qmap_insert_front {ν : Type} (l : List (Int × ν)) (k : Int) (v : ν)
    (h : ∀ e ∈ l, k < e.1) : qmap_insert l k v = (k, v) :: l := by
  cases l with
  | nil => rfl
  | cons x rest =>
    obtain ⟨k1, w⟩ := x
    unfold qmap_insert
    rw [if_pos (h (k1, w) (List.mem_cons_self _ _))]

theorem built_activities_append (a b : List Event) :
    built_activities (a ++ b) = built_activities a ++ built_activities b := by
  induction a with
  | nil => rfl
  | cons e es ih =>
    cases e with
    | call n t =>
      by_cases hn : n = "Activity::Activity"
      · simp [built_activities, hn, ih]
      · simp [built_activities, hn, ih]
    | _ => simp [built_activities, ih]

theorem built_activities_of_passive (es : List Event) (h : es.all Event.is_passive = true) :
    built_activities es = [] := by
  induction es with
  | nil => rfl
  | cons e rest ih =>
    rw [List.all_cons, Bool.and_eq_true] at h
    cases e <;> simp_all [built_activities, Event.is_passive]

theorem built_activities_calls (l : List (Int × Nat)) :
    built_activities (l.map (fun x => Event.call "Activity::Activity" x.2)) = l.map Prod.snd := by
  induction l with
  | nil => rfl
  | cons x rest ih => simp [built_activities, ih]

theorem sort_activity_fold_frame (l : List Nat) (acc : List (Int × Nat) × DFInstance) :
    ∃ es, es.all Event.is_passive = true ∧ (l.foldl sort_activity acc).2 = acc.2.emit es := by
  induction l generalizing acc with
  | nil => exact ⟨[], rfl, (emit_nil _).symm⟩
  | cons a rest ih =>
    obtain ⟨es, hp, he⟩ := ih (sort_activity acc a)
    refine ⟨[Event.read_raw a 4 4] ++ es, ?_, ?_⟩
    · rw [List.all_append, hp]
      rfl
    · rw [List.foldl_cons, he, ← emit_emit]
      rfl

theorem sort_activity_fold_sorted (l : List Nat) (acc : List (Int × Nat) × DFInstance)
    (h : acc.1.Pairwise (fun a b => a.1 < b.1)) :
    (l.foldl sort_activity acc).1.Pairwise (fun a b => a.1 < b.1) :=
  foldl_preserves sort_activity (fun acc => acc.1.Pairwise (fun a b => a.1 < b.1))
    (fun _ _ hb => qmap_insert_sorted _ _ _ hb) l acc h

theorem kept_activities_snd (host : Host) (l : List (Int × Nat)) :
    (kept_activities host l).map Prod.snd =
      ((l.map Prod.snd).map host.new_Activity).filter (fun a => decide (a.activity_count > 0)) := by
  induction l with
  | nil => rfl
  | cons x rest ih =>
    unfold kept_activities at ih ⊢
    by_cases hc : (host.new_Activity x.2).activity_count > 0
    · simp [List.filterMap_cons, hc, ih]
    · simp [List.filterMap_cons, hc, ih]

theorem load_activities_step_frame (df : DFInstance) (x : Int × Nat) :
    (load_activities_step df x).host = df.host ∧
    (load_activities_step df x).trace = df.trace ++ [Event.call "Activity::Activity" x.2] ∧
    (load_activities_step df x).m_activities =
      (if (df.host.new_Activity x.2).activity_count > 0 then
        qmap_insert df.m_activities x.1 (df.host.new_Activity x.2)
      else df.m_activities) := by
  unfold load_activities_step
  by_cases hc : (df.host.new_Activity x.2).activity_count > 0
  · simp only [hc, if_true]
    exact ⟨rfl, rfl, rfl⟩
  · simp only [hc, if_false]
    exact ⟨rfl, rfl, rfl⟩

theorem load_activities_fold (l : List (Int × Nat)) (df0 : DFInstance)
    (hl : l.Pairwise (fun a b => b.1 < a.1))
    (h0 : ∀ e ∈ df0.m_activities, ∀ x ∈ l, x.1 < e.1) :
    (l.foldl load_activities_step df0).host = df0.host ∧
    (l.foldl load_activities_step df0).trace =
      df0.trace ++ l.map (fun x => Event.call "Activity::Activity" x.2) ∧
    (l.foldl load_activities_step df0).m_activities =
      (kept_activities df0.host l).reverse ++ df0.m_activities := by
  induction l generalizing df0 with
  | nil => exact ⟨rfl, (List.append_nil _).symm, rfl⟩
  | cons x rest ih =>
    obtain ⟨hx, hrest⟩ := List.pairwise_cons.mp hl
    obtain ⟨s1, s2, s3⟩ := load_activities_step_frame df0 x
    have hfront : ∀ e ∈ df0.m_activities, x.1 < e.1 :=
      fun e he => h0 e he x (List.mem_cons_self _ _)
    have h1 : ∀ e ∈ (load_activities_step df0 x).m_activities, ∀ y ∈ rest, y.1 < e.1 := by
      intro e he y hy
      rw [s3] at he
      by_cases hc : (df0.host.new_Activity x.2).activity_count > 0
      · rw [if_pos hc, qmap_insert_front _ _ _ hfront] at he
        rcases List.mem_cons.mp he with he | he
        · rw [he]
          exact hx y hy
        · exact h0 e he y (List.mem_cons_of_mem _ hy)
      · rw [if_neg hc] at he
        exact h0 e he y (List.mem_cons_of_mem _ hy)
    obtain ⟨i1, i2, i3⟩ := ih (load_activities_step df0 x) hrest h1
    rw [List.foldl_cons]
    refine ⟨i1.trans s1, ?_, ?_⟩
    · rw [i2, s2, List.map_cons, List.append_assoc]
      rfl
    · rw [i3, s1, s3]
      unfold kept_activities
      by_cases hc : (df0.host.new_Activity x.2).activity_count > 0
      · rw [if_pos hc, qmap_insert_front _ _ _ hfront]
        simp [List.filterMap_cons, hc]
      · rw [if_neg hc]
        simp [List.filterMap_cons, hc]

theorem load_activities_fold_sorted (l : List (Int × Nat)) (df0 : DFInstance)
    (h : df0.m_activities.Pairwise (fun a b => a.1 < b.1)) :
    (l.foldl load_activities_step df0).m_activities.Pairwise (fun a b => a.1 < b.1) := by
  apply foldl_preserves load_activities_step
    (fun d => d.m_activities.Pairwise (fun a b => a.1 < b.1)) _ l df0 h
  intro b x hb
  rw [(load_activities_step_frame b x).2.2]
  by_cases hc : (b.host.new_Activity x.2).activity_count > 0
  · rw [if_pos hc]
    exact qmap_insert_sorted _ _ _ hb
  · rw [if_neg hc]
    exact hb

theorem find_activity_scan_first (JU : Int) (h : Int) (l : List Activity) :
    (∃ l1 a l2, l = l1 ++ a :: l2 ∧ (∀ x ∈ l1, (x.find_activity h).1 = JU) ∧
      (a.find_activity h).1 ≠ JU ∧ find_activity_scan JU h l = a.find_activity h) ∨
    ((∀ x ∈ l, (x.find_activity h).1 = JU) ∧ find_activity_scan JU h l = (JU, "")) := by
  induction l with
  | nil => exact Or.inr ⟨fun x hx => absurd hx (List.not_mem_nil x), rfl⟩
  | cons a rest ih =>
    unfold find_activity_scan
    by_cases hk : (a.find_activity h).1 ≠ JU
    · simp only [hk, ne_eq, not_false_eq_true, if_true]
      exact Or.inl ⟨[], a, rest, rfl, fun x hx => absurd hx (List.not_mem_nil x), hk, rfl⟩
    · have hk1 : (a.find_activity h).1 = JU := not_not.mp hk
      simp only [hk1, ne_eq, not_true_eq_false, if_false]
      rcases ih with ⟨l1, b, l2, e1, e2, e3, e4⟩ | ⟨e1, e2⟩
      · refine Or.inl ⟨a :: l1, b, l2, by rw [e1]; rfl, ?_, e3, e4⟩
        intro x hx
        rcases List.mem_cons.mp hx with hx | hx
        · rw [hx]; exact hk1
        · exact e2 x hx
      · refine Or.inr ⟨?_, e2⟩
        intro x hx
        rcases List.mem_cons.mp hx with hx | hx
        · rw [hx]; exact hk1
        · exact e1 x hx

/-- The state after `load_activities`: with a layout selected it returns; the map is in
ascending key order and read from the back it lists the activities in the order of their
insertion. -/
theorem load_activities_order (df : DFInstance) (L : MemoryLayout) (hL : df.m_layout = some L) :
    ∃ d es, load_activities df = some d ∧ d.host = df.host ∧ d.trace = df.trace ++ es ∧
      d.m_activities.Pairwise (fun a b => a.1 < b.1) ∧
      d.m_activities.reverse.map Prod.snd = inserted_activities df.host es := by
  unfold load_activities
  have hL1 : (DFInstance.logline { df with m_activities := [] } LogLevel.LL_DEBUG
      "loading activities" []).m_layout = some L := hL
  simp only [hL1]
  obtain ⟨es1, hp1, he1⟩ := enum_vec_frame SIZEOF_VIRTADDR le_decode
    (DFInstance.logline { df with m_activities := [] } LogLevel.LL_DEBUG "loading activities" [])
    (L.address "activities_vector" true)
  have he1a : (enumerate_vector (DFInstance.logline { df with m_activities := [] }
      LogLevel.LL_DEBUG "loading activities" []) (L.address "activities_vector" true)).2
      = (DFInstance.logline { df with m_activities := [] } LogLevel.LL_DEBUG
          "loading activities" []).emit es1 := he1
  generalize enumerate_vector (DFInstance.logline { df with m_activities := [] }
      LogLevel.LL_DEBUG "loading activities" []) (L.address "activities_vector" true) = v at he1a ⊢
  obtain ⟨es2, hp2, he2⟩ := sort_activity_fold_frame v.1 ([], v.2)
  have hs := sort_activity_fold_sorted v.1 ([], v.2) List.Pairwise.nil
  generalize List.foldl sort_activity ([], v.2) v.1 = sorted at he2 hs ⊢
  have hdesc : sorted.1.reverse.Pairwise (fun a b => b.1 < a.1) := List.pairwise_reverse.mpr hs
  have hm : sorted.2.m_activities = [] := by rw [he2, he1a]; rfl
  have hh : sorted.2.host = df.host := by rw [he2, he1a]; rfl
  have ht : sorted.2.trace =
      df.trace ++ ([Event.log LogLevel.LL_DEBUG "loading activities" []] ++ es1 ++ es2) := by
    rw [he2, he1a]
    simp [DFInstance.emit, DFInstance.logline, DFInstance.record, List.append_assoc]
  obtain ⟨f1, f2, f3⟩ := load_activities_fold sorted.1.reverse sorted.2 hdesc
    (by rw [hm]; intro e he; exact absurd he (List.not_mem_nil e))
  refine ⟨_, ([Event.log LogLevel.LL_DEBUG "loading activities" []] ++ es1 ++ es2) ++
    sorted.1.reverse.map (fun x => Event.call "Activity::Activity" x.2), rfl, f1.trans hh, ?_,
    ?_, ?_⟩
  · rw [f2, ht, List.append_assoc]
  · exact load_activities_fold_sorted _ _ (by rw [hm]; exact List.Pairwise.nil)
  · rw [f3, hm, List.append_nil, List.reverse_reverse, hh, kept_activities_snd]
    unfold inserted_activities
    rw [built_activities_append, built_activities_append, built_activities_append,
      built_activities_of_passive es1 hp1, built_activities_of_passive es2 hp2,
      built_activities_calls]
    rfl

/-- C23, amended: after `load_activities` the map is in ascending order of the activity ids,
and `find_activity` scans it from the largest id to the smallest, which is the order in
which `load_activities` inserted the activities, first inserted first; it returns the answer
of the first activity in that order whose job kind is not `JOB_UNKNOWN`, and
`(JOB_UNKNOWN, "")` when no loaded activity knows the figure. -/
theorem C23_first_inserted_first_amended (df : DFInstance) (L : MemoryLayout)
    (hL : df.m_layout = some L) :
    ∃ d es, load_activities df = some d ∧ d.trace = df.trace ++ es ∧
      d.m_activities.Pairwise (fun a b => a.1 < b.1) ∧
      d.m_activities.reverse.map Prod.snd = inserted_activities df.host es ∧
      ∀ histfig_id : Int,
        (∃ l1 a l2, inserted_activities df.host es = l1 ++ a :: l2 ∧
          (∀ x ∈ l1, (x.find_activity histfig_id).1 = df.host.JOB_UNKNOWN) ∧
          (a.find_activity histfig_id).1 ≠ df.host.JOB_UNKNOWN ∧
          find_activity d histfig_id = a.find_activity histfig_id) ∨
        ((∀ x ∈ inserted_activities df.host es,
            (x.find_activity histfig_id).1 = df.host.JOB_UNKNOWN) ∧
          find_activity d histfig_id = (df.host.JOB_UNKNOWN, "")) := by
  obtain ⟨d, es, hd, hh, ht, hs, hi⟩ := load_activities_order df L hL
  refine ⟨d, es, hd, ht, hs, hi, ?_⟩
  intro histfig_id
  unfold find_activity
  rw [hi, hh]
  exact find_activity_scan_first df.host.JOB_UNKNOWN histfig_id (inserted_activities df.host es)

/-- Witness of C23 as amended: of the activities with the ids 1 (at 20480) and 2 (at 24576)
the second is asked first: the figure 7 has its job 20, the figure 8, which it does not
know, the job 11 of the first, and the figure 9, which none knows, `JOB_UNKNOWN`. -/
theorem C23_first_inserted_first_amended_witness :
    instance_with_activities.m_layout = some catalog_layout ∧
    ∃ d, load_activities instance_with_activities = some d ∧
      d.m_activities.map (fun e => (e.1, e.2.address)) = [(1, 20480), (2, 24576)] ∧
      find_activity d 7 = (20, "pray") ∧ find_activity d 8 = (11, "spar") ∧
      find_activity d 9 = (-1, "") := by
  obtain ⟨d, es, hd, _, _, _, _⟩ :=
    C23_first_inserted_first_amended instance_with_activities catalog_layout rfl
  have he : (load_activities instance_with_activities).map
      (fun d => (d.m_activities.map (fun e => (e.1, e.2.address)), find_activity d 7,
        find_activity d 8, find_activity d 9))
      = some ([(1, 20480), (2, 24576)], (20, "pray"), (11, "spar"), (-1, "")) := by decide
  rw [hd, Option.map_some'] at he
  have he2 := Option.some.inj he
  exact ⟨rfl, d, hd, congrArg Prod.fst he2, congrArg (fun p => p.2.1) he2,
    congrArg (fun p => p.2.2.1) he2, congrArg (fun p => p.2.2.2) he2⟩

/-! ## Hex dump -/

/-- C27: for the buffer of the one byte 65, `pprint` builds one row; at column 1 of the text
column the slice `ba.mid(1, 1)` is empty and `at(0)` is applied to it.  The same happens in
the second row of a buffer of 17 bytes; a buffer of 16 bytes is dumped without it. -/
theorem C27_partial_row_indexes_empty_slice :
    (mid [65] 0 1 = [65] ∧ mid [65] 1 1 = [] ∧ pprint_text_cell [65] 0 "" 1 = none ∧
      pprint plain_host [65] = none) ∧
    (mid (List.replicate 17 65) 17 1 = [] ∧
      pprint_text_cell (List.replicate 17 65) 1 "" 1 = none ∧
      pprint plain_host (List.replicate 17 65) = none) ∧
    (pprint plain_host (List.replicate 16 65)).isSome = true := by
  decide

/-- C24, counterexample: in a row of 16 bytes the byte 1 and the byte 200, neither
printable, are rendered in the text column as "01" and "c8", two characters each, not as a
dot: the text column of the 16 bytes has 18 characters. -/
theorem C24_unprintable_byte_is_hex_counterexample :
    sample_buffer.length = 16 ∧
    pprint plain_host sample_buffer = some (pprint_header ++
      "0x00000000 | 01 c8 41 41 41 41 41 41 41 41 41 41 41 41 41 41 | 01c8AAAAAAAAAAAAAA\n") :=
  ⟨rfl, rfl⟩

theorem foldl_append_concat {α : Type} (f : α → String) (l : List α) (out : String) :
    l.foldl (fun out c => out ++ f c) out = out ++ concat (l.map f) := by
  induction l generalizing out with
  | nil => exact (String.append_empty out).symm
  | cons a rest ih =>
    rw [List.foldl_cons, ih, List.map_cons, String.append_assoc]
    rfl

theorem pprint_hex_eq (ba : List Nat) (i : Nat) (out : String) :
    pprint_hex ba i out =
      out ++ concat ((List.range 16).map (fun c => toHex (mid ba (i * 16 + c) 1) ++ " ")) := by
  unfold pprint_hex
  have h : (fun (out : String) (c : Nat) => (out ++ toHex (mid ba (i * 16 + c) 1)) ++ " ")
      = (fun (out : String) (c : Nat) => out ++ (toHex (mid ba (i * 16 + c) 1) ++ " ")) := by
    funext out c
    exact String.append_assoc _ _ _
  rw [h]
  exact foldl_append_concat _ _ _

theorem mid_mid (ba : List Nat) (p c : Nat) (hc : c < 16) :
    mid ba (p + c) 1 = mid (mid ba p 16) c 1 := by
  unfold mid
  rw [List.drop_take, List.take_take, List.drop_drop]
  have h1 : min 1 (16 - c) = 1 := by omega
  rw [h1]

theorem mid_row_map {β : Type} (g : List Nat → β) (row : List Nat) :
    (List.range row.length).map (fun c => g (mid row c 1)) = row.map (fun b => g [b]) := by
  induction row with
  | nil => rfl
  | cons a rest ih =>
    rw [List.length_cons, List.range_succ_eq_map, List.map_cons, List.map_map, List.map_cons]
    have h0 : mid (a :: rest) 0 1 = [a] := rfl
    rw [h0, ← ih]
    rfl

theorem mid_row_cell (row : List Nat) (c : Nat) (hc : c < row.length) :
    ∃ b, mid row c 1 = [b] := by
  induction row generalizing c with
  | nil => exact absurd hc (Nat.not_lt_zero c)
  | cons a rest ih =>
    cases c with
    | zero => exact ⟨a, rfl⟩
    | succ n => exact ih n (Nat.lt_of_succ_lt_succ hc)

theorem pprint_text_cell_eq (ba : List Nat) (i c b : Nat) (out : String)
    (h : mid ba (i * 16 + c) 1 = [b]) :
    pprint_text_cell ba i out c = some (out ++ text_of_byte b) := by
  unfold pprint_text_cell text_of_byte
  simp only [h, List.head?_cons]
  by_cases h0 : b % 256 = 0
  · rw [if_pos h0, if_pos h0]
  · rw [if_neg h0, if_neg h0]
    by_cases h1 : b % 256 ≤ 126 ∧ b % 256 ≥ 32
    · rw [if_pos h1, if_pos h1]
    · rw [if_neg h1, if_neg h1]

theorem pprint_text_eq (ba : List Nat) (i : Nat) (cs : List Nat) (out : String)
    (h : ∀ c ∈ cs, ∃ b, mid ba (i * 16 + c) 1 = [b]) :
    pprint_text ba i cs out =
      some (out ++ concat (cs.map (fun c => concat ((mid ba (i * 16 + c) 1).map text_of_byte)))) := by
  induction cs generalizing out with
  | nil => exact congrArg some (String.append_empty out).symm
  | cons c rest ih =>
    obtain ⟨b, hb⟩ := h c (List.mem_cons_self _ _)
    unfold pprint_text
    rw [pprint_text_cell_eq ba i c b out hb]
    simp only []
    rw [ih _ (fun c2 hc2 => h c2 (List.mem_cons_of_mem _ hc2)), List.map_cons, hb,
      String.append_assoc]
    simp only [List.map_cons, List.map_nil, concat, String.append_empty]

theorem mid_length (ba : List Nat) (p n : Nat) (h : p + n ≤ ba.length) :
    (mid ba p n).length = n := by
  unfold mid
  rw [List.length_take, List.length_drop]
  omega

/-- A complete row: the loop body of `pprint` appends the offset, the hexadecimal column and
the text column of the 16 bytes of the row. -/
theorem pprint_row_eq (host : Host) (ba : List Nat) (out : String) (i : Nat)
    (hrow : i * 16 + 16 ≤ ba.length) (hoff : i * 16 < WORD32) :
    pprint_row host ba out i = some (out ++ dump_row host ba i) := by
  have hlen : (mid ba (i * 16) 16).length = 16 := mid_length ba (i * 16) 16 hrow
  have hcells : ∀ c ∈ List.range 16, ∃ b, mid ba (i * 16 + c) 1 = [b] := by
    intro c hc
    have hc16 : c < 16 := List.mem_range.mp hc
    rw [mid_mid ba (i * 16) c hc16]
    exact mid_row_cell _ c (by rw [hlen]; exact hc16)
  have hmap : ∀ {β : Type} (g : List Nat → β),
      (List.range 16).map (fun c => g (mid ba (i * 16 + c) 1))
        = (mid ba (i * 16) 16).map (fun b => g [b]) := by
    intro β g
    rw [← mid_row_map g (mid ba (i * 16) 16), hlen]
    apply List.map_congr_left
    intro c hc
    rw [mid_mid ba (i * 16) c (List.mem_range.mp hc)]
  unfold pprint_row
  simp only []
  rw [pprint_text_eq ba i (List.range 16) _ hcells]
  simp only []
  rw [pprint_hex_eq, hmap (fun tmp => toHex tmp ++ " "),
    hmap (fun tmp => concat (tmp.map text_of_byte)), Nat.mod_eq_of_lt hoff]
  unfold dump_row
  simp only [List.map_cons, List.map_nil, concat, String.append_empty, String.append_assoc,
    Nat.mul_comm 16 i]

theorem pprint_rows_eq (host : Host) (ba : List Nat) (rows : List Nat) (out : String)
    (h : ∀ i ∈ rows, i * 16 + 16 ≤ ba.length ∧ i * 16 < WORD32) :
    pprint_rows host ba rows out = some (out ++ concat (rows.map (dump_row host ba))) := by
  induction rows generalizing out with
  | nil => exact congrArg some (String.append_empty out).symm
  | cons i rest ih =>
    obtain ⟨h1, h2⟩ := h i (List.mem_cons_self _ _)
    unfold pprint_rows
    rw [pprint_row_eq host ba out i h1 h2]
    simp only []
    rw [ih _ (fun j hj => h j (List.mem_cons_of_mem _ hj)), List.map_cons, String.append_assoc]
    rfl

/-- C24, amended: for a byte buffer whose length `n` is a multiple of 16 (a `QByteArray`
holds fewer than 2^31 bytes), `pprint` emits after its two header lines exactly `n / 16`
rows, none for an empty buffer; row `i` starts with the offset `16 * i`, then come the
two hexadecimal digits of each byte of the row, then the text column, in which the byte 0 is
a dot, a printable byte (32 to 126) its ASCII character and any other byte its two
hexadecimal digits. -/
theorem C24_dump_of_whole_rows_amended (host : Host) (ba : List Nat)
    (hsize : ba.length < 2147483648) (hwhole : ba.length % 16 = 0) :
    pprint host ba =
      some (pprint_header ++ concat ((List.range (ba.length / 16)).map (dump_row host ba))) ∧
    ((List.range (ba.length / 16)).map (dump_row host ba)).length * 16 = ba.length := by
  constructor
  · unfold pprint
    have h1 : ¬ ba.length % 16 ≠ 0 := fun h => h hwhole
    have h3 : (if ba.length / 16 < 1 then 0 else ba.length / 16) = ba.length / 16 := by
      split <;> omega
    simp only [h1, if_false, h3]
    apply pprint_rows_eq
    intro i hi
    have hi2 : i < ba.length / 16 := List.mem_range.mp hi
    have hw : WORD32 = 4294967296 := rfl
    omega
  · rw [List.length_map, List.length_range]
    omega

/-- Witness of C24 as amended: a buffer of 32 bytes, the second 16 of them zero, is dumped in
two rows, at the offsets 0 and 16. -/
theorem C24_dump_of_whole_rows_amended_witness :
    (sample_buffer ++ List.replicate 16 0).length = 32 ∧
    pprint plain_host (sample_buffer ++ List.replicate 16 0) = some (pprint_header ++
      ("0x00000000 | 01 c8 41 41 41 41 41 41 41 41 41 41 41 41 41 41 | 01c8AAAAAAAAAAAAAA\n" ++
       "0x00000010 | 00 00 00 00 00 00 00 00 00 00 00 00 00 00 00 00 | ................\n")) := by
  have h := (C24_dump_of_whole_rows_amended plain_host (sample_buffer ++ List.replicate 16 0)
    (by decide) (by decide)).1
  refine ⟨rfl, ?_⟩
  rw [h]
  rfl

theorem pprint_text_fails (ba : List Nat) (i : Nat) (cs : List Nat) (out : String)
    (h : ∃ c ∈ cs, mid ba (i * 16 + c) 1 = []) : pprint_text ba i cs out = none := by
  induction cs generalizing out with
  | nil =>
    obtain ⟨c, hc, _⟩ := h
    exact absurd hc (List.not_mem_nil c)
  | cons c rest ih =>
    unfold pprint_text
    cases hcell : pprint_text_cell ba i out c with
    | none => rfl
    | some out1 =>
      simp only []
      apply ih
      obtain ⟨c2, hc2, hm⟩ := h
      rcases List.mem_cons.mp hc2 with hc2 | hc2
      · subst hc2
        unfold pprint_text_cell at hcell
        simp [hm] at hcell
      · exact ⟨c2, hc2, hm⟩

theorem pprint_rows_cons (host : Host) (ba : List Nat) (i : Nat) (rest : List Nat)
    (out : String) :
    pprint_rows host ba (i :: rest) out =
      (pprint_row host ba out i).bind (pprint_rows host ba rest) := by
  cases h : pprint_row host ba out i <;> simp [pprint_rows, h]

theorem pprint_rows_append (host : Host) (ba : List Nat) (a b : List Nat) (out : String) :
    pprint_rows host ba (a ++ b) out =
      (pprint_rows host ba a out).bind (pprint_rows host ba b) := by
  induction a generalizing out with
  | nil => rfl
  | cons i rest ih =>
    rw [List.cons_append, pprint_rows_cons, pprint_rows_cons]
    cases pprint_row host ba out i with
    | none => rfl
    | some out1 => exact ih out1

/-- A buffer whose length is not a multiple of 16 has a final partial row, in whose text
column `at(0)` is applied to an empty slice. -/
theorem pprint_partial_row (host : Host) (ba : List Nat) (h : ba.length % 16 ≠ 0) :
    pprint host ba = none := by
  unfold pprint
  have h3 : (if ba.length / 16 + 1 < 1 then 0 else ba.length / 16 + 1) = ba.length / 16 + 1 := by
    split <;> omega
  simp only [h, ne_eq, not_false_eq_true, if_true, h3]
  rw [List.range_succ, pprint_rows_append]
  cases pprint_rows host ba (List.range (ba.length / 16)) pprint_header with
  | none => rfl
  | some out1 =>
    show pprint_rows host ba [ba.length / 16] out1 = none
    rw [pprint_rows_cons]
    have hrow : pprint_row host ba out1 (ba.length / 16) = none := by
      unfold pprint_row
      simp only []
      rw [pprint_text_fails ba (ba.length / 16) (List.range 16) _
        ⟨ba.length % 16, List.mem_range.mpr (Nat.mod_lt _ (by decide)), by
          have hn : ba.length / 16 * 16 + ba.length % 16 = ba.length := by omega
          rw [hn]
          unfold mid
          rw [List.drop_length]
          rfl⟩]
    rw [hrow]
    rfl

/-! ## Adding a layout file -/

theorem arg_chars_ne_nil (a l : List Char) (ha : a ≠ []) (hl : l ≠ []) :
    arg_chars a l ≠ [] := by
  cases l with
  | nil => exact absurd rfl hl
  | cons c rest =>
    cases rest with
    | nil => simp [arg_chars]
    | cons d rest2 =>
      unfold arg_chars
      split
      · intro h
        exact ha (List.append_eq_nil.mp h).1
      · exact List.cons_ne_nil _ _

theorem qarg_ne_empty (s a : String) (hs : s ≠ "") (ha : a ≠ "") : qarg s a ≠ "" := by
  intro h
  have h1 : (qarg s a).data = [] := congrArg String.data h
  have hs1 : s.data ≠ [] := fun hc => hs (String.ext hc)
  have ha1 : a.data ≠ [] := fun hc => ha (String.ext hc)
  exact arg_chars_ne_nil a.data s.data ha1 hs1 h1

/-- C21: when the target layout file exists, `add_new_layout` returns false, leaves a
non-empty message, and changes neither the files nor the instance, its registry included;
when the file does not exist and cannot be created, it returns false with a non-empty
message, and changes neither the files nor the registry.  The two message texts are taken
not to be translated to the empty text, and the absolute path is not empty. -/
theorem C21_existing_or_uncreatable_file_fails (df : DFInstance) (fs : FileSystem)
    (filename data result_msg : String)
    (hexist : df.host.tr "Layout file %1 already exist!" ≠ "")
    (hfail : df.host.tr "Failed to create layout file %1" ≠ "")
    (hpath : layout_file_path df.host filename ≠ "") :
    (assoc_contains fs.files (layout_file_path df.host filename) = true →
      (add_new_layout df fs filename data result_msg).1.1 = false ∧
      (add_new_layout df fs filename data result_msg).1.2.1 ≠ "" ∧
      (add_new_layout df fs filename data result_msg).1.2.2 = fs ∧
      (add_new_layout df fs filename data result_msg).2 = df) ∧
    (assoc_contains fs.files (layout_file_path df.host filename) = false →
      fs.can_create (layout_file_path df.host filename) = false →
      (add_new_layout df fs filename data result_msg).1.1 = false ∧
      (add_new_layout df fs filename data result_msg).1.2.1 ≠ "" ∧
      (add_new_layout df fs filename data result_msg).1.2.2 = fs ∧
      (add_new_layout df fs filename data result_msg).2.m_memory_layouts
        = df.m_memory_layouts) := by
  unfold layout_file_path at hpath ⊢
  constructor
  · intro he
    unfold add_new_layout
    simp only [he, if_true, Bool.false_eq_true, if_false]
    exact ⟨trivial, qarg_ne_empty _ _ hexist hpath, trivial, trivial⟩
  · intro he hc
    unfold add_new_layout
    simp only [he, hc, Bool.not_false, if_true, Bool.false_eq_true, if_false]
    exact ⟨trivial, qarg_ne_empty _ _ hfail hpath, trivial, rfl⟩

/-- Witness of C21: "v1.ini" exists and "locked.ini" cannot be created; both calls return
false with their message, and the file "v1.ini" and the registry are as before. -/
theorem C21_existing_or_uncreatable_file_fails_witness :
    layout_outcome (add_new_layout (instance_with_registry DFStatus.DFS_CONNECTED) sample_files
      "v1.ini" "xyz" "")
      = (false, "Layout file /opt/dt/share/memory_layouts/linux/v1.ini already exist!",
          [("/opt/dt/share/memory_layouts/linux/v1.ini", "abc")], ["abc"]) ∧
    layout_outcome (add_new_layout (instance_with_registry DFStatus.DFS_CONNECTED) sample_files
      "locked.ini" "xyz" "")
      = (false, "Failed to create layout file /opt/dt/share/memory_layouts/linux/locked.ini",
          [("/opt/dt/share/memory_layouts/linux/v1.ini", "abc")], ["abc"]) ∧
    layout_outcome (add_new_layout (instance_with_registry DFStatus.DFS_CONNECTED) sample_files
      "v2.ini" "xyz" "")
      = (true, "",
          [("/opt/dt/share/memory_layouts/linux/v2.ini", "xyz"),
           ("/opt/dt/share/memory_layouts/linux/v1.ini", "abc")], ["xyz", "abc"]) := by
  have h := C21_existing_or_uncreatable_file_fails (instance_with_registry DFStatus.DFS_CONNECTED)
    sample_files "v1.ini" "xyz" "" (by decide) (by decide) (by decide)
  have h2 := C21_existing_or_uncreatable_file_fails
    (instance_with_registry DFStatus.DFS_CONNECTED) sample_files "locked.ini" "xyz" ""
    (by decide) (by decide) (by decide)
  obtain ⟨a1, _, a3, a4⟩ := h.1 (by decide)
  obtain ⟨b1, _, b3, b4⟩ := h2.2 (by decide) (by decide)
  refine ⟨?_, ?_, by decide⟩
  · unfold layout_outcome
    rw [a1, a3, a4]
    exact Prod.ext rfl (Prod.ext (by decide) rfl)
  · unfold layout_outcome
    rw [b1, b3, b4]
    exact Prod.ext rfl (Prod.ext (by decide) rfl)

end DwarfTherapist
